import Mathlib

/-! # The request state engine of varnishd (bin/varnishd/cache/cache_req_fsm.c)

A shallow embedding of the request-handling state machine: one Lean function
per handler `cnt_*`, and the dispatcher `CNT_Request`.

Conventions of the embedding.

* A handler is a function of the configuration (`cache_param`), of the answers
  that the policy hooks and the collaborators give during this invocation
  (`answers`), and of the state (`State`: the worker, the request and a ghost
  trace of the calls made so far).  Nothing is assumed about the answers; each
  theorem names the answers it depends on.
* A pointer is an `Option`; `NULL` is `none`.  The pointee is embedded by value.
* `AZ`, `AN`, `assert`, `CHECK_OBJ_NOTNULL`, `WS_Assert`, `WRONG` and `INCOMPL`
  abort the process: the handler yields `Res.abort`.  A polling loop on a
  busyobj that never reaches a terminal state yields `Res.hang`.
* The thread workspace `wrk->aws` and the write context `wrk->wrw` belong to the
  worker.  The handlers never write them; the calls they make may.  What the
  calls of one turn leave in the workspace, and what `RES_WriteObj` and
  `PipeRequest` leave in `wrk->wrw`, are answers.
* Not represented: the magic numbers of `CHECK_OBJ`, the log records (`VSLb`),
  the time stamps
  (`t_req`, `t_resp`, the LRU touch of lines 149-157, the `Date` header), the
  SHA256 digest, `EXP_Clr`, `HTTP_Setup`, `RES_BuildHttp`, `http_Teardown`,
  `http_CollectHdr`, `HTTP1_DiscardReqBody`.  None of them decides control flow.
-/

/- The records below are updated field by field inside one another; compiled
evaluation keeps every update a fresh copy. -/
set_option compiler.reuse false

namespace Varnish

/-! ## Enumerations declared outside this file -/

/-- Modelled from the spec: the verdicts a policy hook leaves in `wrk->handling`
(`VCL_RET_*`, declared in vcl_returns.h); the spec fixes the set as
LOOKUP, HASH, PASS, PIPE, PURGE, FETCH, DELIVER, RESTART, ERROR. -/
inductive vcl_ret where
  | VCL_RET_LOOKUP
  | VCL_RET_HASH
  | VCL_RET_PASS
  | VCL_RET_PIPE
  | VCL_RET_PURGE
  | VCL_RET_FETCH
  | VCL_RET_DELIVER
  | VCL_RET_RESTART
  | VCL_RET_ERROR
  deriving DecidableEq, Repr

/-- Modelled from the spec: the steps of tbl/steps.h (`R_STP_*`), one per handler
`cnt_*` of this file. -/
inductive req_step where
  | R_STP_RECV
  | R_STP_PIPE
  | R_STP_PASS
  | R_STP_LOOKUP
  | R_STP_PURGE
  | R_STP_MISS
  | R_STP_FETCH
  | R_STP_PREPRESP
  | R_STP_DELIVER
  | R_STP_ERROR
  | R_STP_RESTART
  deriving DecidableEq, Repr

/-- The dispatch verdict of a handler (`enum req_fsm_nxt`). -/
inductive req_fsm_nxt where
  | REQ_FSM_MORE
  | REQ_FSM_DONE
  | REQ_FSM_DISEMBARK
  deriving DecidableEq, Repr

/-- Modelled from the spec: the outcome of an index lookup (`enum lookup_e`);
the handlers name `HSH_BUSY` and `HSH_MISS` and treat every other value as a
hit. -/
inductive lookup_e where
  | HSH_MISS
  | HSH_BUSY
  | HSH_HIT
  deriving DecidableEq, Repr

/-- Modelled from the spec: the states of a busyobj (`enum busyobj_state_e`),
advancing REQ_DONE, FETCH, STREAM and ending in FAILED or FINISHED; the terminal
states are exactly those with `state >= BOS_FAILED`. -/
inductive busyobj_state_e where
  | BOS_REQ_DONE
  | BOS_FETCHING
  | BOS_STREAM
  | BOS_FAILED
  | BOS_FINISHED
  deriving DecidableEq, Repr

/-- The integer value of a busyobj state, for the comparisons `<` and `>=`. -/
def busyobj_state_e.toNat : busyobj_state_e → Nat
  | .BOS_REQ_DONE => 1
  | .BOS_FETCHING => 2
  | .BOS_STREAM => 3
  | .BOS_FAILED => 4
  | .BOS_FINISHED => 5

/-- The reasons for closing the session that this file assigns to `doclose`. -/
inductive sess_close where
  | SC_TX_EOF
  | SC_OVERLOAD
  | SC_TX_ERROR
  deriving DecidableEq, Repr

/-- The policy hooks called by the handlers (`VCL_<name>_method`). -/
inductive vcl_method where
  | recv
  | hash
  | lookup
  | miss
  | pass
  | pipe
  | purge
  | deliver
  | error
  deriving DecidableEq, Repr

/-! ## Flag masks declared in cache.h -/

/-- Modelled from the spec: objcore flag BUSY, a single-bit mask (cache.h). -/
def OC_F_BUSY : Nat := 2

/-- Modelled from the spec: objcore flag PASS, the hit-for-pass marker, a
single-bit mask distinct from BUSY (cache.h). -/
def OC_F_PASS : Nat := 4

/-- Modelled from the spec: response mode LEN, a single-bit mask (cache.h). -/
def RES_LEN : Nat := 2

/-- Modelled from the spec: response mode EOF, a single-bit mask (cache.h). -/
def RES_EOF : Nat := 4

/-- Modelled from the spec: response mode CHUNKED, a single-bit mask (cache.h). -/
def RES_CHUNKED : Nat := 8

/-- Modelled from the spec: response mode ESI, a single-bit mask (cache.h). -/
def RES_ESI : Nat := 16

/-- Modelled from the spec: response mode ESI_CHILD, a single-bit mask (cache.h). -/
def RES_ESI_CHILD : Nat := 32

/-- Modelled from the spec: response mode GUNZIP, a single-bit mask (cache.h). -/
def RES_GUNZIP : Nat := 64

/-- The C expression `m & ~b` on 32-bit unsigned values. -/
def clear_bits (m b : Nat) : Nat := m &&& ((2 ^ 32 - 1) ^^^ b)

/-- The C expression `m | b`. -/
def set_bits (m b : Nat) : Nat := m ||| b

/-- The C truth value of `m & b`. -/
def test_bits (m b : Nat) : Bool := m &&& b != 0

/-! ## Data model -/

/-- The metadata entry of the index (`struct objcore`): its flags and the objhead
it hangs on. -/
structure objcore where
  flags : Nat
  objhead : Option Nat
  deriving DecidableEq, Repr

/-- A cached object (`struct object`), with the fields the handlers read or write;
`status` is the status line of `obj->http`. -/
structure object where
  objcore : objcore
  esidata : Option Nat
  gziped : Bool
  vxid : Nat
  status : Int
  deriving DecidableEq, Repr

/-- The context of a backend fetch (`struct busyobj`).  `state`, `err_code` and
`fetch_obj` are written by the fetch thread; the value held here is the one the
request sees once its polling loop is over, so a `state` below `BOS_FAILED`
means the loop never ends. -/
structure busyobj where
  state : busyobj_state_e
  err_code : Int
  fetch_obj : Option object
  fetch_objcore : Option objcore
  do_esi : Bool
  do_stream : Bool
  refcount : Nat
  stats : Bool
  vsl_wid : Nat
  deriving DecidableEq, Repr

/-- The request line and the headers of `req->http` that the handlers look at. -/
structure http where
  method : String
  protover : Nat
  accept_encoding : Option String
  deriving DecidableEq, Repr

/-- The loaded policy (`struct VCL_conf`): its table of directors. -/
structure VCL_conf where
  director : List Nat
  deriving DecidableEq, Repr

/-- The per-request accounting counters (`req->acct_req`). -/
structure acct where
  fetch : Nat
  pass : Nat
  pipe : Nat
  error : Nat
  deriving DecidableEq, Repr

/-- The request context (`struct req`). -/
structure req where
  req_step : req_step
  restarts : Nat
  err_code : Int
  err_reason : Option String
  obj : Option object
  objcore : Option objcore
  busyobj : Option busyobj
  director : Option Nat
  vcl : VCL_conf
  http : http
  wantbody : Bool
  res_mode : Nat
  doclose : Option sess_close
  esi_level : Nat
  disable_esi : Bool
  hash_always_miss : Bool
  hash_ignore_busy : Bool
  client_identity : Option String
  vary_b : Option Nat
  acct_req : acct
  vsl_wid : Nat
  body : List Nat
  wrk : Bool
  deriving DecidableEq, Repr

/-- The counters of `wrk->stats` that the handlers bump. -/
structure dstat where
  cache_hit : Nat
  cache_hitpass : Nat
  cache_miss : Nat
  deriving DecidableEq, Repr

/-- The thread workspace (`struct ws`, here `wrk->aws`): `s` is its start and `f`
its front, so it is empty when the two are equal; `sane` tells whether
`WS_Assert` passes on it. -/
structure ws where
  sane : Bool
  s : Nat
  f : Nat
  deriving DecidableEq, Repr

/-- The worker thread (`struct worker`); `wrw` is its write context, NULL when
the writer is released. -/
structure worker where
  handling : vcl_ret
  stats : dstat
  aws : ws
  wrw : Option Nat
  deriving DecidableEq, Repr

/-- The run-time parameters read by the handlers (`cache_param`), and the
constant `VSL_CLIENTMARKER` of the log API. -/
structure params where
  http_gzip_support : Bool
  max_restarts : Nat
  http_resp_size : Nat
  http_max_hdr : Nat
  VSL_CLIENTMARKER : Nat
  deriving DecidableEq, Repr

/-- A call that leaves the state engine, recorded in the ghost trace: the policy
hooks, the index, the fetch and storage collaborators, the writes into the
synthetic response.  `step u` marks the dispatcher invoking handler `u`. -/
inductive Event where
  | step (u : req_step)
  | VCL (m : vcl_method)
  | VRY_Prep
  | VRY_Finish (keep : Bool)
  | HSH_Lookup (want_waitinglist always_miss : Bool) (lr : lookup_e)
  | HSH_Purge (oh : Option Nat)
  | HSH_Deref_oc (oc : objcore)
  | HSH_Deref_obj (o : object)
  | HSH_Drop (o : object)
  | HSH_NewObjCore
  | oc_getobj (oc : objcore)
  | VBF_Fetch (oc : objcore) (pass : Bool)
  | VBO_GetBusyObj
  | VBO_DerefBusyObj
  | STV_NewObject (size nhdr : Nat)
  | STV_Freestore (o : object)
  | free_vary_b
  | http_PutProtocol (p : String)
  | http_PutStatus (status : Int)
  | http_SetHeader (h : String)
  | http_PutResponse (reason : Option String) (status : Int)
  | RES_WriteObj
  | PipeRequest
  | SES_Charge
  deriving DecidableEq, Repr

/-- The state the handlers work on: the worker, the request, the ghost trace. -/
structure State where
  wrk : worker
  req : req
  trace : List Event
  deriving DecidableEq, Repr

/-! ## Answers of the hooks and collaborators -/

/-- Modelled from the spec: what a policy hook (generated code, outside this
file) does to the engine: it leaves a verdict in `wrk->handling` and may set the
error status and the policy-settable request flags (spec sections 3, 6 and 7).
A field that is `none` is left as it was. -/
structure hook_result where
  handling : vcl_ret
  err_code : Option Int
  err_reason : Option String
  disable_esi : Option Bool
  hash_always_miss : Option Bool
  hash_ignore_busy : Option Bool
  deriving DecidableEq, Repr

/-- The result of `HSH_Lookup`: the return value and the two out-parameters. -/
structure lookup_result where
  lr : lookup_e
  oc : Option objcore
  boc : Option objcore
  deriving DecidableEq, Repr

/-- The result of `STV_NewObject`: the object, or `none` when the allocation
fails, and the value it leaves in `bo->fetch_objcore`. -/
structure newobject_result where
  obj : Option object
  fetch_objcore : Option objcore
  deriving DecidableEq, Repr

/-- What the hooks and the collaborators answer during one handler invocation.
Every handler calls each of them at most once.  `RES_WriteObj` and `PipeRequest`
hold the write context that the call leaves in `wrk->wrw` (NULL when it released
the writer); `aws` is the thread workspace as the calls of this turn leave it. -/
structure answers where
  vcl : vcl_method → hook_result
  HSH_Lookup : lookup_result
  oc_getobj : Option object
  HSH_NewObjCore : objcore
  HSH_Deref : Nat
  VBF_Fetch : busyobj
  VBO_GetBusyObj : busyobj
  STV_NewObject : newobject_result
  RFC2616_Req_Gzip : Bool
  RES_WriteObj : Option Nat
  PipeRequest : Option Nat
  aws : ws

/-! ## Results -/

/-- The outcome of running a handler or the dispatcher. -/
inductive Res (α : Type) where
  | ok (a : α)
  | abort
  | hang
  | nofuel
  deriving DecidableEq, Repr

/-- Sequencing of outcomes. -/
def Res.bind {α β : Type} (x : Res α) (f : α → Res β) : Res β :=
  match x with
  | .ok a => f a
  | .abort => .abort
  | .hang => .hang
  | .nofuel => .nofuel

instance : Monad Res where
  pure := Res.ok
  bind := Res.bind

/-- The macro `AZ(x)`: abort unless `x` is zero. -/
def AZ (nonzero : Bool) : Res Unit := if nonzero then .abort else .ok ()

/-- The macro `AN(x)`: abort unless `x` is non-zero. -/
def AN (nonzero : Bool) : Res Unit := if nonzero then .ok () else .abort

/-- The C `assert(c)`. -/
def assert (c : Bool) : Res Unit := if c then .ok () else .abort

open vcl_ret req_step req_fsm_nxt lookup_e busyobj_state_e sess_close

/-! ## Calls out of the engine -/

/-- Append an event to the ghost trace. -/
def emit (e : Event) (s : State) : State := { s with trace := s.trace ++ [e] }

/-- A call `VCL_<m>_method(req->vcl, wrk, req, NULL, req->http->ws)`. -/
def VCL_method (a : answers) (m : vcl_method) (s : State) : State :=
  { wrk := { s.wrk with handling := (a.vcl m).handling },
    req := { s.req with
      err_code := (a.vcl m).err_code.getD s.req.err_code,
      err_reason := (a.vcl m).err_reason.orElse (fun _ => s.req.err_reason),
      disable_esi := (a.vcl m).disable_esi.getD s.req.disable_esi,
      hash_always_miss := (a.vcl m).hash_always_miss.getD s.req.hash_always_miss,
      hash_ignore_busy := (a.vcl m).hash_ignore_busy.getD s.req.hash_ignore_busy },
    trace := s.trace ++ [Event.VCL m] }

/-- The call `VBO_DerefBusyObj(wrk, &req->busyobj)`: drops the reference and
clears the pointer. -/
def VBO_DerefBusyObj (s : State) : State :=
  { s with req := { s.req with busyobj := none },
           trace := s.trace ++ [Event.VBO_DerefBusyObj] }

/-- The call `HSH_Deref(&wrk->stats, NULL, &req->obj)`: drops the reference and
clears the pointer. -/
def HSH_Deref_obj (s : State) : State :=
  { s with
    req := { s.req with obj := none },
    trace := s.trace ++
      (match s.req.obj with
        | some o => [Event.HSH_Deref_obj o]
        | none => []) }

/-- The call `HSH_Drop(wrk, &req->obj)`: drops the object and clears the pointer. -/
def HSH_Drop (s : State) : State :=
  { s with
    req := { s.req with obj := none },
    trace := s.trace ++
      (match s.req.obj with
        | some o => [Event.HSH_Drop o]
        | none => []) }

/-- The call `RES_WriteObj(req)`: the response writer; it leaves `wrk->wrw` as
answered. -/
def RES_WriteObj (a : answers) (s : State) : State :=
  { s with wrk := { s.wrk with wrw := a.RES_WriteObj },
           trace := s.trace ++ [Event.RES_WriteObj] }

/-- The call `PipeRequest(req)`: it leaves `wrk->wrw` as answered. -/
def PipeRequest (a : answers) (s : State) : State :=
  { s with wrk := { s.wrk with wrw := a.PipeRequest },
           trace := s.trace ++ [Event.PipeRequest] }

/-- The predicate `WRW_IsReleased(wrk)`: the worker holds no write context. -/
def WRW_IsReleased (w : worker) : Bool := w.wrw.isNone

/-- The call `WS_Assert(ws)`: abort unless the workspace is well formed. -/
def WS_Assert (w : ws) : Res Unit := assert w.sane

/-! ## RECV -/

/-- The handler `cnt_recv` (lines 741-826). -/
def cnt_recv (cache_param : params) (a : answers) (s : State) :
    Res (req_fsm_nxt × State) := do
  AZ s.req.objcore.isSome
  AZ s.req.obj.isSome
  AZ s.req.objcore.isSome
  AZ s.req.busyobj.isSome
  if s.req.err_code ≠ 0 then
    Res.ok (REQ_FSM_MORE, { s with req := { s.req with req_step := R_STP_ERROR } })
  else do
    /- By default we use the first backend -/
    AZ s.req.director.isSome
    let s := { s with req := { s.req with director := s.req.vcl.director.head? } }
    AN s.req.director.isSome
    let s := { s with req := { s.req with
      disable_esi := false,
      hash_always_miss := false,
      hash_ignore_busy := false,
      client_identity := none } }
    let s := VCL_method a .recv s
    let recv_handling := s.wrk.handling
    let s := { s with req := { s.req with http := { s.req.http with
      accept_encoding :=
        if cache_param.http_gzip_support && recv_handling != VCL_RET_PIPE
            && recv_handling != VCL_RET_PASS then
          if a.RFC2616_Req_Gzip then some "gzip" else none
        else s.req.http.accept_encoding } } }
    let s := VCL_method a .hash s
    assert (s.wrk.handling == VCL_RET_LOOKUP)
    let is_head := s.req.http.method == "HEAD"
    let s := { s with req := { s.req with wantbody := if is_head then false else true } }
    match recv_handling with
    | VCL_RET_PURGE =>
      Res.ok (REQ_FSM_MORE, { s with req := { s.req with req_step := R_STP_PURGE } })
    | VCL_RET_HASH =>
      Res.ok (REQ_FSM_MORE, { s with req := { s.req with req_step := R_STP_LOOKUP } })
    | VCL_RET_PIPE =>
      if s.req.esi_level > 0 then
        /- INCOMPL() -/
        Res.abort
      else
        Res.ok (REQ_FSM_MORE, { s with req := { s.req with req_step := R_STP_PIPE } })
    | VCL_RET_PASS =>
      Res.ok (REQ_FSM_MORE, { s with req := { s.req with req_step := R_STP_PASS } })
    | VCL_RET_ERROR =>
      Res.ok (REQ_FSM_MORE, { s with req := { s.req with req_step := R_STP_ERROR } })
    | _ =>
      /- WRONG("Illegal action in vcl_recv") -/
      Res.abort

/-! ## PREPRESP -/

/-- Lines 107-147 of `cnt_prepresp`: the choice of the response mode for the
object `o` held in `req->obj`. -/
def cnt_prepresp_res_mode (cache_param : params) (a : answers) (o : object) (s : State) :
    Res State := do
  let bo := s.req.busyobj
  let s := { s with req := { s.req with res_mode := 0 } }
  let s ← (match bo with
    | none =>
      Res.ok { s with req := { s.req with
        res_mode :=
          if !s.req.disable_esi && o.esidata.isSome then
            /- In ESI mode, we can't know the aggregate length -/
            set_bits (clear_bits s.req.res_mode RES_LEN) RES_ESI
          else
            set_bits s.req.res_mode RES_LEN } }
    | some b => do
      AZ b.do_esi
      Res.ok s)
  let s := { s with req := { s.req with
    res_mode :=
      if s.req.esi_level > 0 then
        /- Included ESI object, always CHUNKED or EOF -/
        set_bits (clear_bits s.req.res_mode RES_LEN) RES_ESI_CHILD
      else s.req.res_mode } }
  let s := { s with req := { s.req with
    res_mode :=
      if cache_param.http_gzip_support && o.gziped && !a.RFC2616_Req_Gzip then
        /- We don't know what it uncompresses to -/
        set_bits (clear_bits s.req.res_mode RES_LEN) RES_GUNZIP
      else s.req.res_mode } }
  /- We havn't chosen yet, do so -/
  let unchosen := !test_bits s.req.res_mode (RES_LEN ||| RES_CHUNKED ||| RES_EOF)
  let s := { s with req := { s.req with
    res_mode :=
      if unchosen then
        if !s.req.wantbody then s.req.res_mode
        else if s.req.http.protover >= 11 then set_bits s.req.res_mode RES_CHUNKED
        else set_bits s.req.res_mode RES_EOF
      else s.req.res_mode,
    doclose :=
      if unchosen then
        if !s.req.wantbody then s.req.doclose
        else if s.req.http.protover >= 11 then s.req.doclose
        else some SC_TX_EOF
      else s.req.doclose } }
  Res.ok s

/-- The handler `cnt_prepresp` (lines 94-185). -/
def cnt_prepresp (cache_param : params) (a : answers) (s : State) :
    Res (req_fsm_nxt × State) := do
  let bo := s.req.busyobj
  match s.req.obj with
  | none => Res.abort
  | some o => do
    let s ← cnt_prepresp_res_mode cache_param a o s
    let s := VCL_method a .deliver s
    match s.wrk.handling with
    | VCL_RET_DELIVER =>
      Res.ok (REQ_FSM_MORE, { s with req := { s.req with req_step := R_STP_DELIVER } })
    | VCL_RET_RESTART =>
      if s.req.restarts >= cache_param.max_restarts then
        Res.ok (REQ_FSM_MORE, { s with req := { s.req with req_step := R_STP_DELIVER } })
      else do
        let s ← (match bo with
          | some b => do
            AN b.do_stream
            assert (s.req.obj == b.fetch_obj)
            let s := { s with req := { s.req with obj := none } }
            Res.ok (VBO_DerefBusyObj s)
          | none => Res.ok (HSH_Deref_obj s))
        AZ s.req.obj.isSome
        Res.ok (REQ_FSM_MORE, { s with req := { s.req with req_step := R_STP_RESTART } })
    | _ =>
      /- WRONG("Illegal action in vcl_deliver") -/
      Res.abort

/-! ## DELIVER -/

/-- Lines 228-241 of `cnt_deliver`: write the object `o` held in `req->obj` and
let go of it. -/
def cnt_deliver_write (a : answers) (o : object) (s : State) :
    Res (req_fsm_nxt × State) := do
  AZ s.req.busyobj.isSome
  let s := { s with req := { s.req with director := none, restarts := 0 } }
  let s := RES_WriteObj a s
  /- No point in saving the body if it is hit-for-pass -/
  let s := { s with trace := s.trace ++
    (if test_bits o.objcore.flags OC_F_PASS then [Event.STV_Freestore o] else []) }
  assert (WRW_IsReleased s.wrk)
  let s := HSH_Deref_obj s
  Res.ok (REQ_FSM_DONE, s)

/-- The handler `cnt_deliver` (lines 202-242). -/
def cnt_deliver (_cache_param : params) (a : answers) (s : State) :
    Res (req_fsm_nxt × State) :=
  match s.req.obj with
  | none => Res.abort
  | some o =>
    match s.req.busyobj with
    | some bo =>
      if bo.state.toNat < BOS_FAILED.toNat then
        Res.hang
      else if bo.state == BOS_FAILED then
        let s := HSH_Deref_obj s
        let s := VBO_DerefBusyObj s
        Res.ok (REQ_FSM_MORE,
          { s with req := { s.req with err_code := 503, req_step := R_STP_ERROR } })
      else
        cnt_deliver_write a o (VBO_DerefBusyObj s)
    | none => cnt_deliver_write a o s

/-! ## ERROR -/

/-- A write through the local pointer `bo`, which aliases `req->busyobj`. -/
def upd_busyobj (f : busyobj → busyobj) (s : State) : State :=
  { s with req := { s.req with busyobj := s.req.busyobj.map f } }

/-- The statuses passed to `http_PutStatus` in a trace, in order. -/
def http_statuses (t : List Event) : List Int :=
  t.filterMap (fun e => match e with
    | Event.http_PutStatus c => some c
    | _ => none)

/-- Lines 313-335 of `cnt_error`: the error hook and the dispatch on its verdict. -/
def cnt_error_dispatch (cache_param : params) (a : answers) (s : State) :
    Res (req_fsm_nxt × State) := do
  let s := VCL_method a .error s
  if s.wrk.handling == VCL_RET_RESTART && s.req.restarts < cache_param.max_restarts then
    let s := HSH_Drop s
    let s := VBO_DerefBusyObj s
    Res.ok (REQ_FSM_MORE, { s with req := { s.req with req_step := R_STP_RESTART } })
  else do
    let s := { s with wrk := { s.wrk with
      handling :=
        if s.wrk.handling == VCL_RET_RESTART then VCL_RET_DELIVER else s.wrk.handling } }
    /- We always close when we take this path -/
    let s := { s with req := { s.req with doclose := some SC_TX_ERROR, wantbody := true } }
    assert (s.wrk.handling == VCL_RET_DELIVER)
    let s := { s with req := { s.req with err_code := 0, err_reason := none } }
    let s := VBO_DerefBusyObj s
    Res.ok (REQ_FSM_MORE, { s with req := { s.req with req_step := R_STP_PREPRESP } })

/-- The handler `cnt_error` (lines 258-336). -/
def cnt_error (cache_param : params) (a : answers) (s : State) :
    Res (req_fsm_nxt × State) := do
  AZ s.req.objcore.isSome
  AZ s.req.obj.isSome
  AZ s.req.busyobj.isSome
  let s := { s with req := { s.req with
    acct_req := { s.req.acct_req with error := s.req.acct_req.error + 1 } } }
  let s := emit Event.VBO_GetBusyObj
    { s with req := { s.req with busyobj := some a.VBO_GetBusyObj } }
  AZ a.VBO_GetBusyObj.stats
  let s := upd_busyobj (fun b => { b with stats := true }) s
  let s := emit Event.HSH_NewObjCore
    (upd_busyobj (fun b => { b with fetch_objcore := some a.HSH_NewObjCore }) s)
  let s := emit
    (Event.STV_NewObject cache_param.http_resp_size (cache_param.http_max_hdr % 65536))
    (upd_busyobj (fun b => { b with fetch_objcore := a.STV_NewObject.fetch_objcore })
      { s with req := { s.req with obj := a.STV_NewObject.obj } })
  let s := upd_busyobj (fun b => { b with stats := false }) s
  match s.req.obj with
  | none =>
    let s := { s with req := { s.req with doclose := some SC_OVERLOAD, director := none } }
    match a.STV_NewObject.fetch_objcore with
    | none => Res.abort
    | some oc => do
      let s := emit (Event.HSH_Deref_oc oc) s
      AZ (a.HSH_Deref != 0)
      let s := upd_busyobj (fun b => { b with fetch_objcore := none }) s
      let s := VBO_DerefBusyObj s
      AZ s.req.busyobj.isSome
      Res.ok (REQ_FSM_DONE, s)
  | some o => do
    AZ s.req.objcore.isSome
    AZ a.STV_NewObject.fetch_objcore.isSome
    let o := { o with vxid := a.VBO_GetBusyObj.vsl_wid }
    let s := { s with req := { s.req with obj := some o } }
    let s := { s with req := { s.req with
      err_code :=
        if s.req.err_code < 100 || s.req.err_code > 999 then 501 else s.req.err_code } }
    let s := emit (Event.http_PutProtocol "HTTP/1.1") s
    let s := emit (Event.http_PutStatus s.req.err_code)
      { s with req := { s.req with obj := some { o with status := s.req.err_code } } }
    let s := emit (Event.http_SetHeader "Server: Varnish") s
    let s := emit (Event.http_PutResponse s.req.err_reason s.req.err_code) s
    cnt_error_dispatch cache_param a s

/-! ## FETCH -/

/-- The handler `cnt_fetch` (lines 351-379). -/
def cnt_fetch (_cache_param : params) (_a : answers) (s : State) :
    Res (req_fsm_nxt × State) := do
  let s := { s with req := { s.req with
    acct_req := { s.req.acct_req with fetch := s.req.acct_req.fetch + 1 } } }
  match s.req.busyobj with
  | none => Res.abort
  | some bo => do
    assert (bo.refcount > 0)
    if bo.state.toNat < BOS_FAILED.toNat then
      Res.hang
    else if bo.state == BOS_FAILED then
      let s := VBO_DerefBusyObj s
      Res.ok (REQ_FSM_MORE,
        { s with req := { s.req with err_code := 503, req_step := R_STP_ERROR } })
    else do
      assert (bo.state == BOS_FINISHED)
      let s := { s with req := { s.req with err_code := bo.err_code, obj := bo.fetch_obj } }
      let s := VBO_DerefBusyObj s
      assert (WRW_IsReleased s.wrk)
      Res.ok (REQ_FSM_MORE, { s with req := { s.req with req_step := R_STP_PREPRESP } })

/-! ## LOOKUP -/

/-- Lines 520-530 of `cnt_lookup`: drop the object, and the `boc` if the lookup
returned one. -/
def cnt_lookup_drop (boc : Option objcore) (s : State) : Res (req_fsm_nxt × State) :=
  /- Drop our object, we won't need it -/
  let s := HSH_Deref_obj s
  let s := { s with req := { s.req with objcore := none } }
  let s := { s with
    req := { s.req with vary_b := if boc.isSome then none else s.req.vary_b },
    trace := s.trace ++
      (match boc with
        | some b => [Event.HSH_Deref_oc b, Event.free_vary_b]
        | none => []) }
  Res.ok (REQ_FSM_MORE, s)

/-- Lines 476-518 of `cnt_lookup`: an ordinary hit on `oc`; the object is
materialised and the lookup hook decides. -/
def cnt_lookup_hit (a : answers) (oc : objcore) (boc : Option objcore) (s : State) :
    Res (req_fsm_nxt × State) :=
  match oc.objhead with
  | none => Res.abort
  | some _ => do
    /- We are not prepared to do streaming yet -/
    AZ s.req.busyobj.isSome
    match a.oc_getobj with
    | none => Res.abort
    | some o => do
      let s := emit (Event.oc_getobj oc) { s with req := { s.req with obj := some o } }
      let s := VCL_method a .lookup s
      match s.wrk.handling with
      | VCL_RET_DELIVER =>
        /- with a boc, req->busyobj = VBF_Fetch(wrk, req, boc, 0) is dereferenced at
           once: the fetch goes on detached and the pointer is cleared -/
        let s := { s with
          req := { s.req with busyobj := if boc.isSome then none else s.req.busyobj },
          trace := s.trace ++
            (match boc with
              | some b => [Event.VBF_Fetch b false, Event.VBO_DerefBusyObj]
              | none => []) }
        let s := { s with wrk := { s.wrk with
          stats := { s.wrk.stats with cache_hit := s.wrk.stats.cache_hit + 1 } } }
        Res.ok (REQ_FSM_MORE, { s with req := { s.req with req_step := R_STP_PREPRESP } })
      | VCL_RET_FETCH =>
        let s := HSH_Deref_obj s
        Res.ok (REQ_FSM_MORE,
          { s with req := { s.req with objcore := boc, req_step := R_STP_MISS } })
      | VCL_RET_RESTART =>
        cnt_lookup_drop boc { s with req := { s.req with req_step := R_STP_RESTART } }
      | VCL_RET_ERROR =>
        cnt_lookup_drop boc { s with req := { s.req with req_step := R_STP_ERROR } }
      | VCL_RET_PASS =>
        let s := { s with wrk := { s.wrk with
          stats := { s.wrk.stats with cache_hit := s.wrk.stats.cache_hit + 1 } } }
        cnt_lookup_drop boc { s with req := { s.req with req_step := R_STP_PASS } }
      | _ =>
        /- INCOMPL() -/
        Res.abort

/-- The handler `cnt_lookup` (lines 409-531). -/
def cnt_lookup (_cache_param : params) (a : answers) (s : State) :
    Res (req_fsm_nxt × State) := do
  AZ s.req.objcore.isSome
  AZ s.req.busyobj.isSome
  let s := emit Event.VRY_Prep s
  AZ s.req.objcore.isSome
  let lr := a.HSH_Lookup.lr
  let oc := a.HSH_Lookup.oc
  let boc := a.HSH_Lookup.boc
  let s := emit (Event.HSH_Lookup (s.req.esi_level == 0) s.req.hash_always_miss lr) s
  if lr == HSH_BUSY then
    /- We lost the session to a busy object, disembark the worker thread. -/
    Res.ok (REQ_FSM_DISEMBARK, s)
  else do
    let s ← (match boc with
      | none => Res.ok (emit (Event.VRY_Finish false) s)
      | some b => do
        AN (test_bits b.flags OC_F_BUSY)
        Res.ok (emit (Event.VRY_Finish true) s))
    AZ s.req.objcore.isSome
    if lr == HSH_MISS then do
      /- Found nothing -/
      AZ oc.isSome
      match boc with
      | none => Res.abort
      | some b => do
        AN (test_bits b.flags OC_F_BUSY)
        Res.ok (REQ_FSM_MORE,
          { s with req := { s.req with objcore := some b, req_step := R_STP_MISS } })
    else
      match oc with
      | none => Res.abort
      | some c => do
        AZ (test_bits c.flags OC_F_BUSY)
        AZ s.req.objcore.isSome
        AZ s.req.busyobj.isSome
        if test_bits c.flags OC_F_PASS then do
          /- Found a hit-for-pass -/
          AZ boc.isSome
          let s := emit (Event.HSH_Deref_oc c) s
          let s := { s with req := { s.req with objcore := none } }
          let s := { s with wrk := { s.wrk with
            stats := { s.wrk.stats with cache_hitpass := s.wrk.stats.cache_hitpass + 1 } } }
          Res.ok (REQ_FSM_MORE, { s with req := { s.req with req_step := R_STP_PASS } })
        else
          cnt_lookup_hit a c boc s

/-! ## MISS -/

/-- The three branches of `cnt_miss` that give the objcore back (lines 560-577). -/
def cnt_miss_release (a : answers) (nxt_step : req_step) (s : State) :
    Res (req_fsm_nxt × State) :=
  match s.req.objcore with
  | none => Res.abort
  | some oc => do
    let s := emit Event.free_vary_b s
    let s := emit (Event.HSH_Deref_oc oc) s
    AZ (a.HSH_Deref != 0)
    Res.ok (REQ_FSM_MORE,
      { s with req := { s.req with objcore := none, req_step := nxt_step } })

/-- The handler `cnt_miss` (lines 547-591). -/
def cnt_miss (_cache_param : params) (a : answers) (s : State) :
    Res (req_fsm_nxt × State) :=
  match s.req.objcore with
  | none => Res.abort
  | some oc => do
    AZ s.req.obj.isSome
    AZ s.req.busyobj.isSome
    let s := VCL_method a .miss s
    match s.wrk.handling with
    | VCL_RET_ERROR => cnt_miss_release a R_STP_ERROR s
    | VCL_RET_RESTART => cnt_miss_release a R_STP_RESTART s
    | VCL_RET_PASS => cnt_miss_release a R_STP_PASS s
    | VCL_RET_FETCH =>
      let s := { s with wrk := { s.wrk with
        stats := { s.wrk.stats with cache_miss := s.wrk.stats.cache_miss + 1 } } }
      let s := emit (Event.VBF_Fetch oc false)
        { s with req := { s.req with busyobj := some a.VBF_Fetch } }
      Res.ok (REQ_FSM_MORE,
        { s with req := { s.req with objcore := none, req_step := R_STP_FETCH } })
    | _ =>
      /- WRONG("wrong return from vcl_miss") -/
      Res.abort

/-! ## PASS -/

/-- The handler `cnt_pass` (lines 610-638). -/
def cnt_pass (_cache_param : params) (a : answers) (s : State) :
    Res (req_fsm_nxt × State) := do
  AZ s.req.objcore.isSome
  AZ s.req.obj.isSome
  AZ s.req.busyobj.isSome
  let s := VCL_method a .pass s
  if s.wrk.handling == VCL_RET_ERROR then
    Res.ok (REQ_FSM_MORE, { s with req := { s.req with req_step := R_STP_ERROR } })
  else if s.wrk.handling == VCL_RET_RESTART then
    /- INCOMPL() -/
    Res.abort
  else do
    assert (s.wrk.handling == VCL_RET_FETCH)
    let s := { s with req := { s.req with
      acct_req := { s.req.acct_req with pass := s.req.acct_req.pass + 1 } } }
    let oc := a.HSH_NewObjCore
    let s := emit Event.HSH_NewObjCore s
    let s := emit (Event.VBF_Fetch oc true)
      { s with req := { s.req with busyobj := some a.VBF_Fetch } }
    Res.ok (REQ_FSM_MORE, { s with req := { s.req with req_step := R_STP_FETCH } })

/-! ## PIPE -/

/-- The handler `cnt_pipe` (lines 658-687). -/
def cnt_pipe (_cache_param : params) (a : answers) (s : State) :
    Res (req_fsm_nxt × State) := do
  AZ s.req.busyobj.isSome
  let s := { s with req := { s.req with
    acct_req := { s.req.acct_req with pipe := s.req.acct_req.pipe + 1 } } }
  let s := emit Event.VBO_GetBusyObj
    { s with req := { s.req with busyobj := some a.VBO_GetBusyObj } }
  let s := VCL_method a .pipe s
  if s.wrk.handling == VCL_RET_ERROR then
    /- INCOMPL() -/
    Res.abort
  else do
    assert (s.wrk.handling == VCL_RET_PIPE)
    let s := PipeRequest a s
    assert (WRW_IsReleased s.wrk)
    let s := VBO_DerefBusyObj s
    Res.ok (REQ_FSM_DONE, s)

/-! ## RESTART -/

/-- The handler `cnt_restart` (lines 703-719). -/
def cnt_restart (cache_param : params) (_a : answers) (s : State) :
    Res (req_fsm_nxt × State) :=
  let s := { s with req := { s.req with director := none } }
  let s := { s with req := { s.req with restarts := s.req.restarts + 1 } }
  if s.req.restarts >= cache_param.max_restarts then
    Res.ok (REQ_FSM_MORE,
      { s with req := { s.req with err_code := 503, req_step := R_STP_ERROR } })
  else
    Res.ok (REQ_FSM_MORE,
      { s with req := { s.req with err_code := 0, req_step := R_STP_RECV } })

/-! ## PURGE -/

/-- The handler `cnt_purge` (lines 835-864). -/
def cnt_purge (_cache_param : params) (a : answers) (s : State) :
    Res (req_fsm_nxt × State) := do
  AZ s.req.objcore.isSome
  AZ s.req.busyobj.isSome
  let s := emit Event.VRY_Prep s
  AZ s.req.objcore.isSome
  let s := emit (Event.HSH_Lookup true true a.HSH_Lookup.lr) s
  assert (a.HSH_Lookup.lr == HSH_MISS)
  AZ a.HSH_Lookup.oc.isSome
  match a.HSH_Lookup.boc with
  | none => Res.abort
  | some boc => do
    let s := emit (Event.VRY_Finish false) s
    let s := emit (Event.HSH_Purge boc.objhead) s
    let s := emit (Event.HSH_Deref_oc boc) s
    AZ (a.HSH_Deref != 0)
    let s := VCL_method a .purge s
    Res.ok (REQ_FSM_MORE, { s with req := { s.req with req_step := R_STP_ERROR } })

/-! ## The dispatcher -/

/-- The switch of `CNT_Request` (lines 921-932): the handler of the current step
is invoked; the trace records which. -/
def CNT_dispatch (cache_param : params) (a : answers) (s : State) :
    Res (req_fsm_nxt × State) :=
  let s := emit (Event.step s.req.req_step) s
  match s.req.req_step with
  | R_STP_RECV => cnt_recv cache_param a s
  | R_STP_PIPE => cnt_pipe cache_param a s
  | R_STP_PASS => cnt_pass cache_param a s
  | R_STP_LOOKUP => cnt_lookup cache_param a s
  | R_STP_PURGE => cnt_purge cache_param a s
  | R_STP_MISS => cnt_miss cache_param a s
  | R_STP_FETCH => cnt_fetch cache_param a s
  | R_STP_PREPRESP => cnt_prepresp cache_param a s
  | R_STP_DELIVER => cnt_deliver cache_param a s
  | R_STP_ERROR => cnt_error cache_param a s
  | R_STP_RESTART => cnt_restart cache_param a s

/-- One turn of the loop of `CNT_Request` (lines 909-934): the thread workspace
must be well formed and empty when the turn starts, the handler of the current
step runs, and the workspace, as the calls of the turn leave it, must be well
formed again. -/
def CNT_step (cache_param : params) (a : answers) (s : State) :
    Res (req_fsm_nxt × State) := do
  /- We don't want the thread workspace to be used for anything of long
     duration, so mandate that it be empty on state-transitions. -/
  WS_Assert s.wrk.aws
  assert (s.wrk.aws.s == s.wrk.aws.f)
  let (nxt, s) ← CNT_dispatch cache_param a s
  let s := { s with wrk := { s.wrk with aws := a.aws } }
  WS_Assert s.wrk.aws
  Res.ok (nxt, s)

/-- The loop `for (nxt = REQ_FSM_MORE; nxt == REQ_FSM_MORE; )` of `CNT_Request`
(lines 904-935), bounded by `fuel` turns; `env i` holds the answers given during
the turn `i`.  A turn is `CNT_step`: the workspace assertions of lines 918-919
and 933 around the handler. -/
def CNT_loop (cache_param : params) (env : Nat → answers) :
    Nat → State → Res (req_fsm_nxt × State)
  | 0, _ => Res.nofuel
  | fuel + 1, s =>
    match CNT_step cache_param (env 0) s with
    | Res.ok (REQ_FSM_MORE, s') => CNT_loop cache_param (fun i => env (i + 1)) fuel s'
    | r => r

/-- Lines 936-964 of `CNT_Request`: the accounting of a finished request. -/
def CNT_Request_done (s : State) : State :=
  let s := { s with req := { s.req with body := [] } }
  /- done == 2 was charged by cache_hash.c -/
  let s := emit Event.SES_Charge s
  { s with req := { s.req with vsl_wid := 0 } }

/-- The entry point `CNT_Request` (lines 884-970); the writer must be released
when it returns (line 968). -/
def CNT_Request (cache_param : params) (env : Nat → answers) (fuel : Nat) (s : State) :
    Res (req_fsm_nxt × State) := do
  /- Possible entrance states -/
  assert (s.req.req_step == R_STP_LOOKUP || s.req.req_step == R_STP_RECV)
  AN (test_bits s.req.vsl_wid cache_param.VSL_CLIENTMARKER)
  let s := { s with req := { s.req with wrk := true } }
  let (nxt, s) ← CNT_loop cache_param env fuel s
  let s := if nxt == REQ_FSM_DONE then CNT_Request_done s else s
  let s := { s with req := { s.req with wrk := false } }
  assert (WRW_IsReleased s.wrk)
  Res.ok (nxt, s)

/-- The state at the `n`-th state boundary of the loop of `CNT_Request`: the one
left by the `n`-th turn (`CNT_step`, workspace assertions included), all `n`
having returned MORE; `none` when the loop ends or aborts earlier. -/
def CNT_boundary (cache_param : params) (env : Nat → answers) :
    Nat → State → Option State
  | 0, s => some s
  | n + 1, s =>
    match CNT_step cache_param (env 0) s with
    | Res.ok (REQ_FSM_MORE, s') => CNT_boundary cache_param (fun i => env (i + 1)) n s'
    | _ => none

/-- A state in which the worker pool may call `CNT_Request`: the step is RECV or
LOOKUP, the request holds no handle and its log identifier carries the client
marker. -/
def valid_entry (cache_param : params) (s : State) : Prop :=
  (s.req.req_step = R_STP_LOOKUP ∨ s.req.req_step = R_STP_RECV)
  ∧ s.req.obj = none ∧ s.req.objcore = none ∧ s.req.busyobj = none
  ∧ test_bits s.req.vsl_wid cache_param.VSL_CLIENTMARKER = true

/-! ## The rule table of the response mode -/

/-- A response mode as the set of its flags. -/
structure res_flags where
  len : Bool
  chunked : Bool
  eof : Bool
  esi : Bool
  esi_child : Bool
  gunzip : Bool
  deriving DecidableEq, Repr

/-- The bit mask that stands for a set of flags. -/
def res_flags.mask (f : res_flags) : Nat :=
  (if f.len then RES_LEN else 0) + (if f.chunked then RES_CHUNKED else 0)
    + (if f.eof then RES_EOF else 0) + (if f.esi then RES_ESI else 0)
    + (if f.esi_child then RES_ESI_CHILD else 0) + (if f.gunzip then RES_GUNZIP else 0)

/-- The rule table of the response mode, in the words of the specification:
start empty; with no busyobj, set ESI if the object has ESI data and ESI is not
disabled, else set LEN; in an included fragment clear LEN and set ESI_CHILD;
if gzip support is on, the object is gzipped and the client does not accept
gzip, clear LEN and set GUNZIP; finally, if none of LEN, CHUNKED, EOF is set and
the body is wanted, set CHUNKED for HTTP 1.1 and later, else EOF. -/
def res_mode_rule (has_busyobj has_esidata disable_esi : Bool) (esi_level : Nat)
    (gzip_support gziped accepts_gzip wantbody : Bool) (protover : Nat) : res_flags :=
  let f : res_flags :=
    { len := false, chunked := false, eof := false, esi := false, esi_child := false,
      gunzip := false }
  let f :=
    if has_busyobj then f
    else if has_esidata && !disable_esi then { f with esi := true }
    else { f with len := true }
  let f := if esi_level > 0 then { f with len := false, esi_child := true } else f
  let f :=
    if gzip_support && gziped && !accepts_gzip then { f with len := false, gunzip := true }
    else f
  if !(f.len || f.chunked || f.eof) && wantbody then
    if protover >= 11 then { f with chunked := true } else { f with eof := true }
  else f

/-- The rule table applied to a request entering PREPRESP with the object `o`. -/
def res_mode_of (cache_param : params) (a : answers) (o : object) (s : State) : res_flags :=
  res_mode_rule s.req.busyobj.isSome o.esidata.isSome s.req.disable_esi s.req.esi_level
    cache_param.http_gzip_support o.gziped a.RFC2616_Req_Gzip s.req.wantbody
    s.req.http.protover

/-! ## Partial correctness -/

/-- Every result that `x` returns satisfies `P`. -/
def Res.sat {α : Type} (x : Res α) (P : α → Prop) : Prop := ∀ r, x = Res.ok r → P r

/-! ## Sample configuration, answers and states -/

/-- A configuration with gzip support and a budget of four restarts. -/
def sample_params : params :=
  { http_gzip_support := true, max_restarts := 4, http_resp_size := 6144,
    http_max_hdr := 64, VSL_CLIENTMARKER := 2 ^ 30 }

/-- A hook that returns the verdict `v` and touches nothing else. -/
def sample_hook (v : vcl_ret) : hook_result :=
  { handling := v, err_code := none, err_reason := none, disable_esi := none,
    hash_always_miss := none, hash_ignore_busy := none }

/-- An objcore of the index, neither busy nor hit-for-pass. -/
def sample_oc : objcore := { flags := 0, objhead := some 7 }

/-- A busy objcore, as inserted by a lookup that missed. -/
def sample_boc : objcore := { flags := OC_F_BUSY, objhead := some 7 }

/-- A hit-for-pass objcore. -/
def sample_hfp : objcore := { flags := OC_F_PASS, objhead := some 7 }

/-- A stored object. -/
def sample_obj : object :=
  { objcore := sample_oc, esidata := none, gziped := false, vxid := 1001, status := 200 }

/-- A busyobj whose fetch ends in `st`. -/
def sample_bo (st : busyobj_state_e) : busyobj :=
  { state := st, err_code := 0, fetch_obj := some sample_obj, fetch_objcore := none,
    do_esi := false, do_stream := false, refcount := 1, stats := false, vsl_wid := 77 }

/-- Answers: `recv` yields `v_recv`, `hash` yields LOOKUP, every other hook yields
`v`; the index answers `lk`; the allocation of `cnt_error` yields `alloc`. -/
def sample_answers (v_recv v : vcl_ret) (lk : lookup_result) (alloc : newobject_result) :
    answers :=
  { vcl := fun m => match m with
      | .recv => sample_hook v_recv
      | .hash => sample_hook VCL_RET_LOOKUP
      | _ => sample_hook v,
    HSH_Lookup := lk,
    oc_getobj := some sample_obj,
    HSH_NewObjCore := sample_boc,
    HSH_Deref := 0,
    VBF_Fetch := sample_bo BOS_FINISHED,
    VBO_GetBusyObj := sample_bo BOS_REQ_DONE,
    STV_NewObject := alloc,
    RFC2616_Req_Gzip := true,
    RES_WriteObj := none,
    PipeRequest := none,
    aws := { sane := true, s := 4096, f := 4096 } }

/-- The index finds an ordinary object. -/
def sample_hit : lookup_result := { lr := HSH_HIT, oc := some sample_oc, boc := none }

/-- The index finds nothing and inserts a busy objcore. -/
def sample_miss : lookup_result := { lr := HSH_MISS, oc := none, boc := some sample_boc }

/-- The index finds a busy objhead and parks the request. -/
def sample_busy : lookup_result := { lr := HSH_BUSY, oc := none, boc := none }

/-- The index finds a hit-for-pass entry. -/
def sample_hitpass : lookup_result := { lr := HSH_HIT, oc := some sample_hfp, boc := none }

/-- The allocation of the synthetic object succeeds. -/
def sample_alloc : newobject_result := { obj := some sample_obj, fetch_objcore := none }

/-- The allocation of the synthetic object fails. -/
def sample_noalloc : newobject_result := { obj := none, fetch_objcore := some sample_boc }

/-- A request for `GET /` over HTTP/1.1 in the step `st`, holding nothing. -/
def sample_req (st : req_step) : req :=
  { req_step := st, restarts := 0, err_code := 0, err_reason := none,
    obj := none, objcore := none, busyobj := none, director := none,
    vcl := { director := [1, 2] },
    http := { method := "GET", protover := 11, accept_encoding := none },
    wantbody := true, res_mode := 0, doclose := none, esi_level := 0,
    disable_esi := false, hash_always_miss := false, hash_ignore_busy := false,
    client_identity := none, vary_b := none,
    acct_req := { fetch := 0, pass := 0, pipe := 0, error := 0 },
    vsl_wid := 2 ^ 30 + 5, body := [], wrk := false }

/-- A state around `sample_req`. -/
def sample_state (st : req_step) : State :=
  { wrk := { handling := VCL_RET_DELIVER,
             stats := { cache_hit := 0, cache_hitpass := 0, cache_miss := 0 },
             aws := { sane := true, s := 4096, f := 4096 }, wrw := none },
    req := sample_req st, trace := [] }

/-! ## Reading a trace, and the invariants of the dispatcher -/

/-- The steps entered by the dispatcher, in order, read off a trace. -/
def steps_of (t : List Event) : List req_step :=
  t.filterMap (fun e => match e with
    | Event.step st => some st
    | _ => none)

/-- The objheads passed to `HSH_Purge` in a trace, in order. -/
def purges_of (t : List Event) : List (Option Nat) :=
  t.filterMap (fun e => match e with
    | Event.HSH_Purge oh => some oh
    | _ => none)

/-- The index lookups in a trace, in order: `want_waitinglist`, `always_miss`
and the answer. -/
def lookups_of (t : List Event) : List (Bool × Bool × lookup_e) :=
  t.filterMap (fun e => match e with
    | Event.HSH_Lookup wl am lr => some (wl, am, lr)
    | _ => none)

/-- The thread workspace is well formed and empty: what lines 918-919 assert
when a turn starts. -/
def ws_clear (w : ws) : Prop := w.sane = true ∧ w.s = w.f

instance (w : ws) : Decidable (ws_clear w) := by
  unfold ws_clear; infer_instance

/-- The request holds none of the three handles. -/
def handles_null (s : State) : Prop :=
  s.req.obj = none ∧ s.req.objcore = none ∧ s.req.busyobj = none

instance (s : State) : Decidable (handles_null s) := by
  unfold handles_null; infer_instance

/-- What a state boundary knows about the handles, by the step about to run:
MISS holds only an objcore, FETCH only a busyobj, PREPRESP and DELIVER only an
object, every other step nothing. -/
def handles_inv (s : State) : Prop :=
  match s.req.req_step with
  | R_STP_MISS => s.req.obj = none ∧ s.req.busyobj = none
  | R_STP_FETCH => s.req.obj = none ∧ s.req.objcore = none
  | R_STP_PREPRESP => s.req.objcore = none ∧ s.req.busyobj = none
  | R_STP_DELIVER => s.req.objcore = none ∧ s.req.busyobj = none
  | _ => handles_null s

instance (s : State) : Decidable (handles_inv s) := by
  unfold handles_inv; split <;> infer_instance

/-- The largest value `restarts` takes: `max_restarts`, and 1 when that is 0. -/
def restart_cap (cache_param : params) : Nat := max cache_param.max_restarts 1

/-- What a state boundary knows about `restarts`: it is below the cap, or it has
reached it and the request is on its way out through ERROR, PREPRESP, DELIVER
without a busyobj. -/
def restarts_inv (cache_param : params) (s : State) : Prop :=
  s.req.restarts < restart_cap cache_param
  ∨ (s.req.restarts = restart_cap cache_param
      ∧ (s.req.req_step = R_STP_ERROR
          ∨ ((s.req.req_step = R_STP_PREPRESP ∨ s.req.req_step = R_STP_DELIVER)
              ∧ s.req.busyobj = none)))

instance (cache_param : params) (s : State) : Decidable (restarts_inv cache_param s) := by
  unfold restarts_inv; infer_instance

/-- The handles after a handler has run: the invariant if the loop goes on,
nothing held if it does not. -/
def handles_post (r : req_fsm_nxt × State) : Prop :=
  (r.1 = REQ_FSM_MORE → handles_inv r.2) ∧ (r.1 ≠ REQ_FSM_MORE → handles_null r.2)

/-- The counter after a handler has run: the invariant if the loop goes on, and
the cap in any case. -/
def restarts_post (cache_param : params) (r : req_fsm_nxt × State) : Prop :=
  (r.1 = REQ_FSM_MORE → restarts_inv cache_param r.2)
  ∧ r.2.req.restarts ≤ restart_cap cache_param

/-! ## More sample configurations and answers -/

/-- The sample configuration with no restart allowed. -/
def sample_params_zero : params := { sample_params with max_restarts := 0 }

/-- The entry state around `sample_req`, once `CNT_Request` has attached the worker. -/
def sample_entry : State :=
  { sample_state R_STP_RECV with req := { sample_req R_STP_RECV with wrk := true } }

/-- The sample configuration with a budget of one restart. -/
def sample_params_one : params := { sample_params with max_restarts := 1 }

/-- A policy that touches nothing but the verdicts: `recv`, `lookup`, `miss`,
`deliver` and `error` answer as given, `hash` answers LOOKUP, `pass` FETCH and
`pipe` PIPE; the verdict of `purge`, which the engine ignores, is ERROR. -/
def sample_policy (v_recv v_lookup v_miss v_deliver v_error : vcl_ret) :
    vcl_method → hook_result :=
  fun m => match m with
    | .recv => sample_hook v_recv
    | .hash => sample_hook VCL_RET_LOOKUP
    | .lookup => sample_hook v_lookup
    | .miss => sample_hook v_miss
    | .pass => sample_hook VCL_RET_FETCH
    | .pipe => sample_hook VCL_RET_PIPE
    | .purge => sample_hook VCL_RET_ERROR
    | .deliver => sample_hook v_deliver
    | .error => sample_hook v_error

/-- The sample answers under the policy `vcl`. -/
def sample_answers_of (vcl : vcl_method → hook_result) (lk : lookup_result)
    (alloc : newobject_result) : answers :=
  { sample_answers VCL_RET_HASH VCL_RET_DELIVER lk alloc with vcl := vcl }

/-- A warm hit that `hook.deliver` wants restarted, every time. -/
def sample_restart_at_deliver : answers :=
  sample_answers_of
    (sample_policy VCL_RET_HASH VCL_RET_DELIVER VCL_RET_FETCH VCL_RET_RESTART VCL_RET_DELIVER)
    sample_hit sample_alloc

/-- A warm hit that `hook.deliver` wants restarted, every time, while the storage
has no room for a synthetic object. -/
def sample_restart_noalloc : answers :=
  { sample_restart_at_deliver with STV_NewObject := sample_noalloc }

/-- A cold miss that `hook.miss` wants restarted, while the deref of the busy
objcore reports a reference left. -/
def sample_miss_restart_held : answers :=
  { sample_answers_of
      (sample_policy VCL_RET_HASH VCL_RET_DELIVER VCL_RET_RESTART VCL_RET_DELIVER VCL_RET_DELIVER)
      sample_miss sample_alloc with
    HSH_Deref := 1 }

/-- A warm hit that `hook.deliver` wants restarted, every time; the third turn,
the one of `cnt_prepresp`, leaves 64 bytes reserved in the thread workspace. -/
def sample_restart_ws_held (i : Nat) : answers :=
  if i = 2 then
    { sample_restart_at_deliver with aws := { sane := true, s := 4096, f := 4160 } }
  else sample_restart_at_deliver

/-- A cold miss that is fetched and delivered; the fetch finishes with the
object `sample_obj` and leaves `ec` in the `err_code` of its busyobj. -/
def sample_cold_miss (ec : Int) : answers :=
  { sample_answers_of
      (sample_policy VCL_RET_HASH VCL_RET_DELIVER VCL_RET_FETCH VCL_RET_DELIVER VCL_RET_DELIVER)
      sample_miss sample_alloc with
    VBF_Fetch := { sample_bo BOS_FINISHED with err_code := ec } }

/-- A purge: `recv` answers PURGE, the `purge` hook sets the status `ec` (or
nothing), `error` and `deliver` answer DELIVER; the index answers MISS with a
busy objcore and the synthetic object is allocated. -/
def sample_purge (ec : Option Int) : answers :=
  sample_answers_of
    (fun m => match m with
      | .purge => { sample_hook VCL_RET_ERROR with err_code := ec }
      | m => sample_policy VCL_RET_PURGE VCL_RET_DELIVER VCL_RET_FETCH VCL_RET_DELIVER
          VCL_RET_DELIVER m)
    sample_miss sample_alloc

/-- A purge whose hooks set no status, where `RES_WriteObj` leaves the write
context of the worker reserved. -/
def sample_purge_writer_held : answers :=
  { sample_purge none with RES_WriteObj := some 1 }

/-- The index finds an ordinary object that is due for a refresh: a hit that
comes with a busy objcore for the fetch. -/
def sample_hit_boc : lookup_result :=
  { lr := HSH_HIT, oc := some sample_oc, boc := some sample_boc }

/-- A warm hit that comes without a `boc` and that `hook.lookup` wants fetched
anew. -/
def sample_fetch_on_hit : answers :=
  sample_answers_of
    (sample_policy VCL_RET_HASH VCL_RET_FETCH VCL_RET_FETCH VCL_RET_DELIVER VCL_RET_DELIVER)
    sample_hit sample_alloc

/-! ## Termination: total correctness and a measure on the state boundaries -/

/-- The call `x` ends (it returns or aborts), and a result it returns satisfies `P`. -/
def Res.tot {α : Type} (x : Res α) (P : α → Prop) : Prop :=
  match x with
  | Res.ok r => P r
  | Res.abort => True
  | Res.hang => False
  | Res.nofuel => False

/-- The fetch behind `b` has reached a terminal state (`state >= BOS_FAILED`), so
the polling loops of `cnt_fetch` and `cnt_deliver` end at once. -/
def fetch_over (b : busyobj) : Prop := BOS_FAILED.toNat ≤ b.state.toNat

instance (b : busyobj) : Decidable (fetch_over b) := by
  unfold fetch_over; infer_instance

/-- What a state boundary knows about the busyobj: PREPRESP and DELIVER are
entered without one, and FETCH with one whose fetch is over. -/
def busyobj_inv (s : State) : Prop :=
  ((s.req.req_step = R_STP_PREPRESP ∨ s.req.req_step = R_STP_DELIVER) → s.req.busyobj = none)
  ∧ (s.req.req_step = R_STP_FETCH → ∀ b, s.req.busyobj = some b → fetch_over b)

instance (s : State) : Decidable (busyobj_inv s) := by
  unfold busyobj_inv
  have : Decidable (∀ b, s.req.busyobj = some b → fetch_over b) := by
    cases s.req.busyobj with
    | none => exact isTrue (fun _ h => nomatch h)
    | some b =>
      exact decidable_of_iff (fetch_over b)
        ⟨fun h _ e => by cases e; exact h, fun h => h b rfl⟩
  infer_instance

/-- The position of a step in the order in which the handlers hand a request
on, RESTART first and DELIVER last. -/
def step_rank : req_step → Nat
  | R_STP_DELIVER => 0
  | R_STP_PIPE => 0
  | R_STP_PREPRESP => 1
  | R_STP_ERROR => 2
  | R_STP_FETCH => 3
  | R_STP_PURGE => 3
  | R_STP_PASS => 4
  | R_STP_MISS => 5
  | R_STP_LOOKUP => 6
  | R_STP_RECV => 7
  | R_STP_RESTART => 8

/-- How many more passes through the handlers the restart budget allows. -/
def passes_left (cache_param : params) (s : State) : Nat :=
  match s.req.req_step with
  | R_STP_RECV => max 1 (cache_param.max_restarts - s.req.restarts)
  | R_STP_LOOKUP => max 1 (cache_param.max_restarts - s.req.restarts)
  | R_STP_MISS => max 1 (cache_param.max_restarts - s.req.restarts)
  | R_STP_RESTART => cache_param.max_restarts - 1 - s.req.restarts
  | _ => cache_param.max_restarts - s.req.restarts

/-- A bound on the turns of the loop still to come after the one that starts in
`s`: it falls with every handler that returns MORE. -/
def turns_left (cache_param : params) (s : State) : Nat :=
  9 * passes_left cache_param s + step_rank s.req.req_step

/-- A bound on the handlers one call of `CNT_Request` on `s` invokes. -/
def turns_bound (cache_param : params) (s : State) : Nat :=
  9 * max 1 (cache_param.max_restarts - s.req.restarts) + 8

/-- How often the dispatcher has invoked `cnt_recv`, read off a trace. -/
def recv_count (t : List Event) : Nat := (steps_of t).count R_STP_RECV

/-- What a state boundary knows about the invocations of `cnt_recv` in a call
that started with `c0` of them in its trace and `restarts = 0`: about to run
`cnt_recv` there were at most as many as restarts, and one more is within the cap;
elsewhere there was at most one more than restarts. -/
def recv_inv (cache_param : params) (c0 : Nat) (s : State) : Prop :=
  (s.req.req_step = R_STP_RECV →
    recv_count s.trace ≤ c0 + s.req.restarts
    ∧ recv_count s.trace + 1 ≤ c0 + restart_cap cache_param)
  ∧ (s.req.req_step ≠ R_STP_RECV →
    recv_count s.trace ≤ c0 + s.req.restarts + 1
    ∧ recv_count s.trace ≤ c0 + restart_cap cache_param)

instance (cache_param : params) (c0 : Nat) (s : State) :
    Decidable (recv_inv cache_param c0 s) := by
  unfold recv_inv; infer_instance

/-! ## Evaluation lemmas -/

@[simp] theorem Res.ok_bind {α β : Type} (x : α) (f : α → Res β) :
    (Res.ok x >>= f) = f x := rfl

@[simp] theorem Res.abort_bind {α β : Type} (f : α → Res β) :
    ((Res.abort : Res α) >>= f) = Res.abort := rfl

@[simp] theorem Res.hang_bind {α β : Type} (f : α → Res β) :
    ((Res.hang : Res α) >>= f) = Res.hang := rfl

@[simp] theorem Res.nofuel_bind {α β : Type} (f : α → Res β) :
    ((Res.nofuel : Res α) >>= f) = Res.nofuel := rfl

@[simp] theorem Res.pure_eq {α : Type} (x : α) : (pure x : Res α) = Res.ok x := rfl

@[simp] theorem AZ_false : AZ false = Res.ok () := rfl

@[simp] theorem AZ_true : AZ true = Res.abort := rfl

@[simp] theorem AN_false : AN false = Res.abort := rfl

@[simp] theorem AN_true : AN true = Res.ok () := rfl

@[simp] theorem assert_false : assert false = Res.abort := rfl

@[simp] theorem assert_true : assert true = Res.ok () := rfl

theorem Res.bind_eq_ok {α β : Type} (x : Res α) (f : α → Res β) (b : β) :
    (x >>= f) = Res.ok b ↔ ∃ r, x = Res.ok r ∧ f r = Res.ok b := by
  cases x <;> simp

theorem AZ_eq_ok (b : Bool) (u : Unit) : AZ b = Res.ok u ↔ b = false := by
  cases b <;> simp

theorem AN_eq_ok (b : Bool) (u : Unit) : AN b = Res.ok u ↔ b = true := by
  cases b <;> simp

theorem assert_eq_ok (b : Bool) (u : Unit) : assert b = Res.ok u ↔ b = true := by
  cases b <;> simp

/-! ## Partial correctness: the rules -/

theorem sat_ok {α : Type} (r : α) (P : α → Prop) : (Res.ok r).sat P ↔ P r := by
  simp [Res.sat]

theorem sat_abort {α : Type} (P : α → Prop) : (Res.abort : Res α).sat P ↔ True := by
  simp [Res.sat]

theorem sat_hang {α : Type} (P : α → Prop) : (Res.hang : Res α).sat P ↔ True := by
  simp [Res.sat]

theorem sat_nofuel {α : Type} (P : α → Prop) : (Res.nofuel : Res α).sat P ↔ True := by
  simp [Res.sat]

theorem sat_bind {α β : Type} (x : Res α) (f : α → Res β) (P : β → Prop) :
    (x >>= f).sat P ↔ x.sat (fun r => (f r).sat P) := by
  cases x <;> simp [Res.sat]

theorem sat_AZ (b : Bool) (P : Unit → Prop) : (AZ b).sat P ↔ (b = false → P ()) := by
  cases b <;> simp [sat_ok, sat_abort]

theorem sat_AN (b : Bool) (P : Unit → Prop) : (AN b).sat P ↔ (b = true → P ()) := by
  cases b <;> simp [sat_ok, sat_abort]

theorem sat_assert (b : Bool) (P : Unit → Prop) : (assert b).sat P ↔ (b = true → P ()) := by
  cases b <;> simp [sat_ok, sat_abort]

theorem sat_ite {α : Type} (c : Prop) [Decidable c] (x y : Res α) (P : α → Prop) :
    (if c then x else y).sat P ↔ (c → x.sat P) ∧ (¬ c → y.sat P) := by
  by_cases h : c <;> simp [h]

theorem sat_mono {α : Type} {x : Res α} {P Q : α → Prop} (h : x.sat P)
    (hPQ : ∀ r, P r → Q r) : x.sat Q :=
  fun r hr => hPQ r (h r hr)

/-! ## Projections through the calls out of the engine -/

@[simp] theorem emit_req (e : Event) (s : State) : (emit e s).req = s.req := rfl

@[simp] theorem emit_wrk (e : Event) (s : State) : (emit e s).wrk = s.wrk := rfl

@[simp] theorem emit_trace (e : Event) (s : State) : (emit e s).trace = s.trace ++ [e] := rfl

@[simp] theorem VCL_method_obj (a : answers) (m : vcl_method) (s : State) :
    (VCL_method a m s).req.obj = s.req.obj := rfl

@[simp] theorem VCL_method_objcore (a : answers) (m : vcl_method) (s : State) :
    (VCL_method a m s).req.objcore = s.req.objcore := rfl

@[simp] theorem VCL_method_busyobj (a : answers) (m : vcl_method) (s : State) :
    (VCL_method a m s).req.busyobj = s.req.busyobj := rfl

@[simp] theorem VCL_method_req_step (a : answers) (m : vcl_method) (s : State) :
    (VCL_method a m s).req.req_step = s.req.req_step := rfl

@[simp] theorem VCL_method_restarts (a : answers) (m : vcl_method) (s : State) :
    (VCL_method a m s).req.restarts = s.req.restarts := rfl

@[simp] theorem VCL_method_handling (a : answers) (m : vcl_method) (s : State) :
    (VCL_method a m s).wrk.handling = (a.vcl m).handling := rfl

@[simp] theorem VBO_DerefBusyObj_busyobj (s : State) :
    (VBO_DerefBusyObj s).req.busyobj = none := rfl

@[simp] theorem VBO_DerefBusyObj_obj (s : State) :
    (VBO_DerefBusyObj s).req.obj = s.req.obj := rfl

@[simp] theorem VBO_DerefBusyObj_objcore (s : State) :
    (VBO_DerefBusyObj s).req.objcore = s.req.objcore := rfl

@[simp] theorem VBO_DerefBusyObj_req_step (s : State) :
    (VBO_DerefBusyObj s).req.req_step = s.req.req_step := rfl

@[simp] theorem VBO_DerefBusyObj_wrk (s : State) : (VBO_DerefBusyObj s).wrk = s.wrk := rfl

@[simp] theorem HSH_Deref_obj_obj (s : State) : (HSH_Deref_obj s).req.obj = none := rfl

@[simp] theorem HSH_Deref_obj_objcore (s : State) :
    (HSH_Deref_obj s).req.objcore = s.req.objcore := rfl

@[simp] theorem HSH_Deref_obj_busyobj (s : State) :
    (HSH_Deref_obj s).req.busyobj = s.req.busyobj := rfl

@[simp] theorem HSH_Deref_obj_req_step (s : State) :
    (HSH_Deref_obj s).req.req_step = s.req.req_step := rfl

@[simp] theorem HSH_Deref_obj_wrk (s : State) : (HSH_Deref_obj s).wrk = s.wrk := rfl

@[simp] theorem HSH_Drop_obj (s : State) : (HSH_Drop s).req.obj = none := rfl

@[simp] theorem HSH_Drop_objcore (s : State) :
    (HSH_Drop s).req.objcore = s.req.objcore := rfl

@[simp] theorem HSH_Drop_busyobj (s : State) :
    (HSH_Drop s).req.busyobj = s.req.busyobj := rfl

@[simp] theorem HSH_Drop_req_step (s : State) :
    (HSH_Drop s).req.req_step = s.req.req_step := rfl

@[simp] theorem HSH_Drop_wrk (s : State) : (HSH_Drop s).wrk = s.wrk := rfl

@[simp] theorem RES_WriteObj_req (a : answers) (s : State) : (RES_WriteObj a s).req = s.req := rfl

@[simp] theorem RES_WriteObj_trace (a : answers) (s : State) :
    (RES_WriteObj a s).trace = s.trace ++ [Event.RES_WriteObj] := rfl

@[simp] theorem RES_WriteObj_wrk (a : answers) (s : State) :
    (RES_WriteObj a s).wrk = { s.wrk with wrw := a.RES_WriteObj } := rfl

@[simp] theorem PipeRequest_req (a : answers) (s : State) : (PipeRequest a s).req = s.req := rfl

@[simp] theorem PipeRequest_trace (a : answers) (s : State) :
    (PipeRequest a s).trace = s.trace ++ [Event.PipeRequest] := rfl

@[simp] theorem PipeRequest_wrk (a : answers) (s : State) :
    (PipeRequest a s).wrk = { s.wrk with wrw := a.PipeRequest } := rfl

@[simp] theorem VBO_DerefBusyObj_wrw (s : State) :
    (VBO_DerefBusyObj s).wrk.wrw = s.wrk.wrw := rfl

/-! ## RECV -/

/-- C1: next-step selection of `cnt_recv`.  With the handles null on entry: if
`err_code` is non-zero the handler only sets the step to ERROR and returns MORE
(no hook is invoked, no director is selected).  Otherwise, with no director
selected yet, a first backend `d` in the policy and `hook.hash` returning
LOOKUP, the verdict of `hook.recv` fixes the step (PURGE to PURGE, HASH to
LOOKUP, PASS to PASS, ERROR to ERROR, PIPE to PIPE at `esi_level` 0), the
handler returns MORE after invoking `recv` then `hash`, the director is `d` and
`wantbody` is false exactly when the method is `HEAD`. -/
theorem cnt_recv_next_step (cache_param : params) (a : answers) (s : State)
    (hoc : s.req.objcore = none) (hobj : s.req.obj = none) (hbo : s.req.busyobj = none) :
    (s.req.err_code ≠ 0 →
      cnt_recv cache_param a s =
        Res.ok (REQ_FSM_MORE, { s with req := { s.req with req_step := R_STP_ERROR } }))
    ∧ (s.req.err_code = 0 → s.req.director = none →
      ∀ d, s.req.vcl.director.head? = some d →
      (a.vcl .hash).handling = VCL_RET_LOOKUP →
      ∀ nstep,
        (((a.vcl .recv).handling = VCL_RET_PURGE ∧ nstep = R_STP_PURGE)
          ∨ ((a.vcl .recv).handling = VCL_RET_HASH ∧ nstep = R_STP_LOOKUP)
          ∨ ((a.vcl .recv).handling = VCL_RET_PASS ∧ nstep = R_STP_PASS)
          ∨ ((a.vcl .recv).handling = VCL_RET_ERROR ∧ nstep = R_STP_ERROR)
          ∨ ((a.vcl .recv).handling = VCL_RET_PIPE ∧ s.req.esi_level = 0
              ∧ nstep = R_STP_PIPE)) →
      ∃ s', cnt_recv cache_param a s = Res.ok (REQ_FSM_MORE, s')
        ∧ s'.req.req_step = nstep
        ∧ s'.req.director = some d
        ∧ (s'.req.wantbody = false ↔ s.req.http.method = "HEAD")
        ∧ s'.trace = s.trace ++ [Event.VCL .recv, Event.VCL .hash]) := by
  refine ⟨fun he => ?_, fun he hd d hv hh nstep hr => ?_⟩
  · simp [cnt_recv, hoc, hobj, hbo, he]
  · cases hg : a.RFC2616_Req_Gzip <;> cases hs : cache_param.http_gzip_support <;>
      by_cases hm : s.req.http.method = "HEAD" <;>
      rcases hr with ⟨hr, rfl⟩ | ⟨hr, rfl⟩ | ⟨hr, rfl⟩ | ⟨hr, rfl⟩ | ⟨hr, he0, rfl⟩ <;>
      simp [cnt_recv, hoc, hobj, hbo, he, hd, hv, VCL_method, hh, hr, hg, hs, hm]
    all_goals simp [he0]

/-- Witness of C1: a request with `err_code` 404 goes to ERROR untouched; a clean
`GET` for which `recv` answers HASH goes to LOOKUP with the first backend. -/
theorem cnt_recv_next_step_witness :
    cnt_recv sample_params
        (sample_answers VCL_RET_HASH VCL_RET_DELIVER sample_hit sample_alloc)
        { sample_state R_STP_RECV with req := { sample_req R_STP_RECV with err_code := 404 } }
      = Res.ok (REQ_FSM_MORE,
        { sample_state R_STP_RECV with
          req := { sample_req R_STP_RECV with err_code := 404, req_step := R_STP_ERROR } })
    ∧ ∃ s', cnt_recv sample_params
          (sample_answers VCL_RET_HASH VCL_RET_DELIVER sample_hit sample_alloc)
          (sample_state R_STP_RECV) = Res.ok (REQ_FSM_MORE, s')
        ∧ s'.req.req_step = R_STP_LOOKUP
        ∧ s'.req.director = some 1
        ∧ (s'.req.wantbody = false ↔ (sample_state R_STP_RECV).req.http.method = "HEAD")
        ∧ s'.trace = (sample_state R_STP_RECV).trace ++ [Event.VCL .recv, Event.VCL .hash] :=
  ⟨(cnt_recv_next_step _ _ _ rfl rfl rfl).1 (by decide),
   (cnt_recv_next_step _ _ (sample_state R_STP_RECV) rfl rfl rfl).2 rfl rfl 1 rfl rfl
      R_STP_LOOKUP (Or.inr (Or.inl ⟨rfl, rfl⟩))⟩

/-! ## LOOKUP -/

/-- C2: verdict dispatch of `cnt_lookup` on an ordinary hit.  The request enters
with `objcore` and `busyobj` null; the index answers a hit on `c`, which carries
neither BUSY nor PASS and hangs on an objhead, possibly with a busy `boc`; the
object `o` is materialised.  Then the verdict of `hook.lookup` fixes the
outcome: DELIVER gives MORE, PREPRESP, `obj = o`, `busyobj` null, `cache_hit`
plus one; FETCH gives MORE, MISS, `obj` null, `objcore = boc`, `cache_hit`
unchanged; PASS gives MORE, PASS, `cache_hit` plus one; RESTART and ERROR give
MORE, RESTART and ERROR, `cache_hit` unchanged; any other verdict aborts. -/
theorem cnt_lookup_hit_dispatch (cache_param : params) (a : answers) (s : State)
    (c : objcore) (oh : Nat) (o : object)
    (hoc : s.req.objcore = none) (hbo : s.req.busyobj = none)
    (hlr : a.HSH_Lookup.lr = HSH_HIT) (hc : a.HSH_Lookup.oc = some c)
    (hbusy : test_bits c.flags OC_F_BUSY = false)
    (hpass : test_bits c.flags OC_F_PASS = false)
    (hoh : c.objhead = some oh) (ho : a.oc_getobj = some o)
    (hboc : ∀ b, a.HSH_Lookup.boc = some b → test_bits b.flags OC_F_BUSY = true) :
    ((a.vcl .lookup).handling = VCL_RET_DELIVER →
      ∃ s', cnt_lookup cache_param a s = Res.ok (REQ_FSM_MORE, s')
        ∧ s'.req.req_step = R_STP_PREPRESP ∧ s'.req.obj = some o ∧ s'.req.busyobj = none
        ∧ s'.wrk.stats.cache_hit = s.wrk.stats.cache_hit + 1)
    ∧ ((a.vcl .lookup).handling = VCL_RET_FETCH →
      ∃ s', cnt_lookup cache_param a s = Res.ok (REQ_FSM_MORE, s')
        ∧ s'.req.req_step = R_STP_MISS ∧ s'.req.obj = none
        ∧ s'.req.objcore = a.HSH_Lookup.boc
        ∧ s'.wrk.stats.cache_hit = s.wrk.stats.cache_hit)
    ∧ ((a.vcl .lookup).handling = VCL_RET_PASS →
      ∃ s', cnt_lookup cache_param a s = Res.ok (REQ_FSM_MORE, s')
        ∧ s'.req.req_step = R_STP_PASS
        ∧ s'.wrk.stats.cache_hit = s.wrk.stats.cache_hit + 1)
    ∧ ((a.vcl .lookup).handling = VCL_RET_RESTART →
      ∃ s', cnt_lookup cache_param a s = Res.ok (REQ_FSM_MORE, s')
        ∧ s'.req.req_step = R_STP_RESTART
        ∧ s'.wrk.stats.cache_hit = s.wrk.stats.cache_hit)
    ∧ ((a.vcl .lookup).handling = VCL_RET_ERROR →
      ∃ s', cnt_lookup cache_param a s = Res.ok (REQ_FSM_MORE, s')
        ∧ s'.req.req_step = R_STP_ERROR
        ∧ s'.wrk.stats.cache_hit = s.wrk.stats.cache_hit)
    ∧ ((a.vcl .lookup).handling ≠ VCL_RET_DELIVER → (a.vcl .lookup).handling ≠ VCL_RET_FETCH →
      (a.vcl .lookup).handling ≠ VCL_RET_PASS → (a.vcl .lookup).handling ≠ VCL_RET_RESTART →
      (a.vcl .lookup).handling ≠ VCL_RET_ERROR →
      cnt_lookup cache_param a s = Res.abort) := by
  cases hb : a.HSH_Lookup.boc with
  | none =>
    refine ⟨?_, ?_, ?_, ?_, ?_, ?_⟩
    · intro hv
      simp [cnt_lookup, cnt_lookup_hit, emit, VCL_method, hoc, hbo, hlr, hc, hbusy, hpass, hoh,
        ho, hb, hv]
    · intro hv
      simp [cnt_lookup, cnt_lookup_hit, emit, VCL_method, HSH_Deref_obj, hoc, hbo, hlr, hc,
        hbusy, hpass, hoh, ho, hb, hv]
    · intro hv
      simp [cnt_lookup, cnt_lookup_hit, cnt_lookup_drop, emit, VCL_method, HSH_Deref_obj, hoc,
        hbo, hlr, hc, hbusy, hpass, hoh, ho, hb, hv]
    · intro hv
      simp [cnt_lookup, cnt_lookup_hit, cnt_lookup_drop, emit, VCL_method, HSH_Deref_obj, hoc,
        hbo, hlr, hc, hbusy, hpass, hoh, ho, hb, hv]
    · intro hv
      simp [cnt_lookup, cnt_lookup_hit, cnt_lookup_drop, emit, VCL_method, HSH_Deref_obj, hoc,
        hbo, hlr, hc, hbusy, hpass, hoh, ho, hb, hv]
    · intro h1 h2 h3 h4 h5
      cases hv : (a.vcl .lookup).handling <;>
        simp_all [cnt_lookup, cnt_lookup_hit, emit, VCL_method]
  | some b =>
    have hbb := hboc b hb
    refine ⟨?_, ?_, ?_, ?_, ?_, ?_⟩
    · intro hv
      simp [cnt_lookup, cnt_lookup_hit, emit, VCL_method, VBO_DerefBusyObj, hoc, hbo, hlr, hc,
        hbusy, hpass, hoh, ho, hb, hbb, hv]
    · intro hv
      simp [cnt_lookup, cnt_lookup_hit, emit, VCL_method, HSH_Deref_obj, hoc, hbo, hlr, hc,
        hbusy, hpass, hoh, ho, hb, hbb, hv]
    · intro hv
      simp [cnt_lookup, cnt_lookup_hit, cnt_lookup_drop, emit, VCL_method, HSH_Deref_obj, hoc,
        hbo, hlr, hc, hbusy, hpass, hoh, ho, hb, hbb, hv]
    · intro hv
      simp [cnt_lookup, cnt_lookup_hit, cnt_lookup_drop, emit, VCL_method, HSH_Deref_obj, hoc,
        hbo, hlr, hc, hbusy, hpass, hoh, ho, hb, hbb, hv]
    · intro hv
      simp [cnt_lookup, cnt_lookup_hit, cnt_lookup_drop, emit, VCL_method, HSH_Deref_obj, hoc,
        hbo, hlr, hc, hbusy, hpass, hoh, ho, hb, hbb, hv]
    · intro h1 h2 h3 h4 h5
      cases hv : (a.vcl .lookup).handling <;>
        simp_all [cnt_lookup, cnt_lookup_hit, emit, VCL_method]

/-- Witness of C2: a warm hit that the lookup hook delivers. -/
theorem cnt_lookup_hit_dispatch_witness :
    ∃ s', cnt_lookup sample_params
          (sample_answers VCL_RET_HASH VCL_RET_DELIVER sample_hit sample_alloc)
          (sample_state R_STP_LOOKUP) = Res.ok (REQ_FSM_MORE, s')
      ∧ s'.req.req_step = R_STP_PREPRESP ∧ s'.req.obj = some sample_obj
      ∧ s'.req.busyobj = none
      ∧ s'.wrk.stats.cache_hit = (sample_state R_STP_LOOKUP).wrk.stats.cache_hit + 1 :=
  (cnt_lookup_hit_dispatch sample_params
    (sample_answers VCL_RET_HASH VCL_RET_DELIVER sample_hit sample_alloc)
    (sample_state R_STP_LOOKUP) sample_oc 7 sample_obj rfl rfl rfl rfl (by decide) (by decide)
    rfl rfl (fun _ h => nomatch h)).1 rfl

/-- C3: hit-for-pass routing.  The request enters `cnt_lookup` holding nothing;
the index answers a hit on `c`, which carries the PASS flag (and, as the handler
asserts, is not busy and comes without a `boc`).  Then the handler returns MORE
with the step PASS; `obj`, `objcore` and `busyobj` stay null; `cache_hitpass`
grows by one and nothing else in the worker changes (so `cache_hit` is
unchanged); the calls made are `VRY_Prep`, the lookup, `VRY_Finish` and the
deref of `c`: `hook.lookup` is not invoked.  No other field of the request
matters or changes. -/
theorem cnt_lookup_hit_for_pass (cache_param : params) (a : answers) (s : State)
    (c : objcore)
    (hobj : s.req.obj = none) (hoc : s.req.objcore = none) (hbo : s.req.busyobj = none)
    (hlr : a.HSH_Lookup.lr = HSH_HIT) (hc : a.HSH_Lookup.oc = some c)
    (hboc : a.HSH_Lookup.boc = none)
    (hbusy : test_bits c.flags OC_F_BUSY = false)
    (hpass : test_bits c.flags OC_F_PASS = true) :
    cnt_lookup cache_param a s = Res.ok (REQ_FSM_MORE,
      { wrk := { s.wrk with
          stats := { s.wrk.stats with cache_hitpass := s.wrk.stats.cache_hitpass + 1 } },
        req := { s.req with
          obj := none, objcore := none, busyobj := none, req_step := R_STP_PASS },
        trace := s.trace ++
          [Event.VRY_Prep,
           Event.HSH_Lookup (s.req.esi_level == 0) s.req.hash_always_miss HSH_HIT,
           Event.VRY_Finish false,
           Event.HSH_Deref_oc c] }) := by
  simp [cnt_lookup, emit, hoc, hbo, hlr, hc, hboc, hbusy, hpass, ← hobj]

/-- Witness of C3: a lookup that finds a hit-for-pass entry. -/
theorem cnt_lookup_hit_for_pass_witness :
    cnt_lookup sample_params
        (sample_answers VCL_RET_HASH VCL_RET_DELIVER sample_hitpass sample_alloc)
        (sample_state R_STP_LOOKUP)
      = Res.ok (REQ_FSM_MORE,
        { wrk := { (sample_state R_STP_LOOKUP).wrk with
            stats := { cache_hit := 0, cache_hitpass := 0 + 1, cache_miss := 0 } },
          req := { sample_req R_STP_LOOKUP with
            obj := none, objcore := none, busyobj := none, req_step := R_STP_PASS },
          trace := [] ++
            [Event.VRY_Prep, Event.HSH_Lookup ((0 : Nat) == 0) false HSH_HIT,
             Event.VRY_Finish false, Event.HSH_Deref_oc sample_hfp] }) :=
  cnt_lookup_hit_for_pass sample_params
    (sample_answers VCL_RET_HASH VCL_RET_DELIVER sample_hitpass sample_alloc)
    (sample_state R_STP_LOOKUP) sample_hfp rfl rfl rfl rfl rfl rfl (by decide) (by decide)

/-! ## FETCH -/

/-- C5: outcome of `cnt_fetch`.  The request enters with `obj` null and a
busyobj `bo` with a positive refcount.  If the fetch ends FAILED, the handler
returns MORE with `busyobj` null, `err_code` 503, the step ERROR and `obj` still
null.  If it ends FINISHED and the worker's writer is released, as the handler
asserts at line 375, it returns MORE with `err_code` and `obj` taken from `bo`,
`busyobj` null and the step PREPRESP; with the writer not released it aborts on
that assertion.  In both returning cases `acct_req.fetch` has grown by one and
nothing else has changed. -/
theorem cnt_fetch_outcome (cache_param : params) (a : answers) (s : State) (bo : busyobj)
    (hobj : s.req.obj = none) (hbo : s.req.busyobj = some bo) (href : 0 < bo.refcount) :
    (bo.state = BOS_FAILED →
      cnt_fetch cache_param a s = Res.ok (REQ_FSM_MORE,
        { s with
          req := { s.req with
            acct_req := { s.req.acct_req with fetch := s.req.acct_req.fetch + 1 },
            busyobj := none, obj := none, err_code := 503, req_step := R_STP_ERROR },
          trace := s.trace ++ [Event.VBO_DerefBusyObj] }))
    ∧ (bo.state = BOS_FINISHED → WRW_IsReleased s.wrk = true →
      cnt_fetch cache_param a s = Res.ok (REQ_FSM_MORE,
        { s with
          req := { s.req with
            acct_req := { s.req.acct_req with fetch := s.req.acct_req.fetch + 1 },
            busyobj := none, obj := bo.fetch_obj, err_code := bo.err_code,
            req_step := R_STP_PREPRESP },
          trace := s.trace ++ [Event.VBO_DerefBusyObj] }))
    ∧ (bo.state = BOS_FINISHED → WRW_IsReleased s.wrk = false →
      cnt_fetch cache_param a s = Res.abort) := by
  refine ⟨?_, ?_, ?_⟩
  · intro hst
    simp [cnt_fetch, VBO_DerefBusyObj, hbo, href, hst, busyobj_state_e.toNat, ← hobj]
  · intro hst hw
    simp [cnt_fetch, VBO_DerefBusyObj, hbo, href, hst, busyobj_state_e.toNat, hw]
  · intro hst hw
    simp [cnt_fetch, VBO_DerefBusyObj, hbo, href, hst, busyobj_state_e.toNat, hw]

/-- Witness of C5: a fetch that fails, a fetch that finishes, and a fetch that
finishes on a worker whose writer is still reserved. -/
theorem cnt_fetch_outcome_witness :
    (∃ s', cnt_fetch sample_params
        (sample_answers VCL_RET_HASH VCL_RET_DELIVER sample_miss sample_alloc)
        { sample_state R_STP_FETCH with
          req := { sample_req R_STP_FETCH with busyobj := some (sample_bo BOS_FAILED) } }
        = Res.ok (REQ_FSM_MORE, s')
      ∧ s'.req.err_code = 503 ∧ s'.req.req_step = R_STP_ERROR ∧ s'.req.obj = none
      ∧ s'.req.busyobj = none ∧ s'.req.acct_req.fetch = 1)
    ∧ (∃ s', cnt_fetch sample_params
        (sample_answers VCL_RET_HASH VCL_RET_DELIVER sample_miss sample_alloc)
        { sample_state R_STP_FETCH with
          req := { sample_req R_STP_FETCH with busyobj := some (sample_bo BOS_FINISHED) } }
        = Res.ok (REQ_FSM_MORE, s')
      ∧ s'.req.err_code = 0 ∧ s'.req.req_step = R_STP_PREPRESP
      ∧ s'.req.obj = some sample_obj ∧ s'.req.busyobj = none ∧ s'.req.acct_req.fetch = 1)
    ∧ cnt_fetch sample_params
        (sample_answers VCL_RET_HASH VCL_RET_DELIVER sample_miss sample_alloc)
        { sample_state R_STP_FETCH with
          wrk := { (sample_state R_STP_FETCH).wrk with wrw := some 1 },
          req := { sample_req R_STP_FETCH with busyobj := some (sample_bo BOS_FINISHED) } }
        = Res.abort :=
  ⟨⟨_, (cnt_fetch_outcome sample_params _ _ (sample_bo BOS_FAILED) rfl rfl (by decide)).1 rfl,
      rfl, rfl, rfl, rfl, rfl⟩,
   ⟨_, (cnt_fetch_outcome sample_params _ _ (sample_bo BOS_FINISHED) rfl rfl
      (by decide)).2.1 rfl rfl, rfl, rfl, rfl, rfl, rfl⟩,
   (cnt_fetch_outcome sample_params _ _ (sample_bo BOS_FINISHED) rfl rfl (by decide)).2.2 rfl
     rfl⟩

/-! ## PREPRESP -/

theorem cnt_prepresp_res_mode_eq (k : params) (a : answers) (o : object) (s : State)
    (hbo : ∀ b, s.req.busyobj = some b → b.do_esi = false) :
    cnt_prepresp_res_mode k a o s = Res.ok
      { s with req := { s.req with
          res_mode := (res_mode_of k a o s).mask,
          doclose := if (res_mode_of k a o s).eof then some SC_TX_EOF else s.req.doclose } } := by
  cases hb : s.req.busyobj with
  | none =>
    simp only [cnt_prepresp_res_mode, hb, Res.ok_bind]
    refine congrArg Res.ok ?_
    congr 2
    · simp only [res_mode_of, hb]
      by_cases hl : s.req.esi_level > 0 <;> by_cases hp : s.req.http.protover ≥ 11 <;>
        simp only [hl, hp, res_mode_rule, if_true, if_false, decide_True, decide_False,
          Option.isSome_some, Option.isSome_none] <;>
        generalize s.req.disable_esi = de <;> generalize o.esidata.isSome = he <;>
        generalize k.http_gzip_support = gs <;> generalize o.gziped = gz <;>
        generalize a.RFC2616_Req_Gzip = ag <;> generalize s.req.wantbody = wb <;>
        revert de he gs gz ag wb <;> decide
    · simp only [res_mode_of, hb]
      by_cases hl : s.req.esi_level > 0 <;> by_cases hp : s.req.http.protover ≥ 11 <;>
        simp only [hl, hp, res_mode_rule, if_true, if_false, decide_True, decide_False,
          Option.isSome_some, Option.isSome_none] <;>
        generalize s.req.disable_esi = de <;> generalize o.esidata.isSome = he <;>
        generalize k.http_gzip_support = gs <;> generalize o.gziped = gz <;>
        generalize a.RFC2616_Req_Gzip = ag <;> generalize s.req.wantbody = wb <;>
        generalize s.req.doclose = d <;>
        cases de <;> cases he <;> cases gs <;> cases gz <;> cases ag <;> cases wb <;> rfl
  | some b =>
    simp only [cnt_prepresp_res_mode, hb, hbo b hb, AZ_false, Res.ok_bind]
    refine congrArg Res.ok ?_
    congr 2
    · simp only [res_mode_of, hb]
      by_cases hl : s.req.esi_level > 0 <;> by_cases hp : s.req.http.protover ≥ 11 <;>
        simp only [hl, hp, res_mode_rule, if_true, if_false, decide_True, decide_False,
          Option.isSome_some, Option.isSome_none] <;>
        generalize k.http_gzip_support = gs <;> generalize o.gziped = gz <;>
        generalize a.RFC2616_Req_Gzip = ag <;> generalize s.req.wantbody = wb <;>
        revert gs gz ag wb <;> decide
    · simp only [res_mode_of, hb]
      by_cases hl : s.req.esi_level > 0 <;> by_cases hp : s.req.http.protover ≥ 11 <;>
        simp only [hl, hp, res_mode_rule, if_true, if_false, decide_True, decide_False,
          Option.isSome_some, Option.isSome_none] <;>
        generalize k.http_gzip_support = gs <;> generalize o.gziped = gz <;>
        generalize a.RFC2616_Req_Gzip = ag <;> generalize s.req.wantbody = wb <;>
        generalize s.req.doclose = d <;>
        cases gs <;> cases gz <;> cases ag <;> cases wb <;> rfl

theorem cnt_prepresp_res_mode_abort (k : params) (a : answers) (o : object) (s : State)
    (b : busyobj) (hb : s.req.busyobj = some b) (hesi : b.do_esi = true) :
    cnt_prepresp_res_mode k a o s = Res.abort := by
  simp [cnt_prepresp_res_mode, hb, hesi]

theorem res_flags_test (f : res_flags) :
    test_bits f.mask RES_LEN = f.len ∧ test_bits f.mask RES_CHUNKED = f.chunked
    ∧ test_bits f.mask RES_EOF = f.eof ∧ test_bits f.mask RES_ESI = f.esi
    ∧ test_bits f.mask RES_ESI_CHILD = f.esi_child ∧ test_bits f.mask RES_GUNZIP = f.gunzip
    ∧ test_bits f.mask (RES_LEN ||| RES_CHUNKED ||| RES_EOF) = (f.len || f.chunked || f.eof) := by
  obtain ⟨a, b, c, d, e, g⟩ := f
  revert a b c d e g
  decide

theorem res_mode_rule_nobody (hasbo he de : Bool) (el : Nat) (gs gz ag : Bool) (pv : Nat) :
    (res_mode_rule hasbo he de el gs gz ag false pv).chunked = false
    ∧ (res_mode_rule hasbo he de el gs gz ag false pv).eof = false := by
  by_cases hl : el > 0 <;> cases hasbo <;> cases he <;> cases de <;> cases gs <;> cases gz <;>
    cases ag <;> simp [res_mode_rule, hl]

theorem cnt_prepresp_frame (k : params) (a : answers) (s : State) :
    (cnt_prepresp k a s).sat (fun r => ∃ o s1, s.req.obj = some o
      ∧ cnt_prepresp_res_mode k a o s = Res.ok s1
      ∧ r.2.req.res_mode = s1.req.res_mode ∧ r.2.req.doclose = s1.req.doclose) := by
  simp only [cnt_prepresp]
  cases ho : s.req.obj with
  | none => simp [sat_abort]
  | some o =>
    simp only [sat_bind]
    intro s1 hs1
    split
    · simp [sat_ok, hs1, VCL_method]
    · simp only [sat_ite, sat_bind]
      refine ⟨fun _ => by simp [sat_ok, hs1, VCL_method], fun _ => ?_⟩
      intro s2 hs2
      simp only [sat_AZ, sat_ok]
      intro _
      refine ⟨o, s1, rfl, hs1, ?_⟩
      revert hs2
      split
      · intro hs2
        simp only [Res.bind_eq_ok, AN_eq_ok, assert_eq_ok, exists_const] at hs2
        obtain ⟨-, -, hs2⟩ := hs2
        simp only [Res.ok.injEq] at hs2
        subst hs2
        simp [VBO_DerefBusyObj, VCL_method]
      · intro hs2
        simp only [Res.ok.injEq] at hs2
        subst hs2
        simp [HSH_Deref_obj, VCL_method]
    · simp [sat_abort]

/-- C6: the response mode chosen by `cnt_prepresp` is the one of the rule table.
(1) Whenever the handler returns, `req->obj` was an object `o`, the `res_mode`
it leaves is the mask of `res_mode_rule` (start empty; no busyobj: ESI if the
object has ESI data and ESI is not disabled, else LEN; `esi_level > 0`: clear
LEN, set ESI_CHILD; gzip support, gzipped object, client without gzip: clear
LEN, set GUNZIP; none of LEN, CHUNKED, EOF and a body wanted: CHUNKED for
protocol 1.1 and later, else EOF), each of the six flags is set exactly when the
table sets it, and `doclose` is the TX_EOF reason when the table chose EOF and
unchanged otherwise; with `wantbody` false and LEN not set, none of LEN,
CHUNKED, EOF is set and `doclose` is unchanged; and the `res_mode` left is the
same whatever `res_mode` the request had on entry.  (2) The handler does return
when it holds an object, no busyobj doing ESI, and `hook.deliver` answers
DELIVER. -/
theorem cnt_prepresp_res_mode_table (cache_param : params) (a : answers) (s : State) :
    (∀ nxt s', cnt_prepresp cache_param a s = Res.ok (nxt, s') →
      ∃ o, s.req.obj = some o
        ∧ s'.req.res_mode = (res_mode_of cache_param a o s).mask
        ∧ test_bits s'.req.res_mode RES_LEN = (res_mode_of cache_param a o s).len
        ∧ test_bits s'.req.res_mode RES_CHUNKED = (res_mode_of cache_param a o s).chunked
        ∧ test_bits s'.req.res_mode RES_EOF = (res_mode_of cache_param a o s).eof
        ∧ test_bits s'.req.res_mode RES_ESI = (res_mode_of cache_param a o s).esi
        ∧ test_bits s'.req.res_mode RES_ESI_CHILD = (res_mode_of cache_param a o s).esi_child
        ∧ test_bits s'.req.res_mode RES_GUNZIP = (res_mode_of cache_param a o s).gunzip
        ∧ s'.req.doclose =
            (if (res_mode_of cache_param a o s).eof then some SC_TX_EOF else s.req.doclose)
        ∧ (s.req.wantbody = false → test_bits s'.req.res_mode RES_LEN = false →
            test_bits s'.req.res_mode (RES_LEN ||| RES_CHUNKED ||| RES_EOF) = false
            ∧ s'.req.doclose = s.req.doclose)
        ∧ (∀ m nxt2 s2,
            cnt_prepresp cache_param a { s with req := { s.req with res_mode := m } }
              = Res.ok (nxt2, s2) →
            s2.req.res_mode = s'.req.res_mode))
    ∧ (∀ o, s.req.obj = some o → (∀ b, s.req.busyobj = some b → b.do_esi = false) →
        (a.vcl .deliver).handling = VCL_RET_DELIVER →
        ∃ s', cnt_prepresp cache_param a s = Res.ok (REQ_FSM_MORE, s')) := by
  have main : ∀ (t : State) nxt t', cnt_prepresp cache_param a t = Res.ok (nxt, t') →
      ∃ o, t.req.obj = some o
        ∧ t'.req.res_mode = (res_mode_of cache_param a o t).mask
        ∧ t'.req.doclose =
            (if (res_mode_of cache_param a o t).eof then some SC_TX_EOF else t.req.doclose) := by
    intro t nxt t' h
    obtain ⟨o, s1, ho, hs1, hm, hd⟩ := cnt_prepresp_frame cache_param a t _ h
    refine ⟨o, ho, ?_⟩
    by_cases hesi : ∃ b, t.req.busyobj = some b ∧ b.do_esi = true
    · obtain ⟨b, hb, hbe⟩ := hesi
      rw [cnt_prepresp_res_mode_abort cache_param a o t b hb hbe] at hs1
      cases hs1
    · have hbo : ∀ b, t.req.busyobj = some b → b.do_esi = false := by
        intro b hb
        cases hbe : b.do_esi with
        | false => rfl
        | true => exact absurd ⟨b, hb, hbe⟩ hesi
      rw [cnt_prepresp_res_mode_eq cache_param a o t hbo] at hs1
      simp only [Res.ok.injEq] at hs1
      subst hs1
      exact ⟨hm, hd⟩
  refine ⟨?_, ?_⟩
  · intro nxt s' h
    obtain ⟨o, ho, hm, hd⟩ := main s nxt s' h
    have ht := res_flags_test (res_mode_of cache_param a o s)
    refine ⟨o, ho, hm, ?_, ?_, ?_, ?_, ?_, ?_, hd, ?_, ?_⟩
    · rw [hm]; exact ht.1
    · rw [hm]; exact ht.2.1
    · rw [hm]; exact ht.2.2.1
    · rw [hm]; exact ht.2.2.2.1
    · rw [hm]; exact ht.2.2.2.2.1
    · rw [hm]; exact ht.2.2.2.2.2.1
    · intro hw hlen
      have hn := res_mode_rule_nobody s.req.busyobj.isSome o.esidata.isSome s.req.disable_esi
        s.req.esi_level cache_param.http_gzip_support o.gziped a.RFC2616_Req_Gzip
        s.req.http.protover
      have hl : (res_mode_of cache_param a o s).len = false := by
        rw [← ht.1, ← hm]; exact hlen
      have hc : (res_mode_of cache_param a o s).chunked = false := by
        simp only [res_mode_of, hw]; exact hn.1
      have he : (res_mode_of cache_param a o s).eof = false := by
        simp only [res_mode_of, hw]; exact hn.2
      refine ⟨?_, ?_⟩
      · rw [hm, ht.2.2.2.2.2.2, hl, hc, he]; rfl
      · rw [hd, he]; rfl
    · intro m nxt2 s2 h2
      obtain ⟨o2, ho2, hm2, -⟩ := main _ nxt2 s2 h2
      have : o2 = o := by
        have : some o2 = some o := by rw [← ho2, ← ho]
        exact Option.some.inj this
      subst this
      rw [hm2, hm]
      rfl
  · intro o ho hbo hv
    simp [cnt_prepresp, ho, cnt_prepresp_res_mode_eq cache_param a o s hbo, VCL_method, hv]

/-- Witness of C6: an HTTP/1.0 client without gzip asking for a gzipped object gets
the mode GUNZIP with EOF framing, and the connection is marked for closing. -/
theorem cnt_prepresp_res_mode_table_witness :
    ∃ s', cnt_prepresp sample_params
          { sample_answers VCL_RET_HASH VCL_RET_DELIVER sample_hit sample_alloc with
            RFC2616_Req_Gzip := false }
          { sample_state R_STP_PREPRESP with
            req := { sample_req R_STP_PREPRESP with
              obj := some { sample_obj with gziped := true },
              http := { method := "GET", protover := 10, accept_encoding := none } } }
        = Res.ok (REQ_FSM_MORE, s')
      ∧ s'.req.res_mode = RES_GUNZIP ||| RES_EOF
      ∧ s'.req.doclose = some SC_TX_EOF := by
  have h := cnt_prepresp_res_mode_table sample_params
    { sample_answers VCL_RET_HASH VCL_RET_DELIVER sample_hit sample_alloc with
      RFC2616_Req_Gzip := false }
    { sample_state R_STP_PREPRESP with
      req := { sample_req R_STP_PREPRESP with
        obj := some { sample_obj with gziped := true },
        http := { method := "GET", protover := 10, accept_encoding := none } } }
  obtain ⟨s', hs'⟩ := h.2 { sample_obj with gziped := true } rfl (fun _ hb => nomatch hb) rfl
  obtain ⟨o, ho, hm, -, -, -, -, -, -, hd, -⟩ := h.1 _ _ hs'
  cases ho
  exact ⟨s', hs', hm.trans (by decide), hd.trans (by decide)⟩

/-- C7: verdict dispatch of `cnt_prepresp`, for a request holding the object `o`
(and no busyobj doing ESI).  If `hook.deliver` answers DELIVER, or RESTART while
`restarts >= max_restarts`, the handler returns MORE with the step DELIVER, the
object kept and `restarts` unchanged: the request left is the same in both cases
(only `wrk->handling` remembers the verdict).  If it answers RESTART while
`restarts < max_restarts` (a busyobj, if any, streaming the very object), the
handler returns MORE with the step RESTART and `obj` and `busyobj` null.  Any
other verdict aborts. -/
theorem cnt_prepresp_dispatch (cache_param : params) (a : answers) (s : State) (o : object)
    (hobj : s.req.obj = some o) (hbo : ∀ b, s.req.busyobj = some b → b.do_esi = false) :
    (((a.vcl .deliver).handling = VCL_RET_DELIVER
        ∨ ((a.vcl .deliver).handling = VCL_RET_RESTART
            ∧ cache_param.max_restarts ≤ s.req.restarts)) →
      cnt_prepresp cache_param a s = Res.ok (REQ_FSM_MORE,
        { wrk := { s.wrk with handling := (a.vcl .deliver).handling },
          req := { s.req with
            res_mode := (res_mode_of cache_param a o s).mask,
            doclose :=
              if (res_mode_of cache_param a o s).eof then some SC_TX_EOF else s.req.doclose,
            err_code := (a.vcl .deliver).err_code.getD s.req.err_code,
            err_reason := (a.vcl .deliver).err_reason.orElse (fun _ => s.req.err_reason),
            disable_esi := (a.vcl .deliver).disable_esi.getD s.req.disable_esi,
            hash_always_miss :=
              (a.vcl .deliver).hash_always_miss.getD s.req.hash_always_miss,
            hash_ignore_busy :=
              (a.vcl .deliver).hash_ignore_busy.getD s.req.hash_ignore_busy,
            obj := some o,
            restarts := s.req.restarts,
            req_step := R_STP_DELIVER },
          trace := s.trace ++ [Event.VCL .deliver] }))
    ∧ ((a.vcl .deliver).handling = VCL_RET_RESTART →
      s.req.restarts < cache_param.max_restarts →
      (∀ b, s.req.busyobj = some b → b.do_stream = true ∧ b.fetch_obj = some o) →
      ∃ s', cnt_prepresp cache_param a s = Res.ok (REQ_FSM_MORE, s')
        ∧ s'.req.req_step = R_STP_RESTART ∧ s'.req.obj = none ∧ s'.req.busyobj = none
        ∧ s'.req.restarts = s.req.restarts)
    ∧ ((a.vcl .deliver).handling ≠ VCL_RET_DELIVER →
      (a.vcl .deliver).handling ≠ VCL_RET_RESTART →
      cnt_prepresp cache_param a s = Res.abort) := by
  refine ⟨?_, ?_, ?_⟩
  · rintro (hv | ⟨hv, hr⟩)
    · simp [cnt_prepresp, hobj, cnt_prepresp_res_mode_eq cache_param a o s hbo, VCL_method, hv]
    · simp [cnt_prepresp, hobj, cnt_prepresp_res_mode_eq cache_param a o s hbo, VCL_method, hv,
        hr]
  · intro hv hr hst
    have hr' : ¬ cache_param.max_restarts ≤ s.req.restarts := by omega
    cases hb : s.req.busyobj with
    | none =>
      simp [cnt_prepresp, hobj, cnt_prepresp_res_mode_eq cache_param a o s hbo, VCL_method, hv,
        hr', hb, HSH_Deref_obj]
    | some b =>
      obtain ⟨h1, h2⟩ := hst b hb
      simp [cnt_prepresp, hobj, cnt_prepresp_res_mode_eq cache_param a o s hbo, VCL_method, hv,
        hr', hb, h1, h2, VBO_DerefBusyObj]
  · intro h1 h2
    cases hv : (a.vcl .deliver).handling <;>
      simp_all [cnt_prepresp, cnt_prepresp_res_mode_eq cache_param a o s hbo, VCL_method]

/-- Witness of C7: with the budget of four restarts used up, a RESTART verdict
delivers; with the budget untouched, it restarts and drops the object. -/
theorem cnt_prepresp_dispatch_witness :
    (∃ s', cnt_prepresp sample_params
          (sample_answers VCL_RET_HASH VCL_RET_RESTART sample_hit sample_alloc)
          { sample_state R_STP_PREPRESP with
            req := { sample_req R_STP_PREPRESP with obj := some sample_obj, restarts := 4 } }
        = Res.ok (REQ_FSM_MORE, s')
      ∧ s'.req.req_step = R_STP_DELIVER ∧ s'.req.obj = some sample_obj
      ∧ s'.req.restarts = 4)
    ∧ (∃ s', cnt_prepresp sample_params
          (sample_answers VCL_RET_HASH VCL_RET_RESTART sample_hit sample_alloc)
          { sample_state R_STP_PREPRESP with
            req := { sample_req R_STP_PREPRESP with obj := some sample_obj } }
        = Res.ok (REQ_FSM_MORE, s')
      ∧ s'.req.req_step = R_STP_RESTART ∧ s'.req.obj = none ∧ s'.req.busyobj = none
      ∧ s'.req.restarts = 0) :=
  ⟨⟨_, (cnt_prepresp_dispatch sample_params
          (sample_answers VCL_RET_HASH VCL_RET_RESTART sample_hit sample_alloc)
          { sample_state R_STP_PREPRESP with
            req := { sample_req R_STP_PREPRESP with obj := some sample_obj, restarts := 4 } }
          sample_obj rfl (fun _ hb => nomatch hb)).1
        (Or.inr ⟨rfl, by decide⟩), rfl, rfl, rfl⟩,
   (cnt_prepresp_dispatch sample_params
        (sample_answers VCL_RET_HASH VCL_RET_RESTART sample_hit sample_alloc)
        { sample_state R_STP_PREPRESP with
          req := { sample_req R_STP_PREPRESP with obj := some sample_obj } }
        sample_obj rfl (fun _ hb => nomatch hb)).2.1
      rfl (by decide) (fun _ hb => nomatch hb)⟩

/-! ## ERROR -/

theorem cnt_error_alloc (k : params) (a : answers) (s : State) (o : object)
    (hoc : s.req.objcore = none) (hobj : s.req.obj = none) (hbo : s.req.busyobj = none)
    (hstats : a.VBO_GetBusyObj.stats = false)
    (halloc : a.STV_NewObject.obj = some o) (hfoc : a.STV_NewObject.fetch_objcore = none) :
    cnt_error k a s = cnt_error_dispatch k a
      { s with
        req := { s.req with
          acct_req := { s.req.acct_req with error := s.req.acct_req.error + 1 },
          busyobj := some { a.VBO_GetBusyObj with stats := false, fetch_objcore := none },
          obj := some { o with
            vxid := a.VBO_GetBusyObj.vsl_wid,
            status := if s.req.err_code < 100 ∨ s.req.err_code > 999 then 501
              else s.req.err_code },
          err_code := if s.req.err_code < 100 ∨ s.req.err_code > 999 then 501
            else s.req.err_code },
        trace := s.trace ++
          [Event.VBO_GetBusyObj, Event.HSH_NewObjCore,
           Event.STV_NewObject k.http_resp_size (k.http_max_hdr % 65536),
           Event.http_PutProtocol "HTTP/1.1",
           Event.http_PutStatus (if s.req.err_code < 100 ∨ s.req.err_code > 999 then 501
              else s.req.err_code),
           Event.http_SetHeader "Server: Varnish",
           Event.http_PutResponse s.req.err_reason
             (if s.req.err_code < 100 ∨ s.req.err_code > 999 then 501 else s.req.err_code)] } := by
  simp [cnt_error, emit, upd_busyobj, hoc, hobj, hbo, hstats, halloc, hfoc]

/-- Counterexample to C8 as stated: with the synthetic object allocated and
`hook.error` answering PASS (a verdict that is not RESTART), `cnt_error` does
not go on to PREPRESP: it aborts. -/
theorem cnt_error_verdict_counterexample :
    ((sample_answers VCL_RET_ERROR VCL_RET_PASS sample_hit sample_alloc).vcl
        vcl_method.error).handling ≠ VCL_RET_RESTART
    ∧ cnt_error sample_params
        (sample_answers VCL_RET_ERROR VCL_RET_PASS sample_hit sample_alloc)
        (sample_state R_STP_ERROR) = Res.abort
    ∧ ¬ ∃ s', cnt_error sample_params
        (sample_answers VCL_RET_ERROR VCL_RET_PASS sample_hit sample_alloc)
        (sample_state R_STP_ERROR) = Res.ok (REQ_FSM_MORE, s') := by
  have h : cnt_error sample_params
      (sample_answers VCL_RET_ERROR VCL_RET_PASS sample_hit sample_alloc)
      (sample_state R_STP_ERROR) = Res.abort := by decide
  refine ⟨by decide, h, ?_⟩
  rintro ⟨s', hs'⟩
  rw [h] at hs'
  cases hs'

/-- C8, amended: verdict dispatch of `cnt_error` when the synthetic object `o` is
allocated.  If `hook.error` answers RESTART while `restarts < max_restarts`, the
handler returns MORE with the step RESTART and `obj` and `busyobj` null.  If it
answers DELIVER, or RESTART while `restarts >= max_restarts`, the handler
returns MORE with `doclose` the TX_ERROR reason, `wantbody` true, the step
PREPRESP, the synthetic object in `obj` and `busyobj` null.  Any other verdict
aborts on `assert(wrk->handling == VCL_RET_DELIVER)`. -/
theorem cnt_error_verdict (cache_param : params) (a : answers) (s : State) (o : object)
    (hoc : s.req.objcore = none) (hobj : s.req.obj = none) (hbo : s.req.busyobj = none)
    (hstats : a.VBO_GetBusyObj.stats = false)
    (halloc : a.STV_NewObject.obj = some o) (hfoc : a.STV_NewObject.fetch_objcore = none) :
    ((a.vcl .error).handling = VCL_RET_RESTART → s.req.restarts < cache_param.max_restarts →
      ∃ s', cnt_error cache_param a s = Res.ok (REQ_FSM_MORE, s')
        ∧ s'.req.req_step = R_STP_RESTART ∧ s'.req.obj = none ∧ s'.req.busyobj = none)
    ∧ (((a.vcl .error).handling = VCL_RET_DELIVER
          ∨ ((a.vcl .error).handling = VCL_RET_RESTART
              ∧ cache_param.max_restarts ≤ s.req.restarts)) →
      ∃ s', cnt_error cache_param a s = Res.ok (REQ_FSM_MORE, s')
        ∧ s'.req.req_step = R_STP_PREPRESP
        ∧ s'.req.doclose = some SC_TX_ERROR ∧ s'.req.wantbody = true
        ∧ s'.req.obj = some { o with
            vxid := a.VBO_GetBusyObj.vsl_wid,
            status := if s.req.err_code < 100 ∨ s.req.err_code > 999 then 501
              else s.req.err_code }
        ∧ s'.req.busyobj = none)
    ∧ ((a.vcl .error).handling ≠ VCL_RET_DELIVER → (a.vcl .error).handling ≠ VCL_RET_RESTART →
      cnt_error cache_param a s = Res.abort) := by
  rw [cnt_error_alloc cache_param a s o hoc hobj hbo hstats halloc hfoc]
  refine ⟨?_, ?_, ?_⟩
  · intro hv hr
    simp [cnt_error_dispatch, VCL_method, hv, hr, HSH_Drop, VBO_DerefBusyObj]
  · rintro (hv | ⟨hv, hr⟩)
    · simp [cnt_error_dispatch, VCL_method, hv, VBO_DerefBusyObj]
    · have hr' : ¬ s.req.restarts < cache_param.max_restarts := by omega
      simp [cnt_error_dispatch, VCL_method, hv, hr', VBO_DerefBusyObj]
  · intro h1 h2
    cases hv : (a.vcl .error).handling <;>
      simp_all [cnt_error_dispatch, VCL_method]
    all_goals rfl

/-- Witness of C8: a DELIVER verdict sends the synthetic 501 response to PREPRESP. -/
theorem cnt_error_verdict_witness :
    ∃ s', cnt_error sample_params
          (sample_answers VCL_RET_ERROR VCL_RET_DELIVER sample_hit sample_alloc)
          (sample_state R_STP_ERROR) = Res.ok (REQ_FSM_MORE, s')
      ∧ s'.req.req_step = R_STP_PREPRESP
      ∧ s'.req.doclose = some SC_TX_ERROR ∧ s'.req.wantbody = true
      ∧ s'.req.obj = some { sample_obj with vxid := 77, status := 501 }
      ∧ s'.req.busyobj = none :=
  (cnt_error_verdict sample_params
    (sample_answers VCL_RET_ERROR VCL_RET_DELIVER sample_hit sample_alloc)
    (sample_state R_STP_ERROR) sample_obj rfl rfl rfl rfl rfl rfl).2.1 (Or.inl rfl)

theorem cnt_error_dispatch_returns (k : params) (a : answers) (t : State)
    (hv : (a.vcl .error).handling = VCL_RET_DELIVER
      ∨ (a.vcl .error).handling = VCL_RET_RESTART) :
    ∃ r, cnt_error_dispatch k a t = Res.ok r := by
  by_cases hr : t.req.restarts < k.max_restarts <;> rcases hv with hv | hv <;>
    simp [cnt_error_dispatch, VCL_method, hv, hr]

theorem cnt_error_dispatch_frame (k : params) (a : answers) (t : State) :
    (cnt_error_dispatch k a t).sat (fun r =>
      http_statuses r.2.trace = http_statuses t.trace
      ∧ (r.2.req.req_step = R_STP_PREPRESP → r.2.req.obj = t.req.obj)) := by
  simp only [cnt_error_dispatch, sat_ite, sat_bind, sat_assert, sat_ok]
  refine ⟨fun _ => ?_, fun _ _ => ?_⟩
  · cases ho : t.req.obj <;>
      simp [http_statuses, List.filterMap_append, HSH_Drop, VBO_DerefBusyObj, VCL_method, ho]
  · simp [http_statuses, List.filterMap_append, VBO_DerefBusyObj, VCL_method]

theorem cnt_error_dispatch_statuses (k : params) (a : answers) (t : State)
    (hv : (a.vcl .error).handling = VCL_RET_DELIVER
      ∨ (a.vcl .error).handling = VCL_RET_RESTART) :
    ∃ nxt s', cnt_error_dispatch k a t = Res.ok (nxt, s')
      ∧ http_statuses s'.trace = http_statuses t.trace
      ∧ (s'.req.req_step = R_STP_PREPRESP → s'.req.obj = t.req.obj) := by
  obtain ⟨⟨nxt, s'⟩, h⟩ := cnt_error_dispatch_returns k a t hv
  exact ⟨nxt, s', h, cnt_error_dispatch_frame k a t _ h⟩

/-- C9: status clamping in `cnt_error`.  With the synthetic object allocated, the
status `http_PutStatus` receives is `err_code` itself when
`100 <= err_code <= 999` and 501 otherwise; it lies in `[100, 999]`, and
`err_code` 0 gives 501.  It is the only status written before `hook.error` is
called, and the synthetic object carries it then; when the hook answers DELIVER
or RESTART the handler returns, still with that one status written, and the
object handed to PREPRESP carries it. -/
theorem cnt_error_status (cache_param : params) (a : answers) (s : State) (o : object)
    (hoc : s.req.objcore = none) (hobj : s.req.obj = none) (hbo : s.req.busyobj = none)
    (hstats : a.VBO_GetBusyObj.stats = false)
    (halloc : a.STV_NewObject.obj = some o) (hfoc : a.STV_NewObject.fetch_objcore = none) :
    ∃ status : Int,
      (100 ≤ s.req.err_code ∧ s.req.err_code ≤ 999 → status = s.req.err_code)
      ∧ (¬ (100 ≤ s.req.err_code ∧ s.req.err_code ≤ 999) → status = 501)
      ∧ 100 ≤ status ∧ status ≤ 999
      ∧ (s.req.err_code = 0 → status = 501)
      ∧ (∃ t, cnt_error cache_param a s = cnt_error_dispatch cache_param a t
          ∧ http_statuses t.trace = http_statuses s.trace ++ [status]
          ∧ ∃ o', t.req.obj = some o' ∧ o'.status = status)
      ∧ (((a.vcl .error).handling = VCL_RET_DELIVER
            ∨ (a.vcl .error).handling = VCL_RET_RESTART) →
          ∃ nxt s', cnt_error cache_param a s = Res.ok (nxt, s')
            ∧ http_statuses s'.trace = http_statuses s.trace ++ [status]
            ∧ (s'.req.req_step = R_STP_PREPRESP →
                ∃ o', s'.req.obj = some o' ∧ o'.status = status)) := by
  rw [cnt_error_alloc cache_param a s o hoc hobj hbo hstats halloc hfoc]
  refine ⟨(if s.req.err_code < 100 ∨ s.req.err_code > 999 then 501 else s.req.err_code),
    ?_, ?_, ?_, ?_, ?_, ⟨_, rfl, ?_, _, rfl, rfl⟩, ?_⟩
  · intro h; rw [if_neg (by omega)]
  · intro h; rw [if_pos (by omega)]
  · split <;> omega
  · split <;> omega
  · intro h; rw [if_pos (by omega)]
  · simp [http_statuses, List.filterMap_append]
  · intro hv
    obtain ⟨nxt, s', hs', htr, hob⟩ := cnt_error_dispatch_statuses cache_param a _ hv
    refine ⟨nxt, s', hs', ?_, fun h => ⟨_, hob h, rfl⟩⟩
    rw [htr]
    simp [http_statuses, List.filterMap_append]

/-- Witness of C9: an `err_code` of 1000 is emitted as 501. -/
theorem cnt_error_status_witness :
    ∃ nxt s', cnt_error sample_params
          (sample_answers VCL_RET_ERROR VCL_RET_DELIVER sample_hit sample_alloc)
          { sample_state R_STP_ERROR with
            req := { sample_req R_STP_ERROR with err_code := 1000 } } = Res.ok (nxt, s')
      ∧ http_statuses s'.trace = [] ++ [501] := by
  obtain ⟨status, -, h501, -, -, -, -, hret⟩ := cnt_error_status sample_params
    (sample_answers VCL_RET_ERROR VCL_RET_DELIVER sample_hit sample_alloc)
    { sample_state R_STP_ERROR with req := { sample_req R_STP_ERROR with err_code := 1000 } }
    sample_obj rfl rfl rfl rfl rfl rfl
  obtain ⟨nxt, s', h, htr, -⟩ := hret (Or.inl rfl)
  have hs : status = 501 := h501 (by decide)
  subst hs
  exact ⟨nxt, s', h, htr⟩

/-- C10: allocation failure in `cnt_error`.  The request enters holding nothing;
the scratch busyobj is fresh (`stats` null), the allocation of the synthetic
object fails and leaves the new objcore `oc` in the busyobj, whose deref leaves
no reference.  Then the handler returns DONE; `doclose` is the OVERLOAD reason,
`obj`, `objcore` and `busyobj` are null, `acct_req.error` has grown by one, the
director is cleared, and nothing else has changed (step, `err_code`, `wantbody`
in particular); the trace shows no call of `hook.error`. -/
theorem cnt_error_overload (cache_param : params) (a : answers) (s : State) (oc : objcore)
    (hoc : s.req.objcore = none) (hobj : s.req.obj = none) (hbo : s.req.busyobj = none)
    (hstats : a.VBO_GetBusyObj.stats = false)
    (halloc : a.STV_NewObject.obj = none) (hfoc : a.STV_NewObject.fetch_objcore = some oc)
    (hderef : a.HSH_Deref = 0) :
    cnt_error cache_param a s = Res.ok (REQ_FSM_DONE,
      { s with
        req := { s.req with
          acct_req := { s.req.acct_req with error := s.req.acct_req.error + 1 },
          doclose := some SC_OVERLOAD,
          director := none,
          obj := none, objcore := none, busyobj := none,
          req_step := s.req.req_step, err_code := s.req.err_code,
          wantbody := s.req.wantbody },
        trace := s.trace ++
          [Event.VBO_GetBusyObj, Event.HSH_NewObjCore,
           Event.STV_NewObject cache_param.http_resp_size (cache_param.http_max_hdr % 65536),
           Event.HSH_Deref_oc oc, Event.VBO_DerefBusyObj] }) := by
  simp [cnt_error, emit, upd_busyobj, VBO_DerefBusyObj, hoc, hobj, hbo, hstats, halloc, hfoc,
    hderef]

/-- Witness of C10: a failed allocation ends the request with the OVERLOAD reason. -/
theorem cnt_error_overload_witness :
    cnt_error sample_params
        (sample_answers VCL_RET_ERROR VCL_RET_DELIVER sample_hit sample_noalloc)
        (sample_state R_STP_ERROR)
      = Res.ok (REQ_FSM_DONE,
        { sample_state R_STP_ERROR with
          req := { sample_req R_STP_ERROR with
            acct_req := { fetch := 0, pass := 0, pipe := 0, error := 0 + 1 },
            doclose := some SC_OVERLOAD },
          trace := [] ++
            [Event.VBO_GetBusyObj, Event.HSH_NewObjCore, Event.STV_NewObject 6144 (64 % 65536),
             Event.HSH_Deref_oc sample_boc, Event.VBO_DerefBusyObj] }) :=
  cnt_error_overload sample_params
    (sample_answers VCL_RET_ERROR VCL_RET_DELIVER sample_hit sample_noalloc)
    (sample_state R_STP_ERROR) sample_boc rfl rfl rfl rfl rfl rfl rfl

/-! ## What each handler can return -/

theorem cnt_pass_post (k : params) (a : answers) (s : State) :
    (cnt_pass k a s).sat (fun r =>
      r.1 ≠ REQ_FSM_DISEMBARK ∧ (r.1 = REQ_FSM_MORE → r.2.req.req_step ≠ R_STP_LOOKUP)) := by
  simp [cnt_pass, sat_bind, sat_AZ, sat_AN, sat_assert, sat_ite, sat_ok, sat_abort]

theorem cnt_pipe_post (k : params) (a : answers) (s : State) :
    (cnt_pipe k a s).sat (fun r =>
      r.1 ≠ REQ_FSM_DISEMBARK ∧ (r.1 = REQ_FSM_MORE → r.2.req.req_step ≠ R_STP_LOOKUP)) := by
  simp [cnt_pipe, sat_bind, sat_AZ, sat_AN, sat_assert, sat_ite, sat_ok, sat_abort]

theorem cnt_restart_post (k : params) (a : answers) (s : State) :
    (cnt_restart k a s).sat (fun r =>
      r.1 ≠ REQ_FSM_DISEMBARK ∧ (r.1 = REQ_FSM_MORE → r.2.req.req_step ≠ R_STP_LOOKUP)) := by
  simp [cnt_restart, sat_bind, sat_AZ, sat_AN, sat_assert, sat_ite, sat_ok, sat_abort]

theorem cnt_purge_post (k : params) (a : answers) (s : State) :
    (cnt_purge k a s).sat (fun r =>
      r.1 ≠ REQ_FSM_DISEMBARK ∧ (r.1 = REQ_FSM_MORE → r.2.req.req_step ≠ R_STP_LOOKUP)) := by
  simp only [cnt_purge, sat_bind, sat_AZ, sat_AN, sat_assert, sat_ite, sat_ok, sat_abort]
  intros
  split <;> simp [sat_bind, sat_AZ, sat_AN, sat_assert, sat_ite, sat_ok, sat_abort]

theorem cnt_miss_post (k : params) (a : answers) (s : State) :
    (cnt_miss k a s).sat (fun r =>
      r.1 ≠ REQ_FSM_DISEMBARK ∧ (r.1 = REQ_FSM_MORE → r.2.req.req_step ≠ R_STP_LOOKUP)) := by
  simp only [cnt_miss]
  split
  · simp [sat_abort]
  · simp only [sat_bind, sat_AZ]
    intros
    split <;> (try simp only [cnt_miss_release]) <;> (try split) <;>
      simp [sat_bind, sat_AZ, sat_AN, sat_assert, sat_ite, sat_ok, sat_abort]

theorem cnt_fetch_post (k : params) (a : answers) (s : State) :
    (cnt_fetch k a s).sat (fun r =>
      r.1 ≠ REQ_FSM_DISEMBARK ∧ (r.1 = REQ_FSM_MORE → r.2.req.req_step ≠ R_STP_LOOKUP)) := by
  simp only [cnt_fetch]
  split <;> simp [sat_bind, sat_AZ, sat_AN, sat_assert, sat_ite, sat_ok, sat_abort, sat_hang]

theorem cnt_deliver_post (k : params) (a : answers) (s : State) :
    (cnt_deliver k a s).sat (fun r =>
      r.1 ≠ REQ_FSM_DISEMBARK ∧ (r.1 = REQ_FSM_MORE → r.2.req.req_step ≠ R_STP_LOOKUP)) := by
  simp only [cnt_deliver, cnt_deliver_write]
  split
  · simp [sat_abort]
  · split <;> simp [sat_bind, sat_AZ, sat_AN, sat_assert, sat_ite, sat_ok, sat_abort, sat_hang]

theorem cnt_error_post (k : params) (a : answers) (s : State) :
    (cnt_error k a s).sat (fun r =>
      r.1 ≠ REQ_FSM_DISEMBARK ∧ (r.1 = REQ_FSM_MORE → r.2.req.req_step ≠ R_STP_LOOKUP)) := by
  simp only [cnt_error, sat_bind, sat_AZ]
  intros
  split
  · split <;> simp [sat_bind, sat_AZ, sat_AN, sat_assert, sat_ite, sat_ok, sat_abort, sat_hang]
  · simp [cnt_error_dispatch, sat_bind, sat_AZ, sat_AN, sat_assert, sat_ite, sat_ok, sat_abort, sat_hang]

theorem cnt_prepresp_post (k : params) (a : answers) (s : State) :
    (cnt_prepresp k a s).sat (fun r =>
      r.1 ≠ REQ_FSM_DISEMBARK ∧ (r.1 = REQ_FSM_MORE → r.2.req.req_step ≠ R_STP_LOOKUP)) := by
  simp only [cnt_prepresp]
  split
  · simp [sat_abort]
  · simp only [sat_bind]
    intro s1 _
    split
    · simp [sat_ok]
    · simp only [sat_ite, sat_bind]
      refine ⟨fun _ => by simp [sat_ok], fun _ => ?_⟩
      intro s2 _
      simp [sat_bind, sat_AZ, sat_ok]
    · simp [sat_abort]

theorem cnt_recv_post (k : params) (a : answers) (s : State) :
    (cnt_recv k a s).sat (fun r =>
      r.1 = REQ_FSM_MORE ∧ r.2.req.obj = none ∧ r.2.req.objcore = none
        ∧ r.2.req.busyobj = none) := by
  simp only [cnt_recv, sat_bind, sat_AZ, sat_AN, sat_assert, sat_ite, sat_ok]
  intro h1 h2 _ h3
  simp at h1 h2 h3
  refine ⟨fun _ => by simp [h1, h2, h3], fun _ _ _ _ => ?_⟩
  split <;> simp [sat_ok, sat_abort, sat_ite, h1, h2, h3]

theorem cnt_lookup_post (k : params) (a : answers) (s : State) :
    (cnt_lookup k a s).sat (fun r =>
      (r.1 = REQ_FSM_DISEMBARK →
        a.HSH_Lookup.lr = HSH_BUSY ∧ s.req.objcore = none ∧ s.req.busyobj = none
        ∧ r.2 = emit (Event.HSH_Lookup (s.req.esi_level == 0) s.req.hash_always_miss HSH_BUSY)
            (emit Event.VRY_Prep s))
      ∧ (r.1 = REQ_FSM_MORE → r.2.req.req_step ≠ R_STP_LOOKUP)) := by
  simp only [cnt_lookup, sat_bind, sat_AZ, sat_AN, sat_assert, sat_ite, sat_ok]
  intro h1 h2 _
  simp at h1 h2
  refine ⟨fun hb => ?_, fun hb => ?_⟩
  · simp at hb
    simp [hb, h1, h2]
  · intro s1 _ _
    refine ⟨fun _ _ => ?_, fun _ => ?_⟩
    · split <;> simp [sat_ok, sat_abort, sat_bind, sat_AN]
    · split
      · simp [sat_abort]
      · simp only [sat_bind, sat_AZ, sat_ite, sat_ok]
        intro _ _ _
        refine ⟨fun _ _ => by simp, fun _ => ?_⟩
        simp only [cnt_lookup_hit]
        split
        · simp [sat_abort]
        · simp only [sat_bind, sat_AZ]
          intro _
          split
          · simp [sat_abort]
          · split <;> simp [cnt_lookup_drop, sat_ok, sat_abort]

theorem CNT_step_eq_ok (k : params) (a : answers) (s : State) (nxt : req_fsm_nxt)
    (s' : State) :
    CNT_step k a s = Res.ok (nxt, s') ↔
      ws_clear s.wrk.aws ∧ a.aws.sane = true
      ∧ ∃ s1, CNT_dispatch k a s = Res.ok (nxt, s1)
          ∧ s' = { s1 with wrk := { s1.wrk with aws := a.aws } } := by
  unfold ws_clear
  simp only [CNT_step, WS_Assert, Res.bind_eq_ok, assert_eq_ok, exists_const, beq_iff_eq]
  constructor
  · rintro ⟨h1, h2, ⟨n1, s1⟩, hd, h3, h4⟩
    simp only [Res.ok.injEq, Prod.mk.injEq] at h4
    obtain ⟨rfl, rfl⟩ := h4
    exact ⟨⟨h1, h2⟩, h3, s1, hd, rfl⟩
  · rintro ⟨⟨h1, h2⟩, h3, s1, hd, rfl⟩
    exact ⟨h1, h2, (nxt, s1), hd, h3, rfl⟩

theorem CNT_step_of_dispatch (k : params) (a : answers) (s s1 : State) (nxt : req_fsm_nxt)
    (hw : ws_clear s.wrk.aws) (ha : a.aws.sane = true)
    (h : CNT_dispatch k a s = Res.ok (nxt, s1)) :
    CNT_step k a s = Res.ok (nxt, { s1 with wrk := { s1.wrk with aws := a.aws } }) :=
  (CNT_step_eq_ok k a s nxt _).2 ⟨hw, ha, s1, h, rfl⟩

theorem CNT_step_sat (k : params) (a : answers) (s : State)
    {P Q : req_fsm_nxt × State → Prop} (h : (CNT_dispatch k a s).sat P)
    (hPQ : ∀ nxt s1, P (nxt, s1) →
      Q (nxt, { s1 with wrk := { s1.wrk with aws := a.aws } })) :
    (CNT_step k a s).sat Q := by
  intro r hr
  obtain ⟨nxt, s'⟩ := r
  obtain ⟨-, -, s1, h1, rfl⟩ := (CNT_step_eq_ok k a s nxt s').1 hr
  exact hPQ nxt s1 (h _ h1)

theorem CNT_step_abort (k : params) (a : answers) (s : State)
    (h : CNT_dispatch k a s = Res.abort) : CNT_step k a s = Res.abort := by
  cases h1 : s.wrk.aws.sane <;> simp [CNT_step, WS_Assert, h1]
  cases h2 : (s.wrk.aws.s == s.wrk.aws.f) <;> simp [h]

theorem CNT_dispatch_post (k : params) (a : answers) (s : State) :
    (CNT_dispatch k a s).sat (fun r =>
      (r.1 = REQ_FSM_DISEMBARK →
        s.req.req_step = R_STP_LOOKUP ∧ a.HSH_Lookup.lr = HSH_BUSY
        ∧ s.req.objcore = none ∧ s.req.busyobj = none
        ∧ r.2 = { s with trace := s.trace ++
            [Event.step R_STP_LOOKUP, Event.VRY_Prep,
             Event.HSH_Lookup (s.req.esi_level == 0) s.req.hash_always_miss HSH_BUSY] })
      ∧ (r.1 = REQ_FSM_MORE → r.2.req.req_step = R_STP_LOOKUP →
        r.2.req.obj = none ∧ r.2.req.objcore = none ∧ r.2.req.busyobj = none)) := by
  simp only [CNT_dispatch, emit_req]
  cases h : s.req.req_step <;> simp only []
  case R_STP_RECV =>
    exact sat_mono (cnt_recv_post k a _) (fun r hr => by simp [hr.1, hr.2])
  case R_STP_LOOKUP =>
    refine sat_mono (cnt_lookup_post k a _) (fun r hr => ⟨fun hd => ?_, fun hm hl => ?_⟩)
    · have := hr.1 hd
      simp [emit] at this
      simp [this, emit]
    · exact absurd hl (hr.2 hm)
  case R_STP_PIPE =>
    exact sat_mono (cnt_pipe_post k a _) (fun r hr => ⟨fun hd => absurd hd hr.1, fun hm hl => absurd hl (hr.2 hm)⟩)
  case R_STP_PASS =>
    exact sat_mono (cnt_pass_post k a _) (fun r hr => ⟨fun hd => absurd hd hr.1, fun hm hl => absurd hl (hr.2 hm)⟩)
  case R_STP_PURGE =>
    exact sat_mono (cnt_purge_post k a _) (fun r hr => ⟨fun hd => absurd hd hr.1, fun hm hl => absurd hl (hr.2 hm)⟩)
  case R_STP_MISS =>
    exact sat_mono (cnt_miss_post k a _) (fun r hr => ⟨fun hd => absurd hd hr.1, fun hm hl => absurd hl (hr.2 hm)⟩)
  case R_STP_FETCH =>
    exact sat_mono (cnt_fetch_post k a _) (fun r hr => ⟨fun hd => absurd hd hr.1, fun hm hl => absurd hl (hr.2 hm)⟩)
  case R_STP_PREPRESP =>
    exact sat_mono (cnt_prepresp_post k a _) (fun r hr => ⟨fun hd => absurd hd hr.1, fun hm hl => absurd hl (hr.2 hm)⟩)
  case R_STP_DELIVER =>
    exact sat_mono (cnt_deliver_post k a _) (fun r hr => ⟨fun hd => absurd hd hr.1, fun hm hl => absurd hl (hr.2 hm)⟩)
  case R_STP_ERROR =>
    exact sat_mono (cnt_error_post k a _) (fun r hr => ⟨fun hd => absurd hd hr.1, fun hm hl => absurd hl (hr.2 hm)⟩)
  case R_STP_RESTART =>
    exact sat_mono (cnt_restart_post k a _) (fun r hr => ⟨fun hd => absurd hd hr.1, fun hm hl => absurd hl (hr.2 hm)⟩)

theorem CNT_step_post (k : params) (a : answers) (s : State) :
    (CNT_step k a s).sat (fun r =>
      (r.1 = REQ_FSM_DISEMBARK →
        s.req.req_step = R_STP_LOOKUP ∧ a.HSH_Lookup.lr = HSH_BUSY
        ∧ s.req.objcore = none ∧ s.req.busyobj = none
        ∧ r.2 = { s with
            wrk := { s.wrk with aws := a.aws },
            trace := s.trace ++
              [Event.step R_STP_LOOKUP, Event.VRY_Prep,
               Event.HSH_Lookup (s.req.esi_level == 0) s.req.hash_always_miss HSH_BUSY] })
      ∧ (r.1 = REQ_FSM_MORE → r.2.req.req_step = R_STP_LOOKUP →
        r.2.req.obj = none ∧ r.2.req.objcore = none ∧ r.2.req.busyobj = none)) := by
  refine CNT_step_sat k a s (CNT_dispatch_post k a s) (fun nxt s1 h => ⟨fun hd => ?_, h.2⟩)
  obtain ⟨h1, h2, h3, h4, h5⟩ := h.1 hd
  simp only at h5
  subst h5
  exact ⟨h1, h2, h3, h4, rfl⟩

theorem CNT_step_busy (k : params) (a : answers) (s : State)
    (hs : s.req.req_step = R_STP_LOOKUP) (hoc : s.req.objcore = none)
    (hbo : s.req.busyobj = none) (hlr : a.HSH_Lookup.lr = HSH_BUSY)
    (hw : ws_clear s.wrk.aws) (ha : a.aws.sane = true) :
    CNT_step k a s = Res.ok (REQ_FSM_DISEMBARK,
      { s with
        wrk := { s.wrk with aws := a.aws },
        trace := s.trace ++
          [Event.step R_STP_LOOKUP, Event.VRY_Prep,
           Event.HSH_Lookup (s.req.esi_level == 0) s.req.hash_always_miss HSH_BUSY] }) := by
  have hd : CNT_dispatch k a s = Res.ok (REQ_FSM_DISEMBARK,
      { s with trace := s.trace ++
          [Event.step R_STP_LOOKUP, Event.VRY_Prep,
           Event.HSH_Lookup (s.req.esi_level == 0) s.req.hash_always_miss HSH_BUSY] }) := by
    simp [CNT_dispatch, cnt_lookup, emit, hs, hoc, hbo, hlr]
  exact CNT_step_of_dispatch k a s _ _ hw ha hd

/-! ## The dispatcher: suspension -/

theorem CNT_loop_succ (k : params) (env : Nat → answers) (fuel : Nat) (s : State) :
    CNT_loop k env (fuel + 1) s =
      match CNT_step k (env 0) s with
      | Res.ok (REQ_FSM_MORE, s') => CNT_loop k (fun i => env (i + 1)) fuel s'
      | r => r := rfl

theorem CNT_loop_post (k : params) : ∀ (fuel : Nat) (env : Nat → answers) (s : State),
    (s.req.req_step = R_STP_LOOKUP → s.req.obj = none) →
    (CNT_loop k env fuel s).sat (fun r =>
      r.1 ≠ REQ_FSM_MORE
      ∧ (r.1 = REQ_FSM_DISEMBARK →
        r.2.req.req_step = R_STP_LOOKUP ∧ r.2.req.obj = none ∧ r.2.req.objcore = none
        ∧ r.2.req.busyobj = none
        ∧ ∃ pre wl am, r.2.trace = pre ++
            [Event.step R_STP_LOOKUP, Event.VRY_Prep, Event.HSH_Lookup wl am HSH_BUSY])) := by
  intro fuel
  induction fuel with
  | zero => intro env s _; simp [CNT_loop, sat_nofuel]
  | succ n ih =>
    intro env s hinv r hr
    rw [CNT_loop_succ] at hr
    have hstep := CNT_step_post k (env 0) s
    cases hc : CNT_step k (env 0) s with
    | ok p =>
      obtain ⟨nxt, s1⟩ := p
      have hp := hstep _ hc
      cases nxt with
      | REQ_FSM_MORE =>
        simp only [hc] at hr
        exact ih _ s1 (fun hl => (hp.2 rfl hl).1) r hr
      | REQ_FSM_DONE =>
        simp only [hc] at hr
        cases hr
        simp
      | REQ_FSM_DISEMBARK =>
        simp only [hc] at hr
        cases hr
        obtain ⟨h1, -, h3, h4, h5⟩ := hp.1 rfl
        simp only at h5
        subst h5
        refine ⟨by simp, fun _ => ⟨h1, hinv h1, h3, h4, s.trace, _, _, rfl⟩⟩
    | abort => simp [hc] at hr
    | hang => simp [hc] at hr
    | nofuel => simp [hc] at hr

theorem CNT_boundary_inv (k : params) : ∀ (n : Nat) (env : Nat → answers) (s t : State),
    (s.req.req_step = R_STP_LOOKUP →
      s.req.obj = none ∧ s.req.objcore = none ∧ s.req.busyobj = none) →
    CNT_boundary k env n s = some t →
    (t.req.req_step = R_STP_LOOKUP →
      t.req.obj = none ∧ t.req.objcore = none ∧ t.req.busyobj = none) := by
  intro n
  induction n with
  | zero => intro env s t hinv h; simp [CNT_boundary] at h; subst h; exact hinv
  | succ n ih =>
    intro env s t _ h
    simp only [CNT_boundary] at h
    cases hc : CNT_step k (env 0) s with
    | ok p =>
      obtain ⟨nxt, s1⟩ := p
      cases nxt with
      | REQ_FSM_MORE =>
        simp only [hc] at h
        exact ih _ s1 t ((CNT_step_post k (env 0) s _ hc).2 rfl) h
      | REQ_FSM_DONE => simp [hc] at h
      | REQ_FSM_DISEMBARK => simp [hc] at h
    | abort => simp [hc] at h
    | hang => simp [hc] at h
    | nofuel => simp [hc] at h

theorem CNT_loop_of_boundary (k : params) : ∀ (n : Nat) (env : Nat → answers) (s t : State),
    CNT_boundary k env n s = some t →
    ∀ m, CNT_loop k env (n + m) s = CNT_loop k (fun i => env (i + n)) m t := by
  intro n
  induction n with
  | zero => intro env s t h m; simp [CNT_boundary] at h; subst h; simp
  | succ n ih =>
    intro env s t h m
    simp only [CNT_boundary] at h
    have e : n + 1 + m = (n + m) + 1 := by omega
    rw [e, CNT_loop_succ]
    cases hc : CNT_step k (env 0) s with
    | ok p =>
      obtain ⟨nxt, s1⟩ := p
      cases nxt with
      | REQ_FSM_MORE =>
        simp only [hc] at h
        show CNT_loop k (fun i => env (i + 1)) (n + m) s1 = _
        rw [ih _ s1 t h m]
        rfl
      | REQ_FSM_DONE => simp [hc] at h
      | REQ_FSM_DISEMBARK => simp [hc] at h
    | abort => simp [hc] at h
    | hang => simp [hc] at h
    | nofuel => simp [hc] at h

/-- C4: suspension only in LOOKUP, with the step preserved.  For a call of
`CNT_Request` from a valid entry state (step RECV or LOOKUP, no handle held):
(1) a call that returns never returns MORE, and it returns DISEMBARK exactly
when the last calls in its trace are those of a `cnt_lookup` invocation whose
index lookup answered BUSY; at that return the step is LOOKUP and `obj`,
`objcore`, `busyobj` are null; (2) whenever the loop reaches a state boundary in
step LOOKUP and the index answers BUSY in that turn, the call does return
DISEMBARK, provided the assertions of the dispatcher hold: the thread workspace
is well formed and empty at that boundary (lines 918-919), the calls of the turn
leave it well formed (line 933) and the writer is released (line 968); (3) a
handler other than `cnt_lookup` never returns DISEMBARK. -/
theorem CNT_Request_disembark (cache_param : params) (env : Nat → answers) (fuel : Nat)
    (s : State) (hentry : valid_entry cache_param s) :
    (∀ nxt s', CNT_Request cache_param env fuel s = Res.ok (nxt, s') →
      nxt ≠ REQ_FSM_MORE
      ∧ (nxt = REQ_FSM_DISEMBARK ↔
          ∃ pre wl am, s'.trace = pre ++
            [Event.step R_STP_LOOKUP, Event.VRY_Prep, Event.HSH_Lookup wl am HSH_BUSY])
      ∧ (nxt = REQ_FSM_DISEMBARK →
          s'.req.req_step = R_STP_LOOKUP ∧ s'.req.obj = none ∧ s'.req.objcore = none
          ∧ s'.req.busyobj = none))
    ∧ (∀ n t, n < fuel →
        CNT_boundary cache_param env n { s with req := { s.req with wrk := true } } = some t →
        t.req.req_step = R_STP_LOOKUP → (env n).HSH_Lookup.lr = HSH_BUSY →
        ws_clear t.wrk.aws → (env n).aws.sane = true → WRW_IsReleased t.wrk = true →
        ∃ s', CNT_Request cache_param env fuel s = Res.ok (REQ_FSM_DISEMBARK, s'))
    ∧ (∀ a t nxt t', t.req.req_step ≠ R_STP_LOOKUP →
        CNT_step cache_param a t = Res.ok (nxt, t') → nxt ≠ REQ_FSM_DISEMBARK) := by
  obtain ⟨hstep, hobj, hoc, hbo, hwid⟩ := hentry
  have hstep' : (s.req.req_step == R_STP_LOOKUP || s.req.req_step == R_STP_RECV) = true := by
    rcases hstep with h | h <;> simp [h]
  refine ⟨?_, ?_, ?_⟩
  · intro nxt s' h
    simp only [CNT_Request, hstep', hwid, assert_true, AN_true, Res.ok_bind] at h
    cases hl : CNT_loop cache_param env fuel { s with req := { s.req with wrk := true } } with
    | ok p =>
      obtain ⟨nxt1, s1⟩ := p
      have hp := CNT_loop_post cache_param fuel env
        { s with req := { s.req with wrk := true } } (fun _ => hobj) _ hl
      simp only [hl, Res.ok_bind] at h
      simp only [Res.bind_eq_ok, assert_eq_ok, exists_const, Res.ok.injEq, Prod.mk.injEq] at h
      obtain ⟨-, rfl, rfl⟩ := h
      cases nxt1 with
      | REQ_FSM_MORE => exact absurd rfl hp.1
      | REQ_FSM_DONE =>
        refine ⟨by simp, ⟨(fun h => nomatch h), ?_⟩, (fun h => nomatch h)⟩
        rintro ⟨pre, wl, am, h⟩
        exfalso
        simp [CNT_Request_done, emit] at h
        have h2 : s1.trace ++ [Event.SES_Charge]
            = (pre ++ [Event.step R_STP_LOOKUP, Event.VRY_Prep])
              ++ [Event.HSH_Lookup wl am HSH_BUSY] := by simp [h]
        have := List.append_inj_right' h2 rfl
        simp at this
      | REQ_FSM_DISEMBARK =>
        obtain ⟨h1, h2, h3, h4, h5⟩ := hp.2 rfl
        refine ⟨by simp, ⟨fun _ => ?_, fun _ => rfl⟩, fun _ => ?_⟩
        · simpa using h5
        · exact ⟨h1, h2, h3, h4⟩
    | abort => simp [hl] at h
    | hang => simp [hl] at h
    | nofuel => simp [hl] at h
  · intro n t hn hb hl hbusy hw ha hwrw
    obtain ⟨m, rfl⟩ : ∃ m, fuel = n + (m + 1) := ⟨fuel - n - 1, by omega⟩
    have hinv := CNT_boundary_inv cache_param n env
      { s with req := { s.req with wrk := true } } t (fun _ => ⟨hobj, hoc, hbo⟩) hb hl
    have hloop := CNT_loop_of_boundary cache_param n env
      { s with req := { s.req with wrk := true } } t hb (m + 1)
    rw [CNT_loop_succ] at hloop
    have hs := CNT_step_busy cache_param (env (0 + n)) t hl hinv.2.1 hinv.2.2
      (by simpa using hbusy) hw (by simpa using ha)
    simp only [hs] at hloop
    refine ⟨{ wrk := { t.wrk with aws := (env (0 + n)).aws },
              req := { t.req with wrk := false },
              trace := t.trace ++
                [Event.step R_STP_LOOKUP, Event.VRY_Prep,
                 Event.HSH_Lookup (t.req.esi_level == 0) t.req.hash_always_miss HSH_BUSY] }, ?_⟩
    simp only [WRW_IsReleased] at hwrw
    simp only [CNT_Request, hstep', hwid, assert_true, AN_true, Res.ok_bind, hloop]
    simp [WRW_IsReleased, hwrw]
  · intro a t nxt t' hne h hd
    subst hd
    exact hne ((CNT_step_post cache_param a t _ h).1 rfl).1

/-- Witness of C4: a request that `recv` sends to LOOKUP while the index holds a
busy objhead is suspended in the second turn, in step LOOKUP, holding nothing. -/
theorem CNT_Request_disembark_witness :
    valid_entry sample_params (sample_state R_STP_RECV)
    ∧ ∃ s', CNT_Request sample_params
          (fun _ => sample_answers VCL_RET_HASH VCL_RET_DELIVER sample_busy sample_alloc) 3
          (sample_state R_STP_RECV) = Res.ok (REQ_FSM_DISEMBARK, s')
        ∧ s'.req.req_step = R_STP_LOOKUP ∧ s'.req.obj = none ∧ s'.req.objcore = none
        ∧ s'.req.busyobj = none := by
  have hv : valid_entry sample_params (sample_state R_STP_RECV) :=
    ⟨Or.inr rfl, rfl, rfl, rfl, by decide⟩
  have h := CNT_Request_disembark sample_params
    (fun _ => sample_answers VCL_RET_HASH VCL_RET_DELIVER sample_busy sample_alloc) 3
    (sample_state R_STP_RECV) hv
  have hb : (CNT_boundary sample_params
      (fun _ => sample_answers VCL_RET_HASH VCL_RET_DELIVER sample_busy sample_alloc) 1
      { sample_state R_STP_RECV with
        req := { (sample_state R_STP_RECV).req with wrk := true } }).map
          (fun t => (t.req.req_step, decide (ws_clear t.wrk.aws), WRW_IsReleased t.wrk))
      = some (R_STP_LOOKUP, true, true) := by decide
  cases hc : CNT_boundary sample_params
      (fun _ => sample_answers VCL_RET_HASH VCL_RET_DELIVER sample_busy sample_alloc) 1
      { sample_state R_STP_RECV with
        req := { (sample_state R_STP_RECV).req with wrk := true } } with
  | none => rw [hc] at hb; cases hb
  | some t =>
    rw [hc] at hb
    simp only [Option.map_some', Option.some.injEq, Prod.mk.injEq, decide_eq_true_eq] at hb
    obtain ⟨h1, h2, h3⟩ := hb
    obtain ⟨s', hs'⟩ := h.2.1 1 t (by decide) hc h1 rfl h2 rfl h3
    exact ⟨hv, s', hs', (h.1 _ _ hs').2.2 rfl⟩

/-! ## Invariants of the dispatcher: the handles -/

theorem handles_inv_of_null (s : State) (h : handles_null s) : handles_inv s := by
  obtain ⟨h1, h2, h3⟩ := h
  unfold handles_inv
  split <;> simp [handles_null, h1, h2, h3]

theorem CNT_boundary_induct (k : params) (P : State → Prop)
    (hP : ∀ a s s', P s → CNT_step k a s = Res.ok (REQ_FSM_MORE, s') → P s') :
    ∀ (n : Nat) (env : Nat → answers) (s t : State),
      P s → CNT_boundary k env n s = some t → P t := by
  intro n
  induction n with
  | zero => intro env s t hs h; simp [CNT_boundary] at h; subst h; exact hs
  | succ n ih =>
    intro env s t hs h
    simp only [CNT_boundary] at h
    cases hc : CNT_step k (env 0) s with
    | ok p =>
      obtain ⟨nxt, s1⟩ := p
      cases nxt with
      | REQ_FSM_MORE =>
        simp only [hc] at h
        exact ih _ s1 t (hP _ s s1 hs hc) h
      | REQ_FSM_DONE => simp [hc] at h
      | REQ_FSM_DISEMBARK => simp [hc] at h
    | abort => simp [hc] at h
    | hang => simp [hc] at h
    | nofuel => simp [hc] at h

theorem CNT_loop_induct (k : params) (P : State → Prop) (Q : req_fsm_nxt × State → Prop)
    (hP : ∀ a s s', P s → CNT_step k a s = Res.ok (REQ_FSM_MORE, s') → P s')
    (hQ : ∀ a s r, P s → CNT_step k a s = Res.ok r → r.1 ≠ REQ_FSM_MORE → Q r) :
    ∀ (fuel : Nat) (env : Nat → answers) (s : State),
      P s → (CNT_loop k env fuel s).sat Q := by
  intro fuel
  induction fuel with
  | zero => intro env s _; simp [CNT_loop, sat_nofuel]
  | succ n ih =>
    intro env s hs r hr
    rw [CNT_loop_succ] at hr
    cases hc : CNT_step k (env 0) s with
    | ok p =>
      obtain ⟨nxt, s1⟩ := p
      cases nxt with
      | REQ_FSM_MORE =>
        simp only [hc] at hr
        exact ih _ s1 (hP _ s s1 hs hc) r hr
      | REQ_FSM_DONE =>
        simp only [hc] at hr
        cases hr
        exact hQ _ s _ hs hc (by simp)
      | REQ_FSM_DISEMBARK =>
        simp only [hc] at hr
        cases hr
        exact hQ _ s _ hs hc (by simp)
    | abort => simp [hc] at hr
    | hang => simp [hc] at hr
    | nofuel => simp [hc] at hr

theorem cnt_recv_handles (k : params) (a : answers) (s : State) :
    (cnt_recv k a s).sat handles_post :=
  sat_mono (cnt_recv_post k a s) (fun _ hr =>
    ⟨fun _ => handles_inv_of_null _ hr.2, fun h => absurd hr.1 h⟩)

theorem cnt_pipe_handles (k : params) (a : answers) (s : State)
    (hobj : s.req.obj = none) (hoc : s.req.objcore = none) :
    (cnt_pipe k a s).sat handles_post := by
  simp [cnt_pipe, handles_post, handles_null, sat_bind, sat_AZ, sat_AN, sat_assert, sat_ite,
    sat_ok, sat_abort, hobj, hoc]

theorem cnt_pass_handles (k : params) (a : answers) (s : State) :
    (cnt_pass k a s).sat handles_post := by
  simp only [cnt_pass, sat_bind, sat_AZ, sat_ite, sat_assert, sat_ok, sat_abort]
  intro h1 h2 h3
  simp at h1 h2 h3
  refine ⟨fun _ => ?_, fun _ => ⟨fun _ => trivial, fun _ _ => ?_⟩⟩
  · simp [handles_post, handles_inv, handles_null, h1, h2, h3]
  · simp [handles_post, handles_inv, handles_null, h1, h2, h3]

theorem cnt_restart_handles (k : params) (a : answers) (s : State) (h : handles_null s) :
    (cnt_restart k a s).sat handles_post := by
  obtain ⟨h1, h2, h3⟩ := h
  simp only [cnt_restart, sat_ite, sat_ok]
  refine ⟨fun _ => ?_, fun _ => ?_⟩ <;>
    simp [handles_post, handles_inv, handles_null, h1, h2, h3]

theorem cnt_purge_handles (k : params) (a : answers) (s : State) (hobj : s.req.obj = none) :
    (cnt_purge k a s).sat handles_post := by
  simp only [cnt_purge, sat_bind, sat_AZ, sat_AN, sat_assert, sat_ite, sat_ok, sat_abort]
  intro h1 h2 _ _ _
  simp at h1 h2
  split
  · simp [sat_abort]
  · simp only [sat_bind, sat_AZ, sat_ok]
    intro _
    simp [handles_post, handles_inv, handles_null, h1, h2, hobj]

theorem cnt_miss_handles (k : params) (a : answers) (s : State) :
    (cnt_miss k a s).sat handles_post := by
  simp only [cnt_miss]
  split
  · simp [sat_abort]
  · simp only [sat_bind, sat_AZ]
    intro h1 h2
    simp at h1 h2
    split <;> (try simp only [cnt_miss_release]) <;> (try split) <;>
      simp [sat_bind, sat_AZ, sat_ok, sat_abort, handles_post, handles_inv, handles_null, h1, h2]

theorem cnt_fetch_handles (k : params) (a : answers) (s : State)
    (hobj : s.req.obj = none) (hoc : s.req.objcore = none) :
    (cnt_fetch k a s).sat handles_post := by
  simp only [cnt_fetch]
  split <;>
    simp [sat_bind, sat_AZ, sat_AN, sat_assert, sat_ite, sat_ok, sat_abort, sat_hang,
      handles_post, handles_inv, handles_null, hobj, hoc]

theorem cnt_lookup_handles (k : params) (a : answers) (s : State) (hobj : s.req.obj = none) :
    (cnt_lookup k a s).sat handles_post := by
  simp only [cnt_lookup, sat_bind, sat_AZ, sat_AN, sat_assert, sat_ite, sat_ok]
  intro h1 h2 _
  simp at h1 h2
  refine ⟨fun _ => ?_, fun _ => ?_⟩
  · simp [handles_post, handles_null, h1, h2, hobj]
  · intro s1 hs1
    have e1 : s1.req = s.req := by
      revert hs1
      split
      · intro hs1; simp only [Res.ok.injEq] at hs1; subst hs1; rfl
      · intro hs1
        simp only [Res.bind_eq_ok, AN_eq_ok, exists_const] at hs1
        obtain ⟨-, hs1⟩ := hs1
        simp only [Res.ok.injEq] at hs1; subst hs1; rfl
    intro _
    refine ⟨fun _ _ => ?_, fun _ => ?_⟩
    · split <;>
        simp [sat_ok, sat_abort, sat_bind, sat_AN, handles_post, handles_inv, e1, h2, hobj]
    · split
      · simp [sat_abort]
      · simp only [sat_bind, sat_AZ, sat_ite, sat_ok]
        intro _ _ _
        refine ⟨fun _ _ => by simp [handles_post, handles_inv, handles_null, e1, h2, hobj],
          fun _ => ?_⟩
        simp only [cnt_lookup_hit]
        split
        · simp [sat_abort]
        · simp only [sat_bind, sat_AZ]
          intro _
          split
          · simp [sat_abort]
          · split <;>
              simp [cnt_lookup_drop, HSH_Deref_obj, sat_ok, sat_abort, handles_post, handles_inv,
                handles_null, e1, h1, h2]

theorem cnt_prepresp_handles (k : params) (a : answers) (s : State)
    (hoc : s.req.objcore = none) (hbo : s.req.busyobj = none) :
    (cnt_prepresp k a s).sat handles_post := by
  simp only [cnt_prepresp]
  split
  · simp [sat_abort]
  · rename_i o _
    simp only [sat_bind]
    intro s1 hs1
    rw [cnt_prepresp_res_mode_eq k a o s (fun b hb => by simp [hbo] at hb)] at hs1
    simp only [Res.ok.injEq] at hs1
    subst hs1
    split
    · simp [sat_ok, handles_post, handles_inv, hoc, hbo]
    · simp only [sat_ite, sat_bind]
      refine ⟨fun _ => by simp [sat_ok, handles_post, handles_inv, hoc, hbo], fun _ => ?_⟩
      simp [hbo, sat_ok, sat_AZ, HSH_Deref_obj, handles_post, handles_inv, handles_null, hoc]
    · simp [sat_abort]

theorem cnt_deliver_handles (k : params) (a : answers) (s : State)
    (hoc : s.req.objcore = none) :
    (cnt_deliver k a s).sat handles_post := by
  simp only [cnt_deliver, cnt_deliver_write]
  split
  · simp [sat_abort]
  · split
    · simp [sat_bind, sat_AZ, sat_AN, sat_assert, sat_ite, sat_ok, sat_abort, sat_hang,
        HSH_Deref_obj, VBO_DerefBusyObj, handles_post, handles_inv, handles_null, hoc]
    · simp [sat_bind, sat_AZ, sat_AN, sat_assert, sat_ite, sat_ok, sat_abort, sat_hang,
        HSH_Deref_obj, VBO_DerefBusyObj, handles_post, handles_inv, handles_null, hoc]
      intro hb _
      exact hb

theorem cnt_error_handles (k : params) (a : answers) (s : State) :
    (cnt_error k a s).sat handles_post := by
  simp only [cnt_error, sat_bind, sat_AZ]
  intro h1 h2 h3 _
  simp at h1 h2 h3
  split
  · split <;>
      simp_all [sat_bind, sat_AZ, sat_AN, sat_assert, sat_ite, sat_ok, sat_abort, sat_hang,
        upd_busyobj, VBO_DerefBusyObj, handles_post, handles_inv, handles_null]
  · simp [cnt_error_dispatch, sat_bind, sat_AZ, sat_AN, sat_assert, sat_ite, sat_ok, sat_abort,
      sat_hang, HSH_Drop, VBO_DerefBusyObj, upd_busyobj, handles_post, handles_inv, handles_null,
      h1, h2, h3]

theorem CNT_dispatch_handles (k : params) (a : answers) (s : State) (h : handles_inv s) :
    (CNT_dispatch k a s).sat handles_post := by
  simp only [CNT_dispatch, emit_req]
  unfold handles_inv at h
  cases hst : s.req.req_step <;> simp only [hst, handles_null] at h ⊢
  case R_STP_RECV => exact cnt_recv_handles k a _
  case R_STP_PIPE => exact cnt_pipe_handles k a _ h.1 h.2.1
  case R_STP_PASS => exact cnt_pass_handles k a _
  case R_STP_LOOKUP => exact cnt_lookup_handles k a _ h.1
  case R_STP_PURGE => exact cnt_purge_handles k a _ h.1
  case R_STP_MISS => exact cnt_miss_handles k a _
  case R_STP_FETCH => exact cnt_fetch_handles k a _ h.1 h.2
  case R_STP_PREPRESP => exact cnt_prepresp_handles k a _ h.1 h.2
  case R_STP_DELIVER => exact cnt_deliver_handles k a _ h.1
  case R_STP_ERROR => exact cnt_error_handles k a _
  case R_STP_RESTART => exact cnt_restart_handles k a _ h


theorem CNT_step_handles (k : params) (a : answers) (s : State) (h : handles_inv s) :
    (CNT_step k a s).sat handles_post :=
  CNT_step_sat k a s (CNT_dispatch_handles k a s h) (fun _ _ hp => hp)
/-! ## Invariants of the dispatcher: the restart counter -/

theorem cnt_recv_restarts (k : params) (a : answers) (s : State) :
    (cnt_recv k a s).sat (fun r => r.2.req.restarts = s.req.restarts) := by
  simp only [cnt_recv, sat_bind, sat_AZ, sat_AN, sat_assert, sat_ite, sat_ok]
  intro _ _ _ _
  refine ⟨fun _ => by simp, fun _ _ _ _ => ?_⟩
  split <;> simp [sat_ok, sat_abort, sat_ite]

theorem cnt_pipe_restarts (k : params) (a : answers) (s : State) :
    (cnt_pipe k a s).sat (fun r => r.2.req.restarts = s.req.restarts) := by
  simp [cnt_pipe, sat_bind, sat_AZ, sat_AN, sat_assert, sat_ite, sat_ok, sat_abort,
    VBO_DerefBusyObj]

theorem cnt_pass_restarts (k : params) (a : answers) (s : State) :
    (cnt_pass k a s).sat (fun r => r.2.req.restarts = s.req.restarts) := by
  simp [cnt_pass, sat_bind, sat_AZ, sat_AN, sat_assert, sat_ite, sat_ok, sat_abort]

theorem cnt_purge_restarts (k : params) (a : answers) (s : State) :
    (cnt_purge k a s).sat (fun r => r.2.req.restarts = s.req.restarts) := by
  simp only [cnt_purge, sat_bind, sat_AZ, sat_AN, sat_assert, sat_ite, sat_ok, sat_abort]
  intros
  split <;> simp [sat_bind, sat_AZ, sat_ok, sat_abort]

theorem cnt_miss_restarts (k : params) (a : answers) (s : State) :
    (cnt_miss k a s).sat (fun r => r.2.req.restarts = s.req.restarts) := by
  simp only [cnt_miss]
  split
  · simp [sat_abort]
  · simp only [sat_bind, sat_AZ]
    intros
    split <;> (try simp only [cnt_miss_release]) <;> (try split) <;>
      simp [sat_bind, sat_AZ, sat_ok, sat_abort]

theorem cnt_fetch_restarts (k : params) (a : answers) (s : State) :
    (cnt_fetch k a s).sat (fun r => r.2.req.restarts = s.req.restarts) := by
  simp only [cnt_fetch]
  split <;>
    simp [sat_bind, sat_AZ, sat_AN, sat_assert, sat_ite, sat_ok, sat_abort, sat_hang,
      VBO_DerefBusyObj]

theorem cnt_lookup_restarts (k : params) (a : answers) (s : State) :
    (cnt_lookup k a s).sat (fun r => r.2.req.restarts = s.req.restarts) := by
  simp only [cnt_lookup, sat_bind, sat_AZ, sat_AN, sat_assert, sat_ite, sat_ok]
  intro _ _ _
  refine ⟨fun _ => by simp, fun _ => ?_⟩
  intro s1 hs1
  have e1 : s1.req = s.req := by
    revert hs1
    split
    · intro hs1; simp only [Res.ok.injEq] at hs1; subst hs1; rfl
    · intro hs1
      simp only [Res.bind_eq_ok, AN_eq_ok, exists_const] at hs1
      obtain ⟨-, hs1⟩ := hs1
      simp only [Res.ok.injEq] at hs1; subst hs1; rfl
  intro _
  refine ⟨fun _ _ => ?_, fun _ => ?_⟩
  · split <;> simp [sat_ok, sat_abort, sat_bind, sat_AN, e1]
  · split
    · simp [sat_abort]
    · simp only [sat_bind, sat_AZ, sat_ite, sat_ok]
      intro _ _ _
      refine ⟨fun _ _ => by simp [e1], fun _ => ?_⟩
      simp only [cnt_lookup_hit]
      split
      · simp [sat_abort]
      · simp only [sat_bind, sat_AZ]
        intro _
        split
        · simp [sat_abort]
        · split <;> simp [cnt_lookup_drop, HSH_Deref_obj, sat_ok, sat_abort, e1]

theorem cnt_restart_restarts (k : params) (a : answers) (s : State) :
    (cnt_restart k a s).sat (fun r => r.2.req.restarts = s.req.restarts + 1
      ∧ (k.max_restarts ≤ s.req.restarts + 1 → r.2.req.req_step = R_STP_ERROR)) := by
  simp only [cnt_restart, sat_ite, sat_ok]
  refine ⟨fun h => ?_, fun h => ?_⟩
  · simp
  · simp only [ge_iff_le, not_le] at h
    simp
    omega

theorem cnt_error_dispatch_restarts (k : params) (a : answers) (t : State) :
    (cnt_error_dispatch k a t).sat (fun r => r.2.req.restarts = t.req.restarts
      ∧ ((r.2.req.req_step = R_STP_RESTART ∧ t.req.restarts < k.max_restarts)
          ∨ (r.2.req.req_step = R_STP_PREPRESP ∧ r.2.req.busyobj = none))) := by
  simp only [cnt_error_dispatch, sat_ite, sat_bind, sat_assert, sat_ok]
  refine ⟨fun h => ?_, fun _ _ => ?_⟩
  · simp at h
    simp [HSH_Drop, VBO_DerefBusyObj, h.2]
  · simp [VBO_DerefBusyObj]

theorem cnt_error_cases (k : params) (a : answers) (s : State) :
    cnt_error k a s = Res.abort
    ∨ (∃ s', cnt_error k a s = Res.ok (REQ_FSM_DONE, s') ∧ s'.req.restarts = s.req.restarts
        ∧ a.STV_NewObject.obj = none)
    ∨ (∃ t, cnt_error k a s = cnt_error_dispatch k a t ∧ t.req.restarts = s.req.restarts
        ∧ t.req.objcore = none ∧ (∃ o b, t.req.obj = some o ∧ t.req.busyobj = some b)
        ∧ s.req.obj = none ∧ s.req.objcore = none ∧ s.req.busyobj = none) := by
  cases hoc : s.req.objcore with
  | some _ => left; simp [cnt_error, hoc]
  | none =>
  cases hobj : s.req.obj with
  | some _ => left; simp [cnt_error, hoc, hobj]
  | none =>
  cases hbo : s.req.busyobj with
  | some _ => left; simp [cnt_error, hoc, hobj, hbo]
  | none =>
  cases hstats : a.VBO_GetBusyObj.stats with
  | true => left; simp [cnt_error, hoc, hobj, hbo, hstats]
  | false =>
  cases halloc : a.STV_NewObject.obj with
  | none =>
    cases hfoc : a.STV_NewObject.fetch_objcore with
    | none => left; simp [cnt_error, emit, upd_busyobj, hoc, hobj, hbo, hstats, halloc, hfoc]
    | some oc =>
      cases hd : (a.HSH_Deref != 0) with
      | true =>
        left
        simp [cnt_error, emit, upd_busyobj, hoc, hobj, hbo, hstats, halloc, hfoc, hd]
      | false =>
        right; left
        simp [cnt_error, emit, upd_busyobj, VBO_DerefBusyObj, hoc, hobj, hbo, hstats, halloc,
          hfoc, hd]
  | some o =>
    cases hfoc : a.STV_NewObject.fetch_objcore with
    | some _ => left; simp [cnt_error, emit, upd_busyobj, hoc, hobj, hbo, hstats, halloc, hfoc]
    | none =>
      right; right
      exact ⟨_, cnt_error_alloc k a s o hoc hobj hbo hstats halloc hfoc, rfl, hoc,
        ⟨_, _, rfl, rfl⟩, rfl, rfl, rfl⟩

theorem cnt_error_restarts (k : params) (a : answers) (s : State) :
    (cnt_error k a s).sat (fun r => r.2.req.restarts = s.req.restarts
      ∧ (r.1 = REQ_FSM_MORE →
          (r.2.req.req_step = R_STP_RESTART ∧ s.req.restarts < k.max_restarts)
          ∨ (r.2.req.req_step = R_STP_PREPRESP ∧ r.2.req.busyobj = none))) := by
  intro r hr
  rcases cnt_error_cases k a s with h | ⟨s', h, hs', -⟩ | ⟨t, h, ht, -⟩
  · rw [h] at hr; cases hr
  · rw [h] at hr; cases hr; exact ⟨hs', fun h => nomatch h⟩
  · rw [h] at hr
    have := cnt_error_dispatch_restarts k a t r hr
    rw [ht] at this
    exact ⟨this.1, fun _ => this.2⟩

theorem cnt_prepresp_restarts (k : params) (a : answers) (s : State) :
    (cnt_prepresp k a s).sat (fun r => r.2.req.restarts = s.req.restarts
      ∧ r.1 = REQ_FSM_MORE
      ∧ ((r.2.req.req_step = R_STP_RESTART ∧ s.req.restarts < k.max_restarts)
          ∨ (r.2.req.req_step = R_STP_DELIVER ∧ r.2.req.busyobj = s.req.busyobj))) := by
  simp only [cnt_prepresp]
  split
  · simp [sat_abort]
  · rename_i o _
    simp only [sat_bind]
    intro s1 hs1
    have e1 : s1.req.restarts = s.req.restarts ∧ s1.req.busyobj = s.req.busyobj := by
      by_cases hesi : ∃ b, s.req.busyobj = some b ∧ b.do_esi = true
      · obtain ⟨b, hb, hbe⟩ := hesi
        rw [cnt_prepresp_res_mode_abort k a o s b hb hbe] at hs1
        cases hs1
      · have hbo : ∀ b, s.req.busyobj = some b → b.do_esi = false := by
          intro b hb
          cases hbe : b.do_esi with
          | false => rfl
          | true => exact absurd ⟨b, hb, hbe⟩ hesi
        rw [cnt_prepresp_res_mode_eq k a o s hbo] at hs1
        simp only [Res.ok.injEq] at hs1
        subst hs1
        exact ⟨rfl, rfl⟩
    split
    · simp [sat_ok, e1]
    · simp only [sat_ite, sat_bind]
      refine ⟨fun _ => by simp [sat_ok, e1], fun hlt => ?_⟩
      simp only [VCL_method_restarts, ge_iff_le, not_le, e1.1] at hlt
      intro s2 hs2
      have e2 : s2.req.restarts = s.req.restarts := by
        revert hs2
        split
        · intro hs2
          simp only [Res.bind_eq_ok, AN_eq_ok, assert_eq_ok, exists_const] at hs2
          obtain ⟨-, -, hs2⟩ := hs2
          simp only [Res.ok.injEq] at hs2
          subst hs2
          simp [VBO_DerefBusyObj, e1]
        · intro hs2
          simp only [Res.ok.injEq] at hs2
          subst hs2
          simp [HSH_Deref_obj, e1]
      simp [sat_AZ, sat_ok, e2, hlt]
    · simp [sat_abort]

theorem cnt_deliver_restarts (k : params) (a : answers) (s : State) :
    (cnt_deliver k a s).sat (fun r =>
      (r.1 = REQ_FSM_DONE ∧ r.2.req.restarts = 0)
      ∨ (r.1 = REQ_FSM_MORE ∧ r.2.req.restarts = s.req.restarts ∧ s.req.busyobj ≠ none)) := by
  simp only [cnt_deliver, cnt_deliver_write]
  split
  · simp [sat_abort]
  · split
    · rename_i hb
      simp [sat_bind, sat_AZ, sat_AN, sat_assert, sat_ite, sat_ok, sat_abort, sat_hang,
        HSH_Deref_obj, VBO_DerefBusyObj, hb]
    · simp [sat_bind, sat_AZ, sat_AN, sat_assert, sat_ite, sat_ok, sat_abort, sat_hang,
        HSH_Deref_obj, VBO_DerefBusyObj]

theorem restart_cap_pos (k : params) : 1 ≤ restart_cap k := by
  simp [restart_cap]

theorem restart_cap_ge (k : params) : k.max_restarts ≤ restart_cap k := by
  simp [restart_cap]

theorem restart_cap_le (k : params) : restart_cap k ≤ k.max_restarts + 1 := by
  simp only [restart_cap]; omega

theorem restart_cap_eq (k : params) (h : 1 ≤ k.max_restarts) : restart_cap k = k.max_restarts := by
  simp only [restart_cap]; omega

theorem restarts_inv_le (k : params) (s : State) (h : restarts_inv k s) :
    s.req.restarts ≤ restart_cap k := by
  rcases h with h | ⟨h, -⟩ <;> omega

theorem restarts_post_of_eq (k : params) (s : State) (r : req_fsm_nxt × State)
    (hlt : s.req.restarts < restart_cap k) (hr : r.2.req.restarts = s.req.restarts) :
    restarts_post k r :=
  ⟨fun _ => Or.inl (by omega), by omega⟩

theorem CNT_dispatch_restarts (k : params) (a : answers) (s : State) (h : restarts_inv k s) :
    (CNT_dispatch k a s).sat (restarts_post k) := by
  have hcap := restart_cap_ge k
  have hpos := restart_cap_pos k
  simp only [CNT_dispatch, emit_req]
  unfold restarts_inv at h
  cases hst : s.req.req_step <;> simp only [hst, false_or, or_false, and_false, or_self,
    true_and, true_or, false_and, reduceCtorEq] at h ⊢
  case R_STP_RECV =>
    exact sat_mono (cnt_recv_restarts k a _) (fun r hr => restarts_post_of_eq k s r h hr)
  case R_STP_PIPE =>
    exact sat_mono (cnt_pipe_restarts k a _) (fun r hr => restarts_post_of_eq k s r h hr)
  case R_STP_PASS =>
    exact sat_mono (cnt_pass_restarts k a _) (fun r hr => restarts_post_of_eq k s r h hr)
  case R_STP_LOOKUP =>
    exact sat_mono (cnt_lookup_restarts k a _) (fun r hr => restarts_post_of_eq k s r h hr)
  case R_STP_PURGE =>
    exact sat_mono (cnt_purge_restarts k a _) (fun r hr => restarts_post_of_eq k s r h hr)
  case R_STP_MISS =>
    exact sat_mono (cnt_miss_restarts k a _) (fun r hr => restarts_post_of_eq k s r h hr)
  case R_STP_FETCH =>
    exact sat_mono (cnt_fetch_restarts k a _) (fun r hr => restarts_post_of_eq k s r h hr)
  case R_STP_RESTART =>
    refine sat_mono (cnt_restart_restarts k a _) (fun r hr => ?_)
    simp only [emit_req] at hr
    obtain ⟨h1, h2⟩ := hr
    refine ⟨fun _ => ?_, by omega⟩
    by_cases hlt : s.req.restarts + 1 < restart_cap k
    · exact Or.inl (by omega)
    · exact Or.inr ⟨by omega, Or.inl (h2 (by omega))⟩
  case R_STP_ERROR =>
    refine sat_mono (cnt_error_restarts k a _) (fun r hr => ?_)
    simp only [emit_req] at hr
    obtain ⟨h1, h2⟩ := hr
    have hle : s.req.restarts ≤ restart_cap k := by rcases h with h | h <;> omega
    refine ⟨fun hm => ?_, by omega⟩
    rcases h2 hm with ⟨-, hlt⟩ | ⟨hp, hb⟩
    · exact Or.inl (by omega)
    · by_cases hlt : s.req.restarts < restart_cap k
      · exact Or.inl (by omega)
      · exact Or.inr ⟨by omega, Or.inr ⟨Or.inl hp, hb⟩⟩
  case R_STP_PREPRESP =>
    refine sat_mono (cnt_prepresp_restarts k a _) (fun r hr => ?_)
    simp only [emit_req] at hr
    obtain ⟨h1, -, h2⟩ := hr
    have hle : s.req.restarts ≤ restart_cap k := by rcases h with h | ⟨h, -⟩ <;> omega
    refine ⟨fun _ => ?_, by omega⟩
    rcases h2 with ⟨-, hlt⟩ | ⟨hp, hb⟩
    · exact Or.inl (by omega)
    · rcases h with h | ⟨h, hbo⟩
      · exact Or.inl (by omega)
      · exact Or.inr ⟨by omega, Or.inr ⟨Or.inr hp, by rw [hb, hbo]⟩⟩
  case R_STP_DELIVER =>
    refine sat_mono (cnt_deliver_restarts k a _) (fun r hr => ?_)
    simp only [emit_req] at hr
    rcases hr with ⟨hd, h0⟩ | ⟨hm, h1, hb⟩
    · exact ⟨fun hm => (by rw [hd] at hm; cases hm), by omega⟩
    · rcases h with h | ⟨-, hbo⟩
      · exact restarts_post_of_eq k s r h h1
      · exact absurd hbo hb

theorem CNT_step_restarts (k : params) (a : answers) (s : State) (h : restarts_inv k s) :
    (CNT_step k a s).sat (restarts_post k) :=
  CNT_step_sat k a s (CNT_dispatch_restarts k a s h) (fun _ _ hp => hp)

/-! ## The dispatcher: what a returned call went through -/

theorem CNT_Request_eq_ok (k : params) (env : Nat → answers) (fuel : Nat) (s : State)
    (nxt : req_fsm_nxt) (s' : State) (h : CNT_Request k env fuel s = Res.ok (nxt, s')) :
    ∃ s1, CNT_loop k env fuel { s with req := { s.req with wrk := true } } = Res.ok (nxt, s1)
      ∧ s'.req.restarts = s1.req.restarts ∧ s'.req.obj = s1.req.obj
      ∧ s'.req.objcore = s1.req.objcore ∧ s'.req.busyobj = s1.req.busyobj
      ∧ s'.req.req_step = s1.req.req_step := by
  simp only [CNT_Request, Res.bind_eq_ok, assert_eq_ok, AN_eq_ok, exists_const] at h
  obtain ⟨-, -, ⟨nxt1, s1⟩, hl, -, h⟩ := h
  simp only [Res.ok.injEq, Prod.mk.injEq] at h
  obtain ⟨rfl, rfl⟩ := h
  refine ⟨s1, hl, ?_⟩
  cases nxt1 <;> simp [CNT_Request_done, emit]

theorem handles_inv_entry (s : State)
    (hobj : s.req.obj = none) (hoc : s.req.objcore = none) (hbo : s.req.busyobj = none) :
    handles_inv { s with req := { s.req with wrk := true } } :=
  handles_inv_of_null _ ⟨hobj, hoc, hbo⟩

theorem restarts_inv_entry (k : params) (s : State) (hr : s.req.restarts = 0) :
    restarts_inv k { s with req := { s.req with wrk := true } } :=
  Or.inl (by simp only [hr]; exact restart_cap_pos k)

theorem CNT_boundary_handles (k : params) (env : Nat → answers) (n : Nat) (s t : State)
    (hs : handles_inv s) (h : CNT_boundary k env n s = some t) : handles_inv t :=
  CNT_boundary_induct k handles_inv
    (fun a s _ hs hc => (CNT_step_handles k a s hs _ hc).1 rfl) n env s t hs h

theorem CNT_loop_handles (k : params) (env : Nat → answers) (fuel : Nat) (s : State)
    (hs : handles_inv s) : (CNT_loop k env fuel s).sat (fun r => handles_null r.2) :=
  CNT_loop_induct k handles_inv (fun r => handles_null r.2)
    (fun a s _ hs hc => (CNT_step_handles k a s hs _ hc).1 rfl)
    (fun a s _ hs hc hne => (CNT_step_handles k a s hs _ hc).2 hne) fuel env s hs

theorem CNT_boundary_restarts (k : params) (env : Nat → answers) (n : Nat) (s t : State)
    (hs : restarts_inv k s) (h : CNT_boundary k env n s = some t) : restarts_inv k t :=
  CNT_boundary_induct k (restarts_inv k)
    (fun a s _ hs hc => (CNT_step_restarts k a s hs _ hc).1 rfl) n env s t hs h

theorem CNT_loop_restarts (k : params) (env : Nat → answers) (fuel : Nat) (s : State)
    (hs : restarts_inv k s) :
    (CNT_loop k env fuel s).sat (fun r => r.2.req.restarts ≤ restart_cap k) :=
  CNT_loop_induct k (restarts_inv k) (fun r => r.2.req.restarts ≤ restart_cap k)
    (fun a s _ hs hc => (CNT_step_restarts k a s hs _ hc).1 rfl)
    (fun a s _ hs hc _ => (CNT_step_restarts k a s hs _ hc).2) fuel env s hs

/-! ## Which handlers end a request -/

theorem cnt_pass_more (k : params) (a : answers) (s : State) :
    (cnt_pass k a s).sat (fun r => r.1 = REQ_FSM_MORE) := by
  simp [cnt_pass, sat_bind, sat_AZ, sat_AN, sat_assert, sat_ite, sat_ok, sat_abort]

theorem cnt_restart_more (k : params) (a : answers) (s : State) :
    (cnt_restart k a s).sat (fun r => r.1 = REQ_FSM_MORE) := by
  simp [cnt_restart, sat_ite, sat_ok]

theorem cnt_purge_more (k : params) (a : answers) (s : State) :
    (cnt_purge k a s).sat (fun r => r.1 = REQ_FSM_MORE) := by
  simp only [cnt_purge, sat_bind, sat_AZ, sat_AN, sat_assert, sat_ite, sat_ok, sat_abort]
  intros
  split <;> simp [sat_bind, sat_AZ, sat_ok, sat_abort]

theorem cnt_miss_more (k : params) (a : answers) (s : State) :
    (cnt_miss k a s).sat (fun r => r.1 = REQ_FSM_MORE) := by
  simp only [cnt_miss]
  split
  · simp [sat_abort]
  · simp only [sat_bind, sat_AZ]
    intros
    split <;> (try simp only [cnt_miss_release]) <;> (try split) <;>
      simp [sat_bind, sat_AZ, sat_ok, sat_abort]

theorem cnt_fetch_more (k : params) (a : answers) (s : State) :
    (cnt_fetch k a s).sat (fun r => r.1 = REQ_FSM_MORE) := by
  simp only [cnt_fetch]
  split <;>
    simp [sat_bind, sat_AZ, sat_AN, sat_assert, sat_ite, sat_ok, sat_abort, sat_hang]

theorem cnt_lookup_not_done (k : params) (a : answers) (s : State) :
    (cnt_lookup k a s).sat (fun r => r.1 ≠ REQ_FSM_DONE) := by
  simp only [cnt_lookup, sat_bind, sat_AZ, sat_AN, sat_assert, sat_ite, sat_ok]
  intro _ _ _
  refine ⟨fun _ => by simp, fun _ => ?_⟩
  intro s1 _ _
  refine ⟨fun _ _ => ?_, fun _ => ?_⟩
  · split <;> simp [sat_ok, sat_abort, sat_bind, sat_AN]
  · split
    · simp [sat_abort]
    · simp only [sat_bind, sat_AZ, sat_ite, sat_ok]
      intro _ _ _
      refine ⟨fun _ _ => by simp, fun _ => ?_⟩
      simp only [cnt_lookup_hit]
      split
      · simp [sat_abort]
      · simp only [sat_bind, sat_AZ]
        intro _
        split
        · simp [sat_abort]
        · split <;> simp [cnt_lookup_drop, sat_ok, sat_abort]

theorem CNT_dispatch_done (k : params) (a : answers) (s : State) :
    (CNT_dispatch k a s).sat (fun r => r.1 = REQ_FSM_DONE →
      s.req.req_step = R_STP_DELIVER ∨ s.req.req_step = R_STP_ERROR
      ∨ s.req.req_step = R_STP_PIPE) := by
  simp only [CNT_dispatch, emit_req]
  cases hst : s.req.req_step <;> simp only [reduceCtorEq, or_false, false_or, or_true, true_or,
    imp_false, implies_true]
  case R_STP_RECV =>
    exact sat_mono (cnt_recv_post k a _) (fun r hr => by simp [hr.1])
  case R_STP_PASS =>
    exact sat_mono (cnt_pass_more k a _) (fun r hr => by simp [hr])
  case R_STP_LOOKUP => exact cnt_lookup_not_done k a _
  case R_STP_PURGE =>
    exact sat_mono (cnt_purge_more k a _) (fun r hr => by simp [hr])
  case R_STP_MISS =>
    exact sat_mono (cnt_miss_more k a _) (fun r hr => by simp [hr])
  case R_STP_FETCH =>
    exact sat_mono (cnt_fetch_more k a _) (fun r hr => by simp [hr])
  case R_STP_PREPRESP =>
    exact sat_mono (cnt_prepresp_restarts k a _) (fun r hr => by simp [hr.2.1])
  case R_STP_RESTART =>
    exact sat_mono (cnt_restart_more k a _) (fun r hr => by simp [hr])
  all_goals exact fun _ _ => trivial

theorem CNT_step_done (k : params) (a : answers) (s : State) :
    (CNT_step k a s).sat (fun r => r.1 = REQ_FSM_DONE →
      s.req.req_step = R_STP_DELIVER ∨ s.req.req_step = R_STP_ERROR
      ∨ s.req.req_step = R_STP_PIPE) :=
  CNT_step_sat k a s (CNT_dispatch_done k a s) (fun _ _ hp => hp)

/-! ## RESTART and the restart budget -/

/-- C11: behaviour of `cnt_restart`.  For a request with `restarts = r` the
handler returns MORE; the state it leaves differs from the one it found only in
`director` (null), `restarts` (`r + 1`), `err_code` and the step: 503 and ERROR
when `r + 1 >= max_restarts`, 0 and RECV otherwise.  In particular `obj`,
`objcore` and `busyobj` are the ones it found. -/
theorem cnt_restart_behaviour (cache_param : params) (a : answers) (s : State) :
    cnt_restart cache_param a s = Res.ok (REQ_FSM_MORE,
      { s with req := { s.req with
          director := none,
          restarts := s.req.restarts + 1,
          err_code := if s.req.restarts + 1 ≥ cache_param.max_restarts then 503 else 0,
          req_step :=
            if s.req.restarts + 1 ≥ cache_param.max_restarts then R_STP_ERROR
            else R_STP_RECV } })
    ∧ ∃ s', cnt_restart cache_param a s = Res.ok (REQ_FSM_MORE, s')
        ∧ s'.req.restarts = s.req.restarts + 1 ∧ s'.req.director = none
        ∧ s'.req.obj = s.req.obj ∧ s'.req.objcore = s.req.objcore
        ∧ s'.req.busyobj = s.req.busyobj := by
  have h : cnt_restart cache_param a s = Res.ok (REQ_FSM_MORE,
      { s with req := { s.req with
          director := none,
          restarts := s.req.restarts + 1,
          err_code := if s.req.restarts + 1 ≥ cache_param.max_restarts then 503 else 0,
          req_step :=
            if s.req.restarts + 1 ≥ cache_param.max_restarts then R_STP_ERROR
            else R_STP_RECV } }) := by
    by_cases hr : s.req.restarts + 1 ≥ cache_param.max_restarts <;> simp [cnt_restart, hr]
  exact ⟨h, _, h, rfl, rfl, rfl, rfl, rfl⟩

/-- Witness of C11: with a budget of four, the first restart goes back to RECV
and the fourth one goes to ERROR with 503. -/
theorem cnt_restart_behaviour_witness :
    cnt_restart sample_params
        (sample_answers VCL_RET_HASH VCL_RET_DELIVER sample_hit sample_alloc)
        (sample_state R_STP_RESTART)
      = Res.ok (REQ_FSM_MORE,
        { sample_state R_STP_RESTART with
          req := { sample_req R_STP_RESTART with restarts := 1, req_step := R_STP_RECV } })
    ∧ cnt_restart sample_params
        (sample_answers VCL_RET_HASH VCL_RET_DELIVER sample_hit sample_alloc)
        { sample_state R_STP_RESTART with
          req := { sample_req R_STP_RESTART with restarts := 3 } }
      = Res.ok (REQ_FSM_MORE,
        { sample_state R_STP_RESTART with
          req := { sample_req R_STP_RESTART with
            restarts := 4, err_code := 503, req_step := R_STP_ERROR } }) :=
  ⟨(cnt_restart_behaviour sample_params _ (sample_state R_STP_RESTART)).1,
   (cnt_restart_behaviour sample_params _
      { sample_state R_STP_RESTART with
        req := { sample_req R_STP_RESTART with restarts := 3 } }).1⟩

/-- Counterexample to C13 as stated: with `max_restarts = 0`, a request that
starts in RECV with `restarts = 0`, hits the cache and is restarted by
`hook.lookup` stands at the third state boundary (before `cnt_error`) with
`restarts = 1`, above `max_restarts`. -/
theorem CNT_Request_restarts_boundary_counterexample :
    sample_entry.req.req_step = R_STP_RECV ∧ sample_entry.req.restarts = 0
    ∧ ∃ t, CNT_boundary sample_params_zero
          (fun _ => sample_answers VCL_RET_HASH VCL_RET_RESTART sample_hit sample_alloc) 3
          sample_entry = some t
        ∧ t.req.req_step = R_STP_ERROR
        ∧ ¬ t.req.restarts ≤ sample_params_zero.max_restarts := by
  have hb : (CNT_boundary sample_params_zero
      (fun _ => sample_answers VCL_RET_HASH VCL_RET_RESTART sample_hit sample_alloc) 3
      sample_entry).map (fun t => (t.req.req_step, t.req.restarts))
        = some (R_STP_ERROR, 1) := by decide
  cases hc : CNT_boundary sample_params_zero
      (fun _ => sample_answers VCL_RET_HASH VCL_RET_RESTART sample_hit sample_alloc) 3
      sample_entry with
  | none => rw [hc] at hb; cases hb
  | some t =>
    rw [hc] at hb
    simp only [Option.map_some', Option.some.injEq, Prod.mk.injEq] at hb
    exact ⟨rfl, rfl, t, rfl, hb.1, by rw [hb.2]; decide⟩

/-- C13, amended: the restart bound at the state boundaries.  For every
configuration, sequence of answers and start state with `restarts = 0`:
at every state boundary of the loop, and when `CNT_Request` returns,
`restarts <= max(max_restarts, 1)`; so `restarts <= max_restarts` holds there
whenever `max_restarts >= 1`. -/
theorem CNT_Request_restarts_boundary (cache_param : params) (env : Nat → answers) (s : State)
    (hr : s.req.restarts = 0) :
    (∀ n t, CNT_boundary cache_param env n { s with req := { s.req with wrk := true } } = some t →
      t.req.restarts ≤ max cache_param.max_restarts 1
      ∧ (1 ≤ cache_param.max_restarts → t.req.restarts ≤ cache_param.max_restarts))
    ∧ (∀ fuel nxt s', CNT_Request cache_param env fuel s = Res.ok (nxt, s') →
      s'.req.restarts ≤ max cache_param.max_restarts 1
      ∧ (1 ≤ cache_param.max_restarts → s'.req.restarts ≤ cache_param.max_restarts)) := by
  have h0 := restarts_inv_entry cache_param s hr
  refine ⟨fun n t hb => ?_, fun fuel nxt s' h => ?_⟩
  · have := restarts_inv_le cache_param t (CNT_boundary_restarts cache_param env n _ t h0 hb)
    exact ⟨this, fun hm => by rw [restart_cap_eq cache_param hm] at this; exact this⟩
  · obtain ⟨s1, hl, he, -⟩ := CNT_Request_eq_ok cache_param env fuel s nxt s' h
    have := CNT_loop_restarts cache_param env fuel _ h0 _ hl
    rw [he]
    exact ⟨this, fun hm => by rw [restart_cap_eq cache_param hm] at this; exact this⟩

/-- Witness of C13: with a budget of four, the request restarted by `hook.lookup`
stands at the third boundary with `restarts` within the budget. -/
theorem CNT_Request_restarts_boundary_witness :
    ∃ t, CNT_boundary sample_params
          (fun _ => sample_answers VCL_RET_HASH VCL_RET_RESTART sample_hit sample_alloc) 3
          { sample_state R_STP_RECV with
            req := { (sample_state R_STP_RECV).req with wrk := true } } = some t
      ∧ t.req.restarts ≤ sample_params.max_restarts :=
  have hb : (CNT_boundary sample_params
      (fun _ => sample_answers VCL_RET_HASH VCL_RET_RESTART sample_hit sample_alloc) 3
      { sample_state R_STP_RECV with
        req := { (sample_state R_STP_RECV).req with wrk := true } }).isSome = true := by
    decide
  ⟨Option.get _ hb, (Option.some_get hb).symm,
    ((CNT_Request_restarts_boundary sample_params
      (fun _ => sample_answers VCL_RET_HASH VCL_RET_RESTART sample_hit sample_alloc)
      (sample_state R_STP_RECV) rfl).1 3 _ (Option.some_get hb).symm).2 (by decide)⟩

/-- Counterexample to C14 as stated: with `max_restarts = 0`, a request that
starts in RECV with `restarts = 0`, hits the cache, is restarted by
`hook.lookup` and then finds no storage for the synthetic 503 response
returns DONE from `cnt_error` with `restarts = 1`, above `max_restarts`. -/
theorem CNT_Request_restarts_done_counterexample :
    (sample_state R_STP_RECV).req.restarts = 0
    ∧ ∃ s', CNT_Request sample_params_zero
          (fun _ => sample_answers VCL_RET_HASH VCL_RET_RESTART sample_hit sample_noalloc) 4
          (sample_state R_STP_RECV) = Res.ok (REQ_FSM_DONE, s')
        ∧ steps_of s'.trace = [R_STP_RECV, R_STP_LOOKUP, R_STP_RESTART, R_STP_ERROR]
        ∧ ¬ s'.req.restarts ≤ sample_params_zero.max_restarts := by
  have hb : (match CNT_Request sample_params_zero
      (fun _ => sample_answers VCL_RET_HASH VCL_RET_RESTART sample_hit sample_noalloc) 4
      (sample_state R_STP_RECV) with
      | Res.ok (n, s) => some (n, steps_of s.trace, s.req.restarts)
      | _ => none)
        = some (REQ_FSM_DONE, [R_STP_RECV, R_STP_LOOKUP, R_STP_RESTART, R_STP_ERROR], 1) := by
    decide
  cases hc : CNT_Request sample_params_zero
      (fun _ => sample_answers VCL_RET_HASH VCL_RET_RESTART sample_hit sample_noalloc) 4
      (sample_state R_STP_RECV) with
  | ok p =>
    obtain ⟨n, t⟩ := p
    rw [hc] at hb
    simp only [Option.some.injEq, Prod.mk.injEq] at hb
    obtain ⟨rfl, h1, h2⟩ := hb
    exact ⟨rfl, t, rfl, h1, by rw [h2]; decide⟩
  | abort => rw [hc] at hb; cases hb
  | hang => rw [hc] at hb; cases hb
  | nofuel => rw [hc] at hb; cases hb

/-- C14, amended: the restart bound during the run and at termination.  For every
configuration, sequence of answers and start state with `restarts = 0`:
`restarts <= max_restarts + 1` at every state boundary of the loop and when
`CNT_Request` returns (the counter changes only in `cnt_restart`, by one, and in
`cnt_deliver`, to 0, so it takes no other value in between); and when
`CNT_Request` returns DONE, `restarts <= max(max_restarts, 1)`, so
`restarts <= max_restarts` whenever `max_restarts >= 1`. -/
theorem CNT_Request_restarts_done (cache_param : params) (env : Nat → answers) (s : State)
    (hr : s.req.restarts = 0) :
    (∀ n t, CNT_boundary cache_param env n { s with req := { s.req with wrk := true } } = some t →
      t.req.restarts ≤ cache_param.max_restarts + 1)
    ∧ (∀ fuel nxt s', CNT_Request cache_param env fuel s = Res.ok (nxt, s') →
      s'.req.restarts ≤ cache_param.max_restarts + 1)
    ∧ (∀ fuel s', CNT_Request cache_param env fuel s = Res.ok (REQ_FSM_DONE, s') →
      s'.req.restarts ≤ max cache_param.max_restarts 1
      ∧ (1 ≤ cache_param.max_restarts → s'.req.restarts ≤ cache_param.max_restarts)) := by
  have h0 := restarts_inv_entry cache_param s hr
  have hcap := restart_cap_le cache_param
  refine ⟨fun n t hb => ?_, fun fuel nxt s' h => ?_, fun fuel s' h => ?_⟩
  · have := restarts_inv_le cache_param t (CNT_boundary_restarts cache_param env n _ t h0 hb)
    omega
  · obtain ⟨s1, hl, he, -⟩ := CNT_Request_eq_ok cache_param env fuel s nxt s' h
    have := CNT_loop_restarts cache_param env fuel _ h0 _ hl
    simp only at this
    omega
  · obtain ⟨s1, hl, he, -⟩ := CNT_Request_eq_ok cache_param env fuel s _ s' h
    have := CNT_loop_restarts cache_param env fuel _ h0 _ hl
    rw [he]
    exact ⟨this, fun hm => by rw [restart_cap_eq cache_param hm] at this; exact this⟩

set_option maxRecDepth 8192 in
/-- Witness of C14: with a budget of four, a warm hit that `hook.deliver` wants
restarted every time goes four times through RECV, LOOKUP, PREPRESP, RESTART.
The fourth RESTART brings `restarts` to 4, the budget, and sends the request
to ERROR with 503; there the storage has no room for the synthetic object and
`cnt_error` returns DONE, an exit that does not reset the counter.  The call
returns DONE with `restarts = 4`, within the budget, after standing at the
boundary before ERROR with `restarts = 4`, within `max_restarts + 1`. -/
theorem CNT_Request_restarts_done_witness :
    (∃ t, CNT_boundary sample_params (fun _ => sample_restart_noalloc) 16
          { sample_state R_STP_RECV with
            req := { (sample_state R_STP_RECV).req with wrk := true } } = some t
      ∧ t.req.req_step = R_STP_ERROR ∧ t.req.restarts = 4
      ∧ t.req.restarts ≤ sample_params.max_restarts + 1)
    ∧ ∃ s', CNT_Request sample_params (fun _ => sample_restart_noalloc) 44
          (sample_state R_STP_RECV) = Res.ok (REQ_FSM_DONE, s')
      ∧ steps_of s'.trace =
          [R_STP_RECV, R_STP_LOOKUP, R_STP_PREPRESP, R_STP_RESTART,
           R_STP_RECV, R_STP_LOOKUP, R_STP_PREPRESP, R_STP_RESTART,
           R_STP_RECV, R_STP_LOOKUP, R_STP_PREPRESP, R_STP_RESTART,
           R_STP_RECV, R_STP_LOOKUP, R_STP_PREPRESP, R_STP_RESTART, R_STP_ERROR]
      ∧ s'.req.restarts = 4
      ∧ s'.req.restarts ≤ sample_params.max_restarts := by
  have hb : (CNT_boundary sample_params (fun _ => sample_restart_noalloc) 16
      { sample_state R_STP_RECV with
        req := { (sample_state R_STP_RECV).req with wrk := true } }).map
          (fun t => (t.req.req_step, t.req.restarts)) = some (R_STP_ERROR, 4) := by decide
  have hrun : (match CNT_Request sample_params (fun _ => sample_restart_noalloc) 44
      (sample_state R_STP_RECV) with
      | Res.ok (n, t) => some (n, steps_of t.trace, t.req.restarts)
      | _ => none)
        = some (REQ_FSM_DONE,
          [R_STP_RECV, R_STP_LOOKUP, R_STP_PREPRESP, R_STP_RESTART,
           R_STP_RECV, R_STP_LOOKUP, R_STP_PREPRESP, R_STP_RESTART,
           R_STP_RECV, R_STP_LOOKUP, R_STP_PREPRESP, R_STP_RESTART,
           R_STP_RECV, R_STP_LOOKUP, R_STP_PREPRESP, R_STP_RESTART, R_STP_ERROR], 4) := by
    decide
  constructor
  · cases hc : CNT_boundary sample_params (fun _ => sample_restart_noalloc) 16
        { sample_state R_STP_RECV with
          req := { (sample_state R_STP_RECV).req with wrk := true } } with
    | none => rw [hc] at hb; cases hb
    | some t =>
      rw [hc] at hb
      simp only [Option.map_some', Option.some.injEq, Prod.mk.injEq] at hb
      exact ⟨t, rfl, hb.1, hb.2,
        (CNT_Request_restarts_done sample_params (fun _ => sample_restart_noalloc)
          (sample_state R_STP_RECV) rfl).1 16 t hc⟩
  · cases hc : CNT_Request sample_params (fun _ => sample_restart_noalloc) 44
        (sample_state R_STP_RECV) with
    | ok p =>
      obtain ⟨n, t⟩ := p
      rw [hc] at hrun
      simp only [Option.some.injEq, Prod.mk.injEq] at hrun
      obtain ⟨rfl, h1, h2⟩ := hrun
      exact ⟨t, rfl, h1, h2,
        ((CNT_Request_restarts_done sample_params (fun _ => sample_restart_noalloc)
          (sample_state R_STP_RECV) rfl).2.2 44 t hc).2 (by decide)⟩
    | abort => rw [hc] at hrun; cases hrun
    | hang => rw [hc] at hrun; cases hrun
    | nofuel => rw [hc] at hrun; cases hrun

/-! ## The handles at the state boundaries -/

/-- C15: no handle is held at DONE.  For a call of `CNT_Request` on a request
holding no handle (the step must be RECV or LOOKUP for the call to return),
whatever the answers of the hooks and collaborators: if the call returns DONE
then `obj`, `objcore` and `busyobj` are null.  DONE comes from the handlers
`cnt_deliver`, `cnt_error` and `cnt_pipe` only. -/
theorem CNT_Request_done_handles (cache_param : params) (env : Nat → answers) (s : State)
    (hobj : s.req.obj = none) (hoc : s.req.objcore = none) (hbo : s.req.busyobj = none) :
    (∀ fuel s', CNT_Request cache_param env fuel s = Res.ok (REQ_FSM_DONE, s') →
      (s.req.req_step = R_STP_RECV ∨ s.req.req_step = R_STP_LOOKUP)
      ∧ s'.req.obj = none ∧ s'.req.objcore = none ∧ s'.req.busyobj = none)
    ∧ (∀ a t t', CNT_step cache_param a t = Res.ok (REQ_FSM_DONE, t') →
      t.req.req_step = R_STP_DELIVER ∨ t.req.req_step = R_STP_ERROR
      ∨ t.req.req_step = R_STP_PIPE) := by
  refine ⟨fun fuel s' h => ?_, fun a t t' h => CNT_step_done cache_param a t _ h rfl⟩
  obtain ⟨s1, hl, -, h1, h2, h3, -⟩ := CNT_Request_eq_ok cache_param env fuel s _ s' h
  have hn := CNT_loop_handles cache_param env fuel _ (handles_inv_entry s hobj hoc hbo) _ hl
  refine ⟨?_, by rw [h1]; exact hn.1, by rw [h2]; exact hn.2.1, by rw [h3]; exact hn.2.2⟩
  simp only [CNT_Request, Res.bind_eq_ok, assert_eq_ok, exists_const] at h
  have := h.1
  simp only [Bool.or_eq_true, beq_iff_eq] at this
  exact this.symm

/-- Witness of C15: a warm hit that is delivered returns DONE holding nothing. -/
theorem CNT_Request_done_handles_witness :
    ∃ s', CNT_Request sample_params
          (fun _ => sample_answers VCL_RET_HASH VCL_RET_DELIVER sample_hit sample_alloc) 4
          (sample_state R_STP_RECV) = Res.ok (REQ_FSM_DONE, s')
      ∧ s'.req.obj = none ∧ s'.req.objcore = none ∧ s'.req.busyobj = none := by
  cases hc : CNT_Request sample_params
      (fun _ => sample_answers VCL_RET_HASH VCL_RET_DELIVER sample_hit sample_alloc) 4
      (sample_state R_STP_RECV) with
  | ok p =>
    obtain ⟨n, t⟩ := p
    have hn : n = REQ_FSM_DONE := by
      have : (match CNT_Request sample_params
          (fun _ => sample_answers VCL_RET_HASH VCL_RET_DELIVER sample_hit sample_alloc) 4
          (sample_state R_STP_RECV) with
          | Res.ok (n, _) => some n
          | _ => none) = some REQ_FSM_DONE := by decide
      rw [hc] at this
      exact Option.some.inj this
    subst hn
    exact ⟨t, rfl, ((CNT_Request_done_handles sample_params _ (sample_state R_STP_RECV)
      rfl rfl rfl).1 4 t hc).2⟩
  | abort => exact absurd hc (by decide)
  | hang => exact absurd hc (by decide)
  | nofuel => exact absurd hc (by decide)

/-- C20: the null-handle entry invariant.  For a run of the loop of `CNT_Request`
that starts on a request holding no handle, whatever the answers of the hooks
and collaborators: at every state boundary where the step about to run is RECV,
LOOKUP, PURGE, ERROR or PASS, `obj`, `objcore` and `busyobj` are null, so each
of the entry assertions `AZ(req->objcore)`, `AZ(req->obj)`, `AZ(req->busyobj)`
of these handlers passes. -/
theorem CNT_Request_entry_handles (cache_param : params) (env : Nat → answers) (s : State)
    (hobj : s.req.obj = none) (hoc : s.req.objcore = none) (hbo : s.req.busyobj = none) :
    ∀ n t, CNT_boundary cache_param env n { s with req := { s.req with wrk := true } } = some t →
      (t.req.req_step = R_STP_RECV ∨ t.req.req_step = R_STP_LOOKUP
        ∨ t.req.req_step = R_STP_PURGE ∨ t.req.req_step = R_STP_ERROR
        ∨ t.req.req_step = R_STP_PASS) →
      (t.req.obj = none ∧ t.req.objcore = none ∧ t.req.busyobj = none)
      ∧ AZ t.req.objcore.isSome = Res.ok () ∧ AZ t.req.obj.isSome = Res.ok ()
      ∧ AZ t.req.busyobj.isSome = Res.ok () := by
  intro n t hb hstep
  have hi := CNT_boundary_handles cache_param env n _ t (handles_inv_entry s hobj hoc hbo) hb
  have hn : handles_null t := by
    unfold handles_inv at hi
    rcases hstep with h | h | h | h | h <;> simpa [h] using hi
  obtain ⟨h1, h2, h3⟩ := hn
  exact ⟨⟨h1, h2, h3⟩, by simp [h2], by simp [h1], by simp [h3]⟩

/-- Witness of C20: after a miss that `hook.miss` turns into an error, the request
enters ERROR at the third boundary holding nothing. -/
theorem CNT_Request_entry_handles_witness :
    ∃ t, CNT_boundary sample_params
          (fun _ => sample_answers VCL_RET_HASH VCL_RET_ERROR sample_miss sample_alloc) 3
          { sample_state R_STP_RECV with
            req := { (sample_state R_STP_RECV).req with wrk := true } } = some t
      ∧ t.req.req_step = R_STP_ERROR
      ∧ t.req.obj = none ∧ t.req.objcore = none ∧ t.req.busyobj = none := by
  have hb : (CNT_boundary sample_params
      (fun _ => sample_answers VCL_RET_HASH VCL_RET_ERROR sample_miss sample_alloc) 3
      { sample_state R_STP_RECV with
        req := { (sample_state R_STP_RECV).req with wrk := true } }).map
          (fun t => t.req.req_step) = some R_STP_ERROR := by decide
  cases hc : CNT_boundary sample_params
      (fun _ => sample_answers VCL_RET_HASH VCL_RET_ERROR sample_miss sample_alloc) 3
      { sample_state R_STP_RECV with
        req := { (sample_state R_STP_RECV).req with wrk := true } } with
  | none => rw [hc] at hb; cases hb
  | some t =>
    rw [hc] at hb
    have hs : t.req.req_step = R_STP_ERROR := by simpa using hb
    exact ⟨t, rfl, hs, (CNT_Request_entry_handles sample_params _ (sample_state R_STP_RECV)
      rfl rfl rfl 3 t hc (Or.inr (Or.inr (Or.inr (Or.inl hs))))).1⟩

/-! ## Restart verdicts -/

theorem CNT_boundary_add (k : params) : ∀ (n : Nat) (env : Nat → answers) (s t : State),
    CNT_boundary k env n s = some t →
    ∀ m, CNT_boundary k env (n + m) s = CNT_boundary k (fun i => env (i + n)) m t := by
  intro n
  induction n with
  | zero => intro env s t h m; simp [CNT_boundary] at h; subst h; simp
  | succ n ih =>
    intro env s t h m
    simp only [CNT_boundary] at h
    have e : n + 1 + m = (n + m) + 1 := by omega
    rw [e]
    simp only [CNT_boundary]
    cases hc : CNT_step k (env 0) s with
    | ok p =>
      obtain ⟨nxt, s1⟩ := p
      cases nxt with
      | REQ_FSM_MORE =>
        simp only [hc] at h
        simp only []
        rw [ih _ s1 t h m]
        rfl
      | REQ_FSM_DONE => simp [hc] at h
      | REQ_FSM_DISEMBARK => simp [hc] at h
    | abort => simp [hc] at h
    | hang => simp [hc] at h
    | nofuel => simp [hc] at h

theorem CNT_step_restart_recv (k : params) (a : answers) (s : State)
    (hs : s.req.req_step = R_STP_RESTART) (hr : s.req.restarts + 1 < k.max_restarts)
    (hw : ws_clear s.wrk.aws) (ha : a.aws.sane = true) :
    ∃ s', CNT_step k a s = Res.ok (REQ_FSM_MORE, s')
      ∧ s'.req.req_step = R_STP_RECV ∧ s'.req.director = none ∧ s'.req.err_code = 0
      ∧ s'.req.restarts = s.req.restarts + 1
      ∧ s'.wrk.aws = a.aws ∧ s'.wrk.wrw = s.wrk.wrw := by
  have hr' : ¬ k.max_restarts ≤ s.req.restarts + 1 := by omega
  simp [CNT_step, CNT_dispatch, WS_Assert, WRW_IsReleased, hw.1, hw.2, ha, cnt_restart, emit, hs, hr']

theorem restart_window (k : params) (env : Nat → answers) (t t1 : State)
    (h1 : CNT_step k (env 0) t = Res.ok (REQ_FSM_MORE, t1))
    (hs : t1.req.req_step = R_STP_RESTART) (hr : t1.req.restarts + 1 < k.max_restarts)
    (hw : ws_clear t1.wrk.aws) (ha : (env 1).aws.sane = true) :
    CNT_boundary k env 1 t = some t1
    ∧ ∃ t2, CNT_boundary k env 2 t = some t2
      ∧ t2.req.req_step = R_STP_RECV ∧ t2.req.director = none ∧ t2.req.err_code = 0
      ∧ t2.req.restarts = t1.req.restarts + 1 := by
  obtain ⟨t2, h2, e1, e2, e3, e4, -, -⟩ := CNT_step_restart_recv k (env 1) t1 hs hr hw ha
  refine ⟨by simp [CNT_boundary, h1], t2, ?_, e1, e2, e3, e4⟩
  simp [CNT_boundary, h1, h2]

theorem CNT_step_prepresp_restart (k : params) (a : answers) (s : State) (o : object)
    (hs : s.req.req_step = R_STP_PREPRESP) (hobj : s.req.obj = some o)
    (hbo : s.req.busyobj = none)
    (hv : (a.vcl .deliver).handling = VCL_RET_RESTART)
    (hr : s.req.restarts < k.max_restarts)
    (hw : ws_clear s.wrk.aws) (ha : a.aws.sane = true) :
    ∃ s', CNT_step k a s = Res.ok (REQ_FSM_MORE, s')
      ∧ s'.req.req_step = R_STP_RESTART ∧ s'.req.restarts = s.req.restarts
      ∧ s'.wrk.aws = a.aws ∧ s'.wrk.wrw = s.wrk.wrw := by
  have hr' : ¬ k.max_restarts ≤ s.req.restarts := by omega
  have hbo' : ∀ b, (emit (Event.step R_STP_PREPRESP) s).req.busyobj = some b →
      b.do_esi = false := by
    intro b hb
    rw [emit_req, hbo] at hb
    cases hb
  simp [CNT_step, CNT_dispatch, WS_Assert, WRW_IsReleased, hw.1, hw.2, ha, hs, cnt_prepresp, hobj,
    cnt_prepresp_res_mode_eq k a o (emit (Event.step R_STP_PREPRESP) s) hbo', VCL_method, hv,
    hr', hbo, HSH_Deref_obj]

theorem CNT_step_error_restart (k : params) (a : answers) (s : State) (o : object)
    (hs : s.req.req_step = R_STP_ERROR)
    (hoc : s.req.objcore = none) (hobj : s.req.obj = none) (hbo : s.req.busyobj = none)
    (hstats : a.VBO_GetBusyObj.stats = false)
    (halloc : a.STV_NewObject.obj = some o) (hfoc : a.STV_NewObject.fetch_objcore = none)
    (hv : (a.vcl .error).handling = VCL_RET_RESTART)
    (hr : s.req.restarts < k.max_restarts)
    (hw : ws_clear s.wrk.aws) (ha : a.aws.sane = true) :
    ∃ s', CNT_step k a s = Res.ok (REQ_FSM_MORE, s')
      ∧ s'.req.req_step = R_STP_RESTART ∧ s'.req.restarts = s.req.restarts
      ∧ s'.wrk.aws = a.aws ∧ s'.wrk.wrw = s.wrk.wrw := by
  simp only [CNT_step, CNT_dispatch, WS_Assert, hw.1, hw.2, ha, assert_true, beq_self_eq_true,
    Res.ok_bind, emit_req, hs]
  rw [cnt_error_alloc k a (emit (Event.step R_STP_ERROR) s) o hoc hobj hbo hstats halloc hfoc]
  simp [cnt_error_dispatch, VCL_method, hv, hr, HSH_Drop, VBO_DerefBusyObj]

theorem CNT_step_lookup_restart (k : params) (a : answers) (s : State)
    (c : objcore) (oh : Nat) (o : object)
    (hs : s.req.req_step = R_STP_LOOKUP)
    (hoc : s.req.objcore = none) (hbo : s.req.busyobj = none)
    (hlr : a.HSH_Lookup.lr = HSH_HIT) (hc : a.HSH_Lookup.oc = some c)
    (hbusy : test_bits c.flags OC_F_BUSY = false)
    (hpass : test_bits c.flags OC_F_PASS = false)
    (hoh : c.objhead = some oh) (ho : a.oc_getobj = some o)
    (hboc : ∀ b, a.HSH_Lookup.boc = some b → test_bits b.flags OC_F_BUSY = true)
    (hv : (a.vcl .lookup).handling = VCL_RET_RESTART)
    (hw : ws_clear s.wrk.aws) (ha : a.aws.sane = true) :
    ∃ s', CNT_step k a s = Res.ok (REQ_FSM_MORE, s')
      ∧ s'.req.req_step = R_STP_RESTART ∧ s'.req.restarts = s.req.restarts
      ∧ s'.wrk.aws = a.aws ∧ s'.wrk.wrw = s.wrk.wrw := by
  cases hb : a.HSH_Lookup.boc with
  | none =>
    simp [CNT_step, CNT_dispatch, WS_Assert, WRW_IsReleased, hw.1, hw.2, ha, hs, cnt_lookup, cnt_lookup_hit, cnt_lookup_drop, emit, VCL_method,
      HSH_Deref_obj, hoc, hbo, hlr, hc, hbusy, hpass, hoh, ho, hb, hv]
  | some b =>
    have hbb := hboc b hb
    simp [CNT_step, CNT_dispatch, WS_Assert, WRW_IsReleased, hw.1, hw.2, ha, hs, cnt_lookup, cnt_lookup_hit, cnt_lookup_drop, emit, VCL_method,
      HSH_Deref_obj, hoc, hbo, hlr, hc, hbusy, hpass, hoh, ho, hb, hbb, hv]

theorem CNT_step_miss_restart (k : params) (a : answers) (s : State) (oc : objcore)
    (hs : s.req.req_step = R_STP_MISS)
    (hoc : s.req.objcore = some oc) (hobj : s.req.obj = none) (hbo : s.req.busyobj = none)
    (hderef : a.HSH_Deref = 0)
    (hv : (a.vcl .miss).handling = VCL_RET_RESTART)
    (hw : ws_clear s.wrk.aws) (ha : a.aws.sane = true) :
    ∃ s', CNT_step k a s = Res.ok (REQ_FSM_MORE, s')
      ∧ s'.req.req_step = R_STP_RESTART ∧ s'.req.restarts = s.req.restarts
      ∧ s'.wrk.aws = a.aws ∧ s'.wrk.wrw = s.wrk.wrw := by
  simp [CNT_step, CNT_dispatch, WS_Assert, WRW_IsReleased, hw.1, hw.2, ha, hs, cnt_miss, cnt_miss_release, emit, VCL_method, hoc, hobj, hbo, hderef, hv]


set_option maxRecDepth 8192 in
/-- Counterexample to C12 as stated: with `max_restarts = 1`, a warm hit reaches
PREPRESP with `restarts = 0`, below `max_restarts`, and `hook.deliver` answers
RESTART.  The request passes through RESTART, where `restarts` becomes 1 and
reaches `max_restarts`: the next step is ERROR with `err_code = 503`, not RECV,
and the whole call enters RECV only once.  With budget to spare
(`max_restarts = 4`, `restarts = 0`) an assertion can still stop the run after
the verdict.  After a RESTART from `hook.miss`, `AZ(HSH_Deref(...))` of line 568
aborts when the deref reports a reference left: there is no next boundary.
After a RESTART from `hook.deliver` in a turn that leaves bytes reserved in the
thread workspace, the next boundary is in RESTART, where the dispatcher aborts
at line 919: `cnt_restart` does not run and RECV is not entered again. -/
theorem CNT_Request_restart_fairness_counterexample :
    (∃ t t1 t2,
      CNT_boundary sample_params_one (fun _ => sample_restart_at_deliver) 2 sample_entry = some t
      ∧ t.req.req_step = R_STP_PREPRESP ∧ t.req.restarts < sample_params_one.max_restarts
      ∧ (sample_restart_at_deliver.vcl vcl_method.deliver).handling = VCL_RET_RESTART
      ∧ CNT_boundary sample_params_one (fun _ => sample_restart_at_deliver) 3 sample_entry
          = some t1
      ∧ t1.req.req_step = R_STP_RESTART
      ∧ CNT_boundary sample_params_one (fun _ => sample_restart_at_deliver) 4 sample_entry
          = some t2
      ∧ t2.req.req_step = R_STP_ERROR ∧ t2.req.err_code = 503)
    ∧ (∃ s', CNT_Request sample_params_one (fun _ => sample_restart_at_deliver) 7
          (sample_state R_STP_RECV) = Res.ok (REQ_FSM_DONE, s')
        ∧ steps_of s'.trace = [R_STP_RECV, R_STP_LOOKUP, R_STP_PREPRESP, R_STP_RESTART,
            R_STP_ERROR, R_STP_PREPRESP, R_STP_DELIVER])
    ∧ (∃ t, CNT_boundary sample_params (fun _ => sample_miss_restart_held) 2 sample_entry
          = some t
        ∧ t.req.req_step = R_STP_MISS ∧ t.req.restarts + 1 < sample_params.max_restarts
        ∧ (sample_miss_restart_held.vcl vcl_method.miss).handling = VCL_RET_RESTART
        ∧ CNT_boundary sample_params (fun _ => sample_miss_restart_held) 3 sample_entry = none
        ∧ CNT_Request sample_params (fun _ => sample_miss_restart_held) 44
            (sample_state R_STP_RECV) = Res.abort)
    ∧ ∃ t t1, CNT_boundary sample_params sample_restart_ws_held 2 sample_entry = some t
        ∧ t.req.req_step = R_STP_PREPRESP ∧ t.req.restarts + 1 < sample_params.max_restarts
        ∧ ((sample_restart_ws_held 2).vcl vcl_method.deliver).handling = VCL_RET_RESTART
        ∧ CNT_boundary sample_params sample_restart_ws_held 3 sample_entry = some t1
        ∧ t1.req.req_step = R_STP_RESTART
        ∧ CNT_boundary sample_params sample_restart_ws_held 4 sample_entry = none
        ∧ CNT_Request sample_params sample_restart_ws_held 44
            (sample_state R_STP_RECV) = Res.abort := by
  have m2 : (CNT_boundary sample_params (fun _ => sample_miss_restart_held) 2
      sample_entry).map (fun t => (t.req.req_step, t.req.restarts))
        = some (R_STP_MISS, 0) := by decide
  have w2 : (CNT_boundary sample_params sample_restart_ws_held 2
      sample_entry).map (fun t => (t.req.req_step, t.req.restarts))
        = some (R_STP_PREPRESP, 0) := by decide
  have w3 : (CNT_boundary sample_params sample_restart_ws_held 3
      sample_entry).map (fun t => t.req.req_step) = some R_STP_RESTART := by decide
  have h2 : (CNT_boundary sample_params_one (fun _ => sample_restart_at_deliver) 2
      sample_entry).map (fun t => (t.req.req_step, t.req.restarts))
        = some (R_STP_PREPRESP, 0) := by decide
  have h3 : (CNT_boundary sample_params_one (fun _ => sample_restart_at_deliver) 3
      sample_entry).map (fun t => t.req.req_step) = some R_STP_RESTART := by decide
  have h4 : (CNT_boundary sample_params_one (fun _ => sample_restart_at_deliver) 4
      sample_entry).map (fun t => (t.req.req_step, t.req.err_code))
        = some (R_STP_ERROR, 503) := by decide
  have h7 : (match CNT_Request sample_params_one (fun _ => sample_restart_at_deliver) 7
      (sample_state R_STP_RECV) with
      | Res.ok (n, s) => some (n, steps_of s.trace)
      | _ => none)
        = some (REQ_FSM_DONE, [R_STP_RECV, R_STP_LOOKUP, R_STP_PREPRESP, R_STP_RESTART,
            R_STP_ERROR, R_STP_PREPRESP, R_STP_DELIVER]) := by decide
  refine ⟨?_, ?_, ?_, ?_⟩
  · cases hc2 : CNT_boundary sample_params_one (fun _ => sample_restart_at_deliver) 2
        sample_entry with
    | none => rw [hc2] at h2; cases h2
    | some t =>
    cases hc3 : CNT_boundary sample_params_one (fun _ => sample_restart_at_deliver) 3
        sample_entry with
    | none => rw [hc3] at h3; cases h3
    | some t1 =>
    cases hc4 : CNT_boundary sample_params_one (fun _ => sample_restart_at_deliver) 4
        sample_entry with
    | none => rw [hc4] at h4; cases h4
    | some t2 =>
      rw [hc2] at h2; rw [hc3] at h3; rw [hc4] at h4
      simp only [Option.map_some', Option.some.injEq, Prod.mk.injEq] at h2 h3 h4
      exact ⟨t, t1, t2, rfl, h2.1, by rw [h2.2]; decide, rfl, rfl, h3, rfl, h4.1, h4.2⟩
  · cases hc : CNT_Request sample_params_one (fun _ => sample_restart_at_deliver) 7
        (sample_state R_STP_RECV) with
    | ok p =>
      obtain ⟨n, t⟩ := p
      rw [hc] at h7
      simp only [Option.some.injEq, Prod.mk.injEq] at h7
      obtain ⟨rfl, h1⟩ := h7
      exact ⟨t, rfl, h1⟩
    | abort => rw [hc] at h7; cases h7
    | hang => rw [hc] at h7; cases h7
    | nofuel => rw [hc] at h7; cases h7
  · cases hc : CNT_boundary sample_params (fun _ => sample_miss_restart_held) 2
        sample_entry with
    | none => rw [hc] at m2; cases m2
    | some t =>
      rw [hc] at m2
      simp only [Option.map_some', Option.some.injEq, Prod.mk.injEq] at m2
      exact ⟨t, rfl, m2.1, by rw [m2.2]; decide, rfl, by decide, by decide⟩
  · cases hc2 : CNT_boundary sample_params sample_restart_ws_held 2 sample_entry with
    | none => rw [hc2] at w2; cases w2
    | some t =>
    cases hc3 : CNT_boundary sample_params sample_restart_ws_held 3 sample_entry with
    | none => rw [hc3] at w3; cases w3
    | some t1 =>
      rw [hc2] at w2; rw [hc3] at w3
      simp only [Option.map_some', Option.some.injEq, Prod.mk.injEq] at w2 w3
      exact ⟨t, t1, rfl, w2.1, by rw [w2.2]; decide, rfl, rfl, w3, by decide, by decide⟩

/-- C12, amended: restart fairness.  Take a run of the loop of `CNT_Request` on a
request that holds no handle on entry, and a state boundary `n` of that run
where `restarts + 1 < max_restarts`.  If the handler that runs there reaches its
hook and the hook answers RESTART (`hook.deliver` in PREPRESP holding an
object; `hook.error` in ERROR, the synthetic object allocated; `hook.lookup` in
LOOKUP on an ordinary hit; `hook.miss` in MISS holding its objcore), and no
assertion stops the run in between, then the next boundary is in step RESTART
and the one after is in step RECV, with `director` null, `err_code` 0 and
`restarts` one larger than at boundary `n`.  The assertions in between are
those of the dispatcher on the thread workspace, which must be well formed and
empty before the turn of the verdict and before the RESTART turn (lines
918-919) and well formed after each of the two (line 933), and, after
`hook.miss`, `AZ(HSH_Deref(...))` of line 568. -/
theorem CNT_Request_restart_fairness (cache_param : params) (env : Nat → answers) (s : State)
    (hobj : s.req.obj = none) (hoc : s.req.objcore = none) (hbo : s.req.busyobj = none)
    (n : Nat) (t : State)
    (hb : CNT_boundary cache_param env n { s with req := { s.req with wrk := true } } = some t)
    (hbudget : t.req.restarts + 1 < cache_param.max_restarts)
    (hws : ws_clear t.wrk.aws) (hws1 : ws_clear (env n).aws)
    (hws2 : (env (n + 1)).aws.sane = true)
    (hverdict :
      (t.req.req_step = R_STP_PREPRESP ∧ t.req.obj ≠ none
        ∧ ((env n).vcl .deliver).handling = VCL_RET_RESTART)
      ∨ (t.req.req_step = R_STP_ERROR
        ∧ (env n).VBO_GetBusyObj.stats = false ∧ (env n).STV_NewObject.obj ≠ none
        ∧ (env n).STV_NewObject.fetch_objcore = none
        ∧ ((env n).vcl .error).handling = VCL_RET_RESTART)
      ∨ (t.req.req_step = R_STP_LOOKUP
        ∧ (env n).HSH_Lookup.lr = HSH_HIT
        ∧ (∃ c, (env n).HSH_Lookup.oc = some c ∧ test_bits c.flags OC_F_BUSY = false
            ∧ test_bits c.flags OC_F_PASS = false ∧ c.objhead ≠ none)
        ∧ (env n).oc_getobj ≠ none
        ∧ (∀ b, (env n).HSH_Lookup.boc = some b → test_bits b.flags OC_F_BUSY = true)
        ∧ ((env n).vcl .lookup).handling = VCL_RET_RESTART)
      ∨ (t.req.req_step = R_STP_MISS ∧ t.req.objcore ≠ none ∧ (env n).HSH_Deref = 0
        ∧ ((env n).vcl .miss).handling = VCL_RET_RESTART)) :
    ∃ t1 t2,
      CNT_boundary cache_param env (n + 1) { s with req := { s.req with wrk := true } } = some t1
      ∧ t1.req.req_step = R_STP_RESTART
      ∧ CNT_boundary cache_param env (n + 2) { s with req := { s.req with wrk := true } }
          = some t2
      ∧ t2.req.req_step = R_STP_RECV ∧ t2.req.director = none ∧ t2.req.err_code = 0
      ∧ t2.req.restarts = t.req.restarts + 1 := by
  have hi := CNT_boundary_handles cache_param env n _ t (handles_inv_entry s hobj hoc hbo) hb
  have hlt : t.req.restarts < cache_param.max_restarts := by omega
  have hstep : ∃ t1, CNT_step cache_param (env n) t = Res.ok (REQ_FSM_MORE, t1)
      ∧ t1.req.req_step = R_STP_RESTART ∧ t1.req.restarts = t.req.restarts
      ∧ t1.wrk.aws = (env n).aws ∧ t1.wrk.wrw = t.wrk.wrw := by
    unfold handles_inv at hi
    rcases hverdict with ⟨hs, ho, hv⟩ | ⟨hs, h1, h2, h3, hv⟩ | ⟨hs, h1, ⟨c, h2, h3, h4, h5⟩, h6, h7, hv⟩
      | ⟨hs, h1, h2, hv⟩
    · simp only [hs] at hi
      obtain ⟨o, ho⟩ := Option.ne_none_iff_exists'.mp ho
      exact CNT_step_prepresp_restart cache_param (env n) t o hs ho hi.2 hv hlt hws hws1.1
    · simp only [hs, handles_null] at hi
      obtain ⟨o, ho⟩ := Option.ne_none_iff_exists'.mp h2
      exact CNT_step_error_restart cache_param (env n) t o hs hi.2.1 hi.1 hi.2.2 h1 ho h3 hv hlt
        hws hws1.1
    · simp only [hs, handles_null] at hi
      obtain ⟨oh, hoh⟩ := Option.ne_none_iff_exists'.mp h5
      obtain ⟨o, ho⟩ := Option.ne_none_iff_exists'.mp h6
      exact CNT_step_lookup_restart cache_param (env n) t c oh o hs hi.2.1 hi.2.2 h1 h2 h3 h4
        hoh ho h7 hv hws hws1.1
    · simp only [hs] at hi
      obtain ⟨oc, hoc'⟩ := Option.ne_none_iff_exists'.mp h1
      exact CNT_step_miss_restart cache_param (env n) t oc hs hoc' hi.1 hi.2 h2 hv hws hws1.1
  obtain ⟨t1, h1, hs1, hr1, hwa1, -⟩ := hstep
  have hw := restart_window cache_param (fun i => env (i + n)) t t1
    (by simpa using h1) hs1 (by omega) (by rw [hwa1]; exact hws1)
    (by simpa [Nat.add_comm] using hws2)
  obtain ⟨hw1, t2, hw2, e1, e2, e3, e4⟩ := hw
  refine ⟨t1, t2, ?_, hs1, ?_, e1, e2, e3, by omega⟩
  · rw [CNT_boundary_add cache_param n env _ t hb 1]; exact hw1
  · rw [CNT_boundary_add cache_param n env _ t hb 2]; exact hw2

/-- Witness of C12: with a budget of four, the warm hit that `hook.deliver` wants
restarted is back in RECV two boundaries later, with `restarts = 1`. -/
theorem CNT_Request_restart_fairness_witness :
    ∃ t1 t2,
      CNT_boundary sample_params (fun _ => sample_restart_at_deliver) (2 + 1)
        { sample_state R_STP_RECV with
          req := { (sample_state R_STP_RECV).req with wrk := true } } = some t1
      ∧ t1.req.req_step = R_STP_RESTART
      ∧ CNT_boundary sample_params (fun _ => sample_restart_at_deliver) (2 + 2)
        { sample_state R_STP_RECV with
          req := { (sample_state R_STP_RECV).req with wrk := true } } = some t2
      ∧ t2.req.req_step = R_STP_RECV ∧ t2.req.director = none ∧ t2.req.err_code = 0
      ∧ t2.req.restarts = 0 + 1 := by
  have h2 : (CNT_boundary sample_params (fun _ => sample_restart_at_deliver) 2
      { sample_state R_STP_RECV with
        req := { (sample_state R_STP_RECV).req with wrk := true } }).map
          (fun t => (t.req.req_step, t.req.restarts, t.req.obj.isSome,
            decide (ws_clear t.wrk.aws)))
        = some (R_STP_PREPRESP, 0, true, true) := by decide
  cases hc : CNT_boundary sample_params (fun _ => sample_restart_at_deliver) 2
      { sample_state R_STP_RECV with
        req := { (sample_state R_STP_RECV).req with wrk := true } } with
  | none => rw [hc] at h2; cases h2
  | some t =>
    rw [hc] at h2
    simp only [Option.map_some', Option.some.injEq, Prod.mk.injEq] at h2
    obtain ⟨hs, hr, ho, hws⟩ := h2
    have hws' : ws_clear t.wrk.aws := of_decide_eq_true hws
    have ho' : t.req.obj ≠ none := by
      intro h
      rw [h] at ho
      cases ho
    have := CNT_Request_restart_fairness sample_params (fun _ => sample_restart_at_deliver)
      (sample_state R_STP_RECV) rfl rfl rfl 2 t hc (by rw [hr]; decide)
      hws' (by decide) rfl (Or.inl ⟨hs, ho', rfl⟩)
    rw [hr] at this
    exact this

/-! ## RECV: fatal or MORE -/

theorem cnt_recv_run (k : params) (a : answers) (s : State) (d : Nat)
    (hoc : s.req.objcore = none) (hobj : s.req.obj = none) (hbo : s.req.busyobj = none)
    (he : s.req.err_code = 0) (hd : s.req.director = none)
    (hh : s.req.vcl.director.head? = some d)
    (hv : (a.vcl .hash).handling = VCL_RET_LOOKUP) :
    (((a.vcl .recv).handling = VCL_RET_PURGE ∨ (a.vcl .recv).handling = VCL_RET_HASH
        ∨ (a.vcl .recv).handling = VCL_RET_PASS ∨ (a.vcl .recv).handling = VCL_RET_ERROR
        ∨ ((a.vcl .recv).handling = VCL_RET_PIPE ∧ s.req.esi_level = 0)) →
      ∃ s', cnt_recv k a s = Res.ok (REQ_FSM_MORE, s')
        ∧ (s'.req.req_step = R_STP_PIPE → s.req.esi_level = 0))
    ∧ (¬ ((a.vcl .recv).handling = VCL_RET_PURGE ∨ (a.vcl .recv).handling = VCL_RET_HASH
        ∨ (a.vcl .recv).handling = VCL_RET_PASS ∨ (a.vcl .recv).handling = VCL_RET_ERROR
        ∨ ((a.vcl .recv).handling = VCL_RET_PIPE ∧ s.req.esi_level = 0)) →
      cnt_recv k a s = Res.abort) := by
  constructor
  · rintro (hr | hr | hr | hr | ⟨hr, hl⟩)
    · simp [cnt_recv, hoc, hobj, hbo, he, hd, hh, VCL_method, hv, hr]
    · simp [cnt_recv, hoc, hobj, hbo, he, hd, hh, VCL_method, hv, hr]
    · simp [cnt_recv, hoc, hobj, hbo, he, hd, hh, VCL_method, hv, hr]
    · simp [cnt_recv, hoc, hobj, hbo, he, hd, hh, VCL_method, hv, hr]
    · simp [cnt_recv, hoc, hobj, hbo, he, hd, hh, VCL_method, hv, hr, hl]
  · intro hn
    cases hr : (a.vcl .recv).handling <;>
      simp [hr] at hn <;>
      simp [cnt_recv, hoc, hobj, hbo, he, hd, hh, VCL_method, hv, hr]
    omega

theorem cnt_recv_settled (k : params) (a : answers) (s : State) :
    cnt_recv k a s = Res.abort
    ∨ ∃ s', cnt_recv k a s = Res.ok (REQ_FSM_MORE, s')
        ∧ (s'.req.req_step = R_STP_PIPE → s.req.esi_level = 0) := by
  cases hoc : s.req.objcore with
  | some _ => left; simp [cnt_recv, hoc]
  | none =>
  cases hobj : s.req.obj with
  | some _ => left; simp [cnt_recv, hoc, hobj]
  | none =>
  cases hbo : s.req.busyobj with
  | some _ => left; simp [cnt_recv, hoc, hobj, hbo]
  | none =>
  by_cases he : s.req.err_code = 0
  swap
  · right; simp [cnt_recv, hoc, hobj, hbo, he]
  cases hd : s.req.director with
  | some _ => left; simp [cnt_recv, hoc, hobj, hbo, he, hd]
  | none =>
  cases hh : s.req.vcl.director.head? with
  | none => left; simp [cnt_recv, hoc, hobj, hbo, he, hd, hh]
  | some d =>
  by_cases hv : (a.vcl .hash).handling = VCL_RET_LOOKUP
  swap
  · left
    have hv' : ((a.vcl .hash).handling == VCL_RET_LOOKUP) = false := by simp [hv]
    simp [cnt_recv, hoc, hobj, hbo, he, hd, hh, VCL_method, hv']
  have hrun := cnt_recv_run k a s d hoc hobj hbo he hd hh hv
  by_cases hr : (a.vcl .recv).handling = VCL_RET_PURGE ∨ (a.vcl .recv).handling = VCL_RET_HASH
        ∨ (a.vcl .recv).handling = VCL_RET_PASS ∨ (a.vcl .recv).handling = VCL_RET_ERROR
        ∨ ((a.vcl .recv).handling = VCL_RET_PIPE ∧ s.req.esi_level = 0)
  · exact Or.inr (hrun.1 hr)
  · exact Or.inl (hrun.2 hr)

/-- C17: `cnt_recv` returns MORE or is fatal.  (1) On every state the handler
either aborts or returns MORE.  (2) For a request entering RECV as the handler
asserts it (no handle held, no director selected yet, a first backend in the
policy) with `err_code = 0`, it aborts exactly when `hook.hash` answers a
verdict other than LOOKUP, or `hook.recv` answers a verdict outside PURGE, HASH,
PIPE, PASS, ERROR, or `hook.recv` answers PIPE while `esi_level > 0`.  (3) A
state returned for a request with `esi_level > 0` is never in step PIPE. -/
theorem cnt_recv_fatal_or_more (cache_param : params) (a : answers) (s : State) :
    (cnt_recv cache_param a s = Res.abort
      ∨ ∃ s', cnt_recv cache_param a s = Res.ok (REQ_FSM_MORE, s'))
    ∧ (s.req.objcore = none → s.req.obj = none → s.req.busyobj = none →
        s.req.director = none → s.req.vcl.director.head? ≠ none → s.req.err_code = 0 →
        (cnt_recv cache_param a s = Res.abort ↔
          ((a.vcl .hash).handling ≠ VCL_RET_LOOKUP
            ∨ ((a.vcl .recv).handling ≠ VCL_RET_PURGE ∧ (a.vcl .recv).handling ≠ VCL_RET_HASH
                ∧ (a.vcl .recv).handling ≠ VCL_RET_PIPE ∧ (a.vcl .recv).handling ≠ VCL_RET_PASS
                ∧ (a.vcl .recv).handling ≠ VCL_RET_ERROR)
            ∨ ((a.vcl .recv).handling = VCL_RET_PIPE ∧ 0 < s.req.esi_level))))
    ∧ (∀ nxt s', cnt_recv cache_param a s = Res.ok (nxt, s') → 0 < s.req.esi_level →
        s'.req.req_step ≠ R_STP_PIPE) := by
  refine ⟨?_, ?_, ?_⟩
  · rcases cnt_recv_settled cache_param a s with h | ⟨s', h, -⟩
    · exact Or.inl h
    · exact Or.inr ⟨s', h⟩
  · intro hoc hobj hbo hd hh he
    obtain ⟨d, hh⟩ := Option.ne_none_iff_exists'.mp hh
    by_cases hv : (a.vcl .hash).handling = VCL_RET_LOOKUP
    · have hrun := cnt_recv_run cache_param a s d hoc hobj hbo he hd hh hv
      constructor
      · intro hab
        right
        by_cases hr : (a.vcl .recv).handling = VCL_RET_PURGE
            ∨ (a.vcl .recv).handling = VCL_RET_HASH
            ∨ (a.vcl .recv).handling = VCL_RET_PASS ∨ (a.vcl .recv).handling = VCL_RET_ERROR
            ∨ ((a.vcl .recv).handling = VCL_RET_PIPE ∧ s.req.esi_level = 0)
        · obtain ⟨s', hs', -⟩ := hrun.1 hr
          rw [hab] at hs'
          cases hs'
        · simp only [not_or, not_and] at hr
          obtain ⟨h1, h2, h3, h4, h5⟩ := hr
          by_cases hp : (a.vcl .recv).handling = VCL_RET_PIPE
          · exact Or.inr ⟨hp, Nat.pos_of_ne_zero (h5 hp)⟩
          · exact Or.inl ⟨h1, h2, hp, h3, h4⟩
      · rintro (h | ⟨h1, h2, h3, h4, h5⟩ | ⟨h1, h2⟩)
        · exact absurd hv h
        · exact hrun.2 (by simp [h1, h2, h3, h4, h5])
        · exact hrun.2 (by simp [h1]; omega)
    · have hv' : ((a.vcl .hash).handling == VCL_RET_LOOKUP) = false := by simp [hv]
      have hab : cnt_recv cache_param a s = Res.abort := by
        simp [cnt_recv, hoc, hobj, hbo, he, hd, hh, VCL_method, hv']
      exact ⟨fun _ => Or.inl hv, fun _ => hab⟩
  · intro nxt s' h hl hp
    rcases cnt_recv_settled cache_param a s with hab | ⟨s'', hs'', hpipe⟩
    · rw [hab] at h; cases h
    · rw [hs''] at h
      simp only [Res.ok.injEq, Prod.mk.injEq] at h
      obtain ⟨-, rfl⟩ := h
      have := hpipe hp
      omega

/-- Witness of C17: a clean request whose `recv` verdict is DELIVER, outside the
legal set, aborts; one whose verdict is PASS does not. -/
theorem cnt_recv_fatal_or_more_witness :
    cnt_recv sample_params
        (sample_answers VCL_RET_DELIVER VCL_RET_DELIVER sample_hit sample_alloc)
        (sample_state R_STP_RECV) = Res.abort
    ∧ ¬ cnt_recv sample_params
          (sample_answers VCL_RET_PASS VCL_RET_DELIVER sample_hit sample_alloc)
          (sample_state R_STP_RECV) = Res.abort :=
  ⟨((cnt_recv_fatal_or_more sample_params
      (sample_answers VCL_RET_DELIVER VCL_RET_DELIVER sample_hit sample_alloc)
      (sample_state R_STP_RECV)).2.1 rfl rfl rfl rfl (by decide) rfl).2
      (Or.inr (Or.inl (by decide))),
   fun h => absurd (((cnt_recv_fatal_or_more sample_params
      (sample_answers VCL_RET_PASS VCL_RET_DELIVER sample_hit sample_alloc)
      (sample_state R_STP_RECV)).2.1 rfl rfl rfl rfl (by decide) rfl).1 h) (by decide)⟩

/-! ## The error fields on the way through PREPRESP -/

theorem cnt_error_dispatch_clears (k : params) (a : answers) (t : State) :
    (cnt_error_dispatch k a t).sat (fun r =>
      r.2.req.req_step = R_STP_PREPRESP → r.2.req.err_code = 0 ∧ r.2.req.err_reason = none) := by
  simp only [cnt_error_dispatch, sat_ite, sat_bind, sat_assert, sat_ok]
  refine ⟨fun _ => ?_, fun _ _ => ?_⟩
  · simp [HSH_Drop, VBO_DerefBusyObj]
  · simp [VBO_DerefBusyObj]

theorem cnt_error_clears (k : params) (a : answers) (s : State) :
    (cnt_error k a s).sat (fun r =>
      r.1 = REQ_FSM_MORE → r.2.req.req_step = R_STP_PREPRESP →
        r.2.req.err_code = 0 ∧ r.2.req.err_reason = none) := by
  intro r hr
  rcases cnt_error_cases k a s with h | ⟨s', h, -⟩ | ⟨t, h, -⟩
  · rw [h] at hr; cases hr
  · rw [h] at hr; cases hr; exact fun h => nomatch h
  · rw [h] at hr
    exact fun _ => cnt_error_dispatch_clears k a t r hr

theorem cnt_fetch_err_code (k : params) (a : answers) (s : State) (bo : busyobj)
    (hbo : s.req.busyobj = some bo) :
    (cnt_fetch k a s).sat (fun r =>
      r.2.req.req_step = R_STP_PREPRESP → r.2.req.err_code = bo.err_code) := by
  simp [cnt_fetch, hbo, sat_bind, sat_AZ, sat_AN, sat_assert, sat_ite, sat_ok, sat_abort,
    sat_hang, VBO_DerefBusyObj]

theorem cnt_prepresp_deliver (k : params) (a : answers) (s : State) (o : object)
    (hobj : s.req.obj = some o) (hbo : ∀ b, s.req.busyobj = some b → b.do_esi = false)
    (hv : (a.vcl .deliver).handling = VCL_RET_DELIVER) :
    ∃ s', cnt_prepresp k a s = Res.ok (REQ_FSM_MORE, s')
      ∧ s'.req.req_step = R_STP_DELIVER
      ∧ s'.req.err_code = (a.vcl .deliver).err_code.getD s.req.err_code
      ∧ s'.req.err_reason = (a.vcl .deliver).err_reason.orElse (fun _ => s.req.err_reason) := by
  simp [cnt_prepresp, hobj, cnt_prepresp_res_mode_eq k a o s hbo, VCL_method, hv]

/-- Counterexample to C16 as stated: a cold miss whose fetch finishes with
`err_code = 500` in its busyobj enters PREPRESP at the fourth boundary;
`hook.deliver` answers DELIVER, and when `cnt_prepresp` has returned (fifth
boundary, step DELIVER) `err_code` is 500, not 0. -/
theorem cnt_prepresp_err_fields_counterexample :
    ∃ t t',
      CNT_boundary sample_params (fun _ => sample_cold_miss 500) 4 sample_entry = some t
      ∧ t.req.req_step = R_STP_PREPRESP
      ∧ ((sample_cold_miss 500).vcl vcl_method.deliver).handling = VCL_RET_DELIVER
      ∧ CNT_step sample_params (sample_cold_miss 500) t = Res.ok (REQ_FSM_MORE, t')
      ∧ t'.req.req_step = R_STP_DELIVER ∧ t'.req.err_code = 500 ∧ t'.req.err_code ≠ 0 := by
  have h4 : (CNT_boundary sample_params (fun _ => sample_cold_miss 500) 4 sample_entry).map
      (fun t => (t.req.req_step,
        match CNT_step sample_params (sample_cold_miss 500) t with
        | Res.ok (n, t') => some (n, t'.req.req_step, t'.req.err_code)
        | _ => none))
      = some (R_STP_PREPRESP, some (REQ_FSM_MORE, R_STP_DELIVER, 500)) := by decide
  cases hc : CNT_boundary sample_params (fun _ => sample_cold_miss 500) 4 sample_entry with
  | none => rw [hc] at h4; cases h4
  | some t =>
    rw [hc] at h4
    simp only [Option.map_some', Option.some.injEq, Prod.mk.injEq] at h4
    obtain ⟨hs, h5⟩ := h4
    cases hc5 : CNT_step sample_params (sample_cold_miss 500) t with
    | ok p =>
      obtain ⟨n, t'⟩ := p
      rw [hc5] at h5
      simp only [Option.some.injEq, Prod.mk.injEq] at h5
      obtain ⟨rfl, h6, h7⟩ := h5
      exact ⟨t, t', rfl, hs, rfl, hc5, h6, h7, by rw [h7]; decide⟩
    | abort => rw [hc5] at h5; cases h5
    | hang => rw [hc5] at h5; cases h5
    | nofuel => rw [hc5] at h5; cases h5

/-- C16, amended: the error fields on the way through PREPRESP.  For a request
that enters PREPRESP holding the object `o` (no busyobj doing ESI) and for which
`hook.deliver` answers DELIVER: `cnt_prepresp` returns MORE with the step
DELIVER and never writes `err_code` or `err_reason`; on return they are what
they were on entry, unless the hook itself set them.  So, the hook setting
neither: when `cnt_error` led into PREPRESP they are 0 and null on return
(`cnt_error` clears them), and when `cnt_fetch` led into PREPRESP `err_code` is
the `err_code` of the busyobj, zero or not. -/
theorem cnt_prepresp_err_fields (cache_param : params) (a : answers) (s : State) (o : object)
    (hobj : s.req.obj = some o) (hbo : ∀ b, s.req.busyobj = some b → b.do_esi = false)
    (hv : (a.vcl .deliver).handling = VCL_RET_DELIVER) :
    ∃ s', cnt_prepresp cache_param a s = Res.ok (REQ_FSM_MORE, s')
      ∧ s'.req.req_step = R_STP_DELIVER
      ∧ s'.req.err_code = (a.vcl .deliver).err_code.getD s.req.err_code
      ∧ s'.req.err_reason = (a.vcl .deliver).err_reason.orElse (fun _ => s.req.err_reason)
      ∧ ((a.vcl .deliver).err_code = none → (a.vcl .deliver).err_reason = none →
          (s'.req.err_code = s.req.err_code ∧ s'.req.err_reason = s.req.err_reason)
          ∧ (∀ a0 s0, cnt_error cache_param a0 s0 = Res.ok (REQ_FSM_MORE, s) →
              s.req.req_step = R_STP_PREPRESP →
              s'.req.err_code = 0 ∧ s'.req.err_reason = none)
          ∧ (∀ a0 s0 bo, s0.req.busyobj = some bo →
              cnt_fetch cache_param a0 s0 = Res.ok (REQ_FSM_MORE, s) →
              s.req.req_step = R_STP_PREPRESP →
              s'.req.err_code = bo.err_code)) := by
  obtain ⟨s', h, h1, h2, h3⟩ := cnt_prepresp_deliver cache_param a s o hobj hbo hv
  refine ⟨s', h, h1, h2, h3, fun hc hrn => ?_⟩
  have e1 : s'.req.err_code = s.req.err_code := by rw [h2, hc]; rfl
  have e2 : s'.req.err_reason = s.req.err_reason := by rw [h3, hrn]; rfl
  refine ⟨⟨e1, e2⟩, fun a0 s0 he hs => ?_, fun a0 s0 bo hb hf hs => ?_⟩
  · have := cnt_error_clears cache_param a0 s0 _ he rfl hs
    rw [e1, e2]
    exact this
  · have := cnt_fetch_err_code cache_param a0 s0 bo hb _ hf hs
    rw [e1]
    exact this

/-- Witness of C16: a request entering PREPRESP with `err_code = 500` leaves it
for DELIVER with `err_code = 500`. -/
theorem cnt_prepresp_err_fields_witness :
    ∃ s', cnt_prepresp sample_params (sample_cold_miss 500)
          { sample_state R_STP_PREPRESP with
            req := { sample_req R_STP_PREPRESP with obj := some sample_obj, err_code := 500 } }
        = Res.ok (REQ_FSM_MORE, s')
      ∧ s'.req.req_step = R_STP_DELIVER ∧ s'.req.err_code = 500 := by
  obtain ⟨s', h, h1, h2, -⟩ := cnt_prepresp_err_fields sample_params (sample_cold_miss 500)
    { sample_state R_STP_PREPRESP with
      req := { sample_req R_STP_PREPRESP with obj := some sample_obj, err_code := 500 } }
    sample_obj rfl (fun _ hb => nomatch hb) rfl
  exact ⟨s', h, h1, h2⟩

/-! ## Scenarios: one turn of the loop at a time -/

theorem CNT_step_recv_turn (k : params) (a : answers) (s : State) (d : Nat) (nstep : req_step)
    (hs : s.req.req_step = R_STP_RECV)
    (hoc : s.req.objcore = none) (hobj : s.req.obj = none) (hbo : s.req.busyobj = none)
    (he : s.req.err_code = 0) (hd : s.req.director = none)
    (hh : s.req.vcl.director.head? = some d)
    (hv : (a.vcl .hash).handling = VCL_RET_LOOKUP)
    (hr : ((a.vcl .recv).handling = VCL_RET_PURGE ∧ nstep = R_STP_PURGE)
      ∨ ((a.vcl .recv).handling = VCL_RET_HASH ∧ nstep = R_STP_LOOKUP))
    (hw : ws_clear s.wrk.aws) (ha : a.aws.sane = true) :
    ∃ s', CNT_step k a s = Res.ok (REQ_FSM_MORE, s')
      ∧ s'.req.req_step = nstep
      ∧ s'.req.obj = none ∧ s'.req.objcore = none ∧ s'.req.busyobj = none
      ∧ s'.req.err_code = (a.vcl .hash).err_code.getD ((a.vcl .recv).err_code.getD 0)
      ∧ s'.req.wantbody = !decide (s.req.http.method = "HEAD")
      ∧ s'.req.http.protover = s.req.http.protover
      ∧ s'.req.esi_level = s.req.esi_level
      ∧ s'.req.vsl_wid = s.req.vsl_wid
      ∧ s'.wrk.stats = s.wrk.stats ∧ s'.req.acct_req = s.req.acct_req
      ∧ s'.trace = s.trace ++ [Event.step R_STP_RECV, Event.VCL .recv, Event.VCL .hash]
      ∧ s'.wrk.aws = a.aws ∧ s'.wrk.wrw = s.wrk.wrw := by
  rcases hr with ⟨hr, rfl⟩ | ⟨hr, rfl⟩ <;>
    simp [CNT_step, CNT_dispatch, WS_Assert, WRW_IsReleased, hw.1, hw.2, ha, hs, cnt_recv, emit, hoc, hobj, hbo, he, hd, hh, VCL_method, hv, hr]

theorem CNT_step_lookup_miss_turn (k : params) (a : answers) (s : State) (b : objcore)
    (hs : s.req.req_step = R_STP_LOOKUP)
    (hoc : s.req.objcore = none) (hbo : s.req.busyobj = none)
    (hlr : a.HSH_Lookup.lr = HSH_MISS) (hc : a.HSH_Lookup.oc = none)
    (hb : a.HSH_Lookup.boc = some b) (hbusy : test_bits b.flags OC_F_BUSY = true)
    (hw : ws_clear s.wrk.aws) (ha : a.aws.sane = true) :
    ∃ s', CNT_step k a s = Res.ok (REQ_FSM_MORE, s')
      ∧ s'.req.req_step = R_STP_MISS
      ∧ s'.req.obj = s.req.obj ∧ s'.req.objcore = some b ∧ s'.req.busyobj = none
      ∧ s'.req.err_code = s.req.err_code
      ∧ s'.req.wantbody = s.req.wantbody
      ∧ s'.req.http.protover = s.req.http.protover
      ∧ s'.req.esi_level = s.req.esi_level
      ∧ s'.req.vsl_wid = s.req.vsl_wid
      ∧ s'.wrk.stats = s.wrk.stats ∧ s'.req.acct_req = s.req.acct_req
      ∧ s'.trace = s.trace ++ [Event.step R_STP_LOOKUP, Event.VRY_Prep,
          Event.HSH_Lookup (s.req.esi_level == 0) s.req.hash_always_miss HSH_MISS,
          Event.VRY_Finish true]
      ∧ s'.wrk.aws = a.aws ∧ s'.wrk.wrw = s.wrk.wrw := by
  simp [CNT_step, CNT_dispatch, WS_Assert, WRW_IsReleased, hw.1, hw.2, ha, hs, cnt_lookup, emit, hoc, hbo, hlr, hc, hb, hbusy]

theorem CNT_step_miss_fetch_turn (k : params) (a : answers) (s : State) (b : objcore)
    (hs : s.req.req_step = R_STP_MISS)
    (hoc : s.req.objcore = some b) (hobj : s.req.obj = none) (hbo : s.req.busyobj = none)
    (hv : (a.vcl .miss).handling = VCL_RET_FETCH)
    (hw : ws_clear s.wrk.aws) (ha : a.aws.sane = true) :
    ∃ s', CNT_step k a s = Res.ok (REQ_FSM_MORE, s')
      ∧ s'.req.req_step = R_STP_FETCH
      ∧ s'.req.obj = none ∧ s'.req.objcore = none ∧ s'.req.busyobj = some a.VBF_Fetch
      ∧ s'.req.wantbody = s.req.wantbody
      ∧ s'.req.http.protover = s.req.http.protover
      ∧ s'.req.esi_level = s.req.esi_level
      ∧ s'.req.vsl_wid = s.req.vsl_wid
      ∧ s'.wrk.stats = { s.wrk.stats with cache_miss := s.wrk.stats.cache_miss + 1 }
      ∧ s'.req.acct_req = s.req.acct_req
      ∧ s'.trace = s.trace ++ [Event.step R_STP_MISS, Event.VCL .miss,
          Event.VBF_Fetch b false]
      ∧ s'.wrk.aws = a.aws ∧ s'.wrk.wrw = s.wrk.wrw := by
  simp [CNT_step, CNT_dispatch, WS_Assert, WRW_IsReleased, hw.1, hw.2, ha, hs, cnt_miss, emit, VCL_method, hoc, hobj, hbo, hv]

theorem CNT_step_fetch_finished_turn (k : params) (a : answers) (s : State) (bo : busyobj)
    (hs : s.req.req_step = R_STP_FETCH)
    (hbo : s.req.busyobj = some bo) (href : 0 < bo.refcount)
    (hst : bo.state = BOS_FINISHED)
    (hw : ws_clear s.wrk.aws) (ha : a.aws.sane = true) (hwrw : s.wrk.wrw = none) :
    ∃ s', CNT_step k a s = Res.ok (REQ_FSM_MORE, s')
      ∧ s'.req.req_step = R_STP_PREPRESP
      ∧ s'.req.obj = bo.fetch_obj ∧ s'.req.objcore = s.req.objcore ∧ s'.req.busyobj = none
      ∧ s'.req.err_code = bo.err_code
      ∧ s'.req.wantbody = s.req.wantbody
      ∧ s'.req.http.protover = s.req.http.protover
      ∧ s'.req.esi_level = s.req.esi_level
      ∧ s'.req.vsl_wid = s.req.vsl_wid
      ∧ s'.wrk.stats = s.wrk.stats
      ∧ s'.req.acct_req = { s.req.acct_req with fetch := s.req.acct_req.fetch + 1 }
      ∧ s'.trace = s.trace ++ [Event.step R_STP_FETCH, Event.VBO_DerefBusyObj]
      ∧ s'.wrk.aws = a.aws ∧ s'.wrk.wrw = s.wrk.wrw := by
  simp [CNT_step, CNT_dispatch, WS_Assert, WRW_IsReleased, hw.1, hw.2, ha, hwrw, hs, cnt_fetch, emit, VBO_DerefBusyObj, hbo, href, hst, busyobj_state_e.toNat]

theorem CNT_step_prepresp_deliver_turn (k : params) (a : answers) (s : State) (o : object)
    (hs : s.req.req_step = R_STP_PREPRESP)
    (hobj : s.req.obj = some o) (hbo : s.req.busyobj = none)
    (hv : (a.vcl .deliver).handling = VCL_RET_DELIVER)
    (hw : ws_clear s.wrk.aws) (ha : a.aws.sane = true) :
    ∃ s', CNT_step k a s = Res.ok (REQ_FSM_MORE, s')
      ∧ s'.req.req_step = R_STP_DELIVER
      ∧ s'.req.obj = some o ∧ s'.req.objcore = s.req.objcore ∧ s'.req.busyobj = none
      ∧ s'.req.res_mode = (res_mode_of k a o s).mask
      ∧ s'.req.wantbody = s.req.wantbody
      ∧ s'.req.vsl_wid = s.req.vsl_wid
      ∧ s'.wrk.stats = s.wrk.stats ∧ s'.req.acct_req = s.req.acct_req
      ∧ s'.trace = s.trace ++ [Event.step R_STP_PREPRESP, Event.VCL .deliver]
      ∧ s'.wrk.aws = a.aws ∧ s'.wrk.wrw = s.wrk.wrw := by
  have hbo' : ∀ b, (emit (Event.step R_STP_PREPRESP) s).req.busyobj = some b →
      b.do_esi = false := by
    intro b hb
    rw [emit_req, hbo] at hb
    cases hb
  simp [CNT_step, CNT_dispatch, WS_Assert, WRW_IsReleased, hw.1, hw.2, ha, hs, cnt_prepresp, hobj,
    cnt_prepresp_res_mode_eq k a o (emit (Event.step R_STP_PREPRESP) s) hbo', VCL_method, hv,
    hbo, res_mode_of]

theorem CNT_step_deliver_done_turn (k : params) (a : answers) (s : State) (o : object)
    (hs : s.req.req_step = R_STP_DELIVER)
    (hobj : s.req.obj = some o) (hbo : s.req.busyobj = none)
    (hw : ws_clear s.wrk.aws) (ha : a.aws.sane = true) (hwrw : a.RES_WriteObj = none) :
    ∃ s', CNT_step k a s = Res.ok (REQ_FSM_DONE, s')
      ∧ s'.req.obj = none ∧ s'.req.objcore = s.req.objcore ∧ s'.req.busyobj = none
      ∧ s'.req.res_mode = s.req.res_mode
      ∧ s'.req.wantbody = s.req.wantbody
      ∧ s'.req.vsl_wid = s.req.vsl_wid
      ∧ s'.wrk.stats = s.wrk.stats ∧ s'.req.acct_req = s.req.acct_req
      ∧ s'.trace = s.trace ++ [Event.step R_STP_DELIVER, Event.RES_WriteObj]
          ++ (if test_bits o.objcore.flags OC_F_PASS then [Event.STV_Freestore o] else [])
          ++ [Event.HSH_Deref_obj o]
      ∧ s'.wrk.aws = a.aws ∧ s'.wrk.wrw = none := by
  simp [CNT_step, CNT_dispatch, WS_Assert, WRW_IsReleased, hw.1, hw.2, ha, hwrw, hs, cnt_deliver, cnt_deliver_write, emit, HSH_Deref_obj, hobj, hbo]

theorem CNT_loop_more (k : params) (env : Nat → answers) (n m fuel : Nat) (s s' : State)
    (hm : m = n + 1) (h : CNT_step k (env n) s = Res.ok (REQ_FSM_MORE, s')) :
    CNT_loop k (fun i => env (i + n)) (fuel + 1) s
      = CNT_loop k (fun i => env (i + m)) fuel s' := by
  subst hm
  have e : (fun i => env (i + 1 + n)) = (fun i => env (i + (n + 1))) := by
    funext i
    congr 1
    omega
  rw [CNT_loop_succ]
  simp only [Nat.zero_add, h, e]

theorem CNT_loop_done (k : params) (env : Nat → answers) (n fuel : Nat) (s s' : State)
    (h : CNT_step k (env n) s = Res.ok (REQ_FSM_DONE, s')) :
    CNT_loop k (fun i => env (i + n)) (fuel + 1) s = Res.ok (REQ_FSM_DONE, s') := by
  rw [CNT_loop_succ]
  simp only [Nat.zero_add, h]

theorem CNT_Request_of_loop_done (k : params) (env : Nat → answers) (fuel : Nat) (s s1 : State)
    (hstep : s.req.req_step = R_STP_LOOKUP ∨ s.req.req_step = R_STP_RECV)
    (hwid : test_bits s.req.vsl_wid k.VSL_CLIENTMARKER = true)
    (h : CNT_loop k env fuel { s with req := { s.req with wrk := true } }
      = Res.ok (REQ_FSM_DONE, s1))
    (hrel : s1.wrk.wrw = none) :
    ∃ s', CNT_Request k env fuel s = Res.ok (REQ_FSM_DONE, s')
      ∧ s'.trace = s1.trace ++ [Event.SES_Charge]
      ∧ s'.wrk = s1.wrk
      ∧ s'.req.obj = s1.req.obj ∧ s'.req.objcore = s1.req.objcore
      ∧ s'.req.busyobj = s1.req.busyobj
      ∧ s'.req.res_mode = s1.req.res_mode ∧ s'.req.wantbody = s1.req.wantbody
      ∧ s'.req.acct_req = s1.req.acct_req := by
  have hstep' : (s.req.req_step == R_STP_LOOKUP || s.req.req_step == R_STP_RECV) = true := by
    rcases hstep with h | h <;> simp [h]
  simp [CNT_Request, hstep', hwid, h, CNT_Request_done, emit, WRW_IsReleased, hrel]

theorem res_mode_rule_one (he de : Bool) (el : Nat) (gs gz ag : Bool) (pv : Nat) :
    ((res_mode_rule false he de el gs gz ag true pv).len = true
      ∧ (res_mode_rule false he de el gs gz ag true pv).chunked = false
      ∧ (res_mode_rule false he de el gs gz ag true pv).eof = false)
    ∨ ((res_mode_rule false he de el gs gz ag true pv).len = false
      ∧ (res_mode_rule false he de el gs gz ag true pv).chunked = true
      ∧ (res_mode_rule false he de el gs gz ag true pv).eof = false)
    ∨ ((res_mode_rule false he de el gs gz ag true pv).len = false
      ∧ (res_mode_rule false he de el gs gz ag true pv).chunked = false
      ∧ (res_mode_rule false he de el gs gz ag true pv).eof = true) := by
  by_cases hl : el > 0 <;> by_cases hp : pv ≥ 11 <;> cases he <;> cases de <;> cases gs <;>
    cases gz <;> cases ag <;> simp [res_mode_rule, hl, hp]

/-- C18: the cold-miss scenario.  A request enters `CNT_Request` in RECV with
`err_code = 0`, holding nothing (no director selected yet, a first backend in
the policy, the client marker in its log identifier).  `hook.recv` answers HASH
and `hook.hash` LOOKUP; the index answers MISS with a busy `boc`; `hook.miss`
answers FETCH; the fetch started then ends FINISHED with an object;
`hook.deliver` answers DELIVER.  Then, given at least six turns, the call
returns DONE; the handlers ran in the order RECV, LOOKUP, MISS, FETCH,
PREPRESP, DELIVER; `cache_miss` and `acct_req.fetch` grew by one; `cache_hit`,
`cache_hitpass`, `acct_req.pass` and `acct_req.error` kept their values;
`wantbody` is true exactly when the method is not `HEAD`, and then exactly one
of LEN, CHUNKED, EOF is set in `res_mode`; no handle is held at the end.
The call returns because its assertions hold, and these are hypotheses too: the
thread workspace is well formed and empty on entry and after each of the first
five turns, and well formed after the sixth (lines 918-919 and 933); the write
context of the worker is released on entry, where `cnt_fetch` finds it untouched
(line 375), and `RES_WriteObj` leaves it released (lines 238 and 968). -/
theorem CNT_Request_cold_miss (cache_param : params) (env : Nat → answers) (fuel : Nat)
    (s : State) (d : Nat) (b : objcore) (bo : busyobj) (o : object)
    (hs : s.req.req_step = R_STP_RECV) (he : s.req.err_code = 0)
    (hobj : s.req.obj = none) (hoc : s.req.objcore = none) (hbo : s.req.busyobj = none)
    (hd : s.req.director = none) (hh : s.req.vcl.director.head? = some d)
    (hwid : test_bits s.req.vsl_wid cache_param.VSL_CLIENTMARKER = true)
    (hrecv : ((env 0).vcl .recv).handling = VCL_RET_HASH)
    (hhash : ((env 0).vcl .hash).handling = VCL_RET_LOOKUP)
    (hlr : (env 1).HSH_Lookup.lr = HSH_MISS) (hloc : (env 1).HSH_Lookup.oc = none)
    (hboc : (env 1).HSH_Lookup.boc = some b) (hbusy : test_bits b.flags OC_F_BUSY = true)
    (hmiss : ((env 2).vcl .miss).handling = VCL_RET_FETCH)
    (hfetch : (env 2).VBF_Fetch = bo) (href : 0 < bo.refcount)
    (hfin : bo.state = BOS_FINISHED) (hfobj : bo.fetch_obj = some o)
    (hdeliver : ((env 4).vcl .deliver).handling = VCL_RET_DELIVER)
    (hws : ws_clear s.wrk.aws) (haws : ∀ i, i < 5 → ws_clear (env i).aws)
    (hlast : (env 5).aws.sane = true)
    (hrel : WRW_IsReleased s.wrk = true) (hwrite : (env 5).RES_WriteObj = none) :
    ∃ s', CNT_Request cache_param env (fuel + 6) s = Res.ok (REQ_FSM_DONE, s')
      ∧ steps_of s'.trace = steps_of s.trace ++
          [R_STP_RECV, R_STP_LOOKUP, R_STP_MISS, R_STP_FETCH, R_STP_PREPRESP, R_STP_DELIVER]
      ∧ s'.wrk.stats.cache_miss = s.wrk.stats.cache_miss + 1
      ∧ s'.req.acct_req.fetch = s.req.acct_req.fetch + 1
      ∧ s'.wrk.stats.cache_hit = s.wrk.stats.cache_hit
      ∧ s'.wrk.stats.cache_hitpass = s.wrk.stats.cache_hitpass
      ∧ s'.req.acct_req.pass = s.req.acct_req.pass
      ∧ s'.req.acct_req.error = s.req.acct_req.error
      ∧ s'.req.wantbody = !decide (s.req.http.method = "HEAD")
      ∧ (s'.req.wantbody = true →
          (test_bits s'.req.res_mode RES_LEN = true
            ∧ test_bits s'.req.res_mode RES_CHUNKED = false
            ∧ test_bits s'.req.res_mode RES_EOF = false)
          ∨ (test_bits s'.req.res_mode RES_LEN = false
            ∧ test_bits s'.req.res_mode RES_CHUNKED = true
            ∧ test_bits s'.req.res_mode RES_EOF = false)
          ∨ (test_bits s'.req.res_mode RES_LEN = false
            ∧ test_bits s'.req.res_mode RES_CHUNKED = false
            ∧ test_bits s'.req.res_mode RES_EOF = true))
      ∧ s'.req.obj = none ∧ s'.req.objcore = none ∧ s'.req.busyobj = none := by
  have hrel0 : s.wrk.wrw = none := by
    simpa [WRW_IsReleased] using hrel
  obtain ⟨s1, c1, st1, ob1, oc1, bo1, -, wb1, -, -, -, ws1, ac1, tr1, wa1, ww1⟩ :=
    CNT_step_recv_turn cache_param (env 0) { s with req := { s.req with wrk := true } } d
      R_STP_LOOKUP hs hoc hobj hbo he hd hh hhash (Or.inr ⟨hrecv, rfl⟩) hws
      (haws 0 (by omega)).1
  obtain ⟨s2, c2, st2, ob2, oc2, bo2, -, wb2, -, -, -, ws2, ac2, tr2, wa2, ww2⟩ :=
    CNT_step_lookup_miss_turn cache_param (env 1) s1 b st1 oc1 bo1 hlr hloc hboc hbusy
      (by rw [wa1]; exact haws 0 (by omega)) (haws 1 (by omega)).1
  obtain ⟨s3, c3, st3, ob3, oc3, bo3, wb3, -, -, -, ws3, ac3, tr3, wa3, ww3⟩ :=
    CNT_step_miss_fetch_turn cache_param (env 2) s2 b st2 oc2 (ob2.trans ob1) bo2 hmiss
      (by rw [wa2]; exact haws 1 (by omega)) (haws 2 (by omega)).1
  rw [hfetch] at bo3
  obtain ⟨s4, c4, st4, ob4, oc4, bo4, -, wb4, -, -, -, ws4, ac4, tr4, wa4, ww4⟩ :=
    CNT_step_fetch_finished_turn cache_param (env 3) s3 bo st3 bo3 href hfin
      (by rw [wa3]; exact haws 2 (by omega)) (haws 3 (by omega)).1
      (by rw [ww3, ww2, ww1]; exact hrel0)
  obtain ⟨s5, c5, st5, ob5, oc5, bo5, rm5, wb5, -, ws5, ac5, tr5, wa5, ww5⟩ :=
    CNT_step_prepresp_deliver_turn cache_param (env 4) s4 o st4 (ob4.trans hfobj) bo4 hdeliver
      (by rw [wa4]; exact haws 3 (by omega)) (haws 4 (by omega)).1
  obtain ⟨s6, c6, ob6, oc6, bo6, rm6, wb6, -, ws6, ac6, tr6, wa6, ww6⟩ :=
    CNT_step_deliver_done_turn cache_param (env 5) s5 o st5 ob5 bo5
      (by rw [wa5]; exact haws 4 (by omega)) hlast hwrite
  have hloop : CNT_loop cache_param env (fuel + 6)
      { s with req := { s.req with wrk := true } } = Res.ok (REQ_FSM_DONE, s6) := by
    show CNT_loop cache_param (fun i => env (i + 0)) (fuel + 5 + 1) _ = _
    rw [CNT_loop_more cache_param env 0 1 (fuel + 5) _ s1 rfl c1,
      CNT_loop_more cache_param env 1 2 (fuel + 4) s1 s2 rfl c2,
      CNT_loop_more cache_param env 2 3 (fuel + 3) s2 s3 rfl c3,
      CNT_loop_more cache_param env 3 4 (fuel + 2) s3 s4 rfl c4,
      CNT_loop_more cache_param env 4 5 (fuel + 1) s4 s5 rfl c5,
      CNT_loop_done cache_param env 5 fuel s5 s6 c6]
  obtain ⟨s', hreq, tr', wk', ob', oc', bo', rm', wb', ac'⟩ :=
    CNT_Request_of_loop_done cache_param env (fuel + 6) s s6 (Or.inr hs) hwid hloop ww6
  have hwb : s'.req.wantbody = !decide (s.req.http.method = "HEAD") := by
    rw [wb', wb6, wb5, wb4, wb3, wb2, wb1]
  refine ⟨s', hreq, ?_, ?_, ?_, ?_, ?_, ?_, ?_, hwb, ?_, ?_, ?_, ?_⟩
  · rw [tr', tr6, tr5, tr4, tr3, tr2, tr1]
    simp [steps_of, List.filterMap_append]
  · rw [wk', ws6, ws5, ws4, ws3, ws2, ws1]
  · rw [ac', ac6, ac5, ac4, ac3, ac2, ac1]
  · rw [wk', ws6, ws5, ws4, ws3, ws2, ws1]
  · rw [wk', ws6, ws5, ws4, ws3, ws2, ws1]
  · rw [ac', ac6, ac5, ac4, ac3, ac2, ac1]
  · rw [ac', ac6, ac5, ac4, ac3, ac2, ac1]
  · intro hw
    have hw4 : s4.req.wantbody = true := by rw [← wb5, ← wb6, ← wb', hw]
    have ht := res_flags_test (res_mode_of cache_param (env 4) o s4)
    have hone := res_mode_rule_one o.esidata.isSome s4.req.disable_esi s4.req.esi_level
      cache_param.http_gzip_support o.gziped (env 4).RFC2616_Req_Gzip s4.req.http.protover
    have hm : s'.req.res_mode = (res_mode_of cache_param (env 4) o s4).mask := by
      rw [rm', rm6, rm5]
    have hrule : res_mode_of cache_param (env 4) o s4
        = res_mode_rule false o.esidata.isSome s4.req.disable_esi s4.req.esi_level
            cache_param.http_gzip_support o.gziped (env 4).RFC2616_Req_Gzip true
            s4.req.http.protover := by
      simp [res_mode_of, bo4, hw4]
    rw [hm, ht.1, ht.2.1, ht.2.2.1, hrule]
    exact hone
  · rw [ob', ob6]
  · rw [oc', oc6, oc5, oc4, oc3]
  · rw [bo', bo6]

/-- Witness of C18: the sample cold miss, a `GET` over HTTP/1.1 for an object
that is stored plain: six handlers, DONE, one miss, one fetch. -/
theorem CNT_Request_cold_miss_witness :
    ∃ s', CNT_Request sample_params (fun _ => sample_cold_miss 0) (0 + 6)
          (sample_state R_STP_RECV) = Res.ok (REQ_FSM_DONE, s')
      ∧ steps_of s'.trace =
          [R_STP_RECV, R_STP_LOOKUP, R_STP_MISS, R_STP_FETCH, R_STP_PREPRESP, R_STP_DELIVER]
      ∧ s'.wrk.stats.cache_miss = 1 ∧ s'.req.acct_req.fetch = 1
      ∧ s'.wrk.stats.cache_hit = 0 ∧ s'.req.wantbody = true := by
  obtain ⟨s', h, h1, h2, h3, h4, -, -, -, h5, -⟩ :=
    CNT_Request_cold_miss sample_params (fun _ => sample_cold_miss 0) 0
      (sample_state R_STP_RECV) 1 sample_boc (sample_bo BOS_FINISHED) sample_obj
      rfl rfl rfl rfl rfl rfl rfl (by decide) rfl rfl rfl rfl rfl (by decide) rfl rfl
      (by decide) rfl rfl rfl (by decide)
      (fun _ _ => (by decide : ws_clear (sample_cold_miss 0).aws)) rfl rfl rfl
  exact ⟨s', h, h1, h2, h3, h4, h5.trans (by decide)⟩

/-! ## The purge scenario -/

theorem CNT_step_purge_turn (k : params) (a : answers) (s : State) (b : objcore)
    (hs : s.req.req_step = R_STP_PURGE)
    (hoc : s.req.objcore = none) (hbo : s.req.busyobj = none)
    (hlr : a.HSH_Lookup.lr = HSH_MISS) (hc : a.HSH_Lookup.oc = none)
    (hb : a.HSH_Lookup.boc = some b) (hderef : a.HSH_Deref = 0)
    (hw : ws_clear s.wrk.aws) (ha : a.aws.sane = true) :
    ∃ s', CNT_step k a s = Res.ok (REQ_FSM_MORE, s')
      ∧ s'.req.req_step = R_STP_ERROR
      ∧ s'.req.obj = s.req.obj ∧ s'.req.objcore = none ∧ s'.req.busyobj = none
      ∧ s'.req.err_code = (a.vcl .purge).err_code.getD s.req.err_code
      ∧ s'.req.vsl_wid = s.req.vsl_wid
      ∧ s'.trace = s.trace ++ [Event.step R_STP_PURGE, Event.VRY_Prep,
          Event.HSH_Lookup true true HSH_MISS, Event.VRY_Finish false,
          Event.HSH_Purge b.objhead, Event.HSH_Deref_oc b, Event.VCL .purge]
      ∧ s'.wrk.aws = a.aws ∧ s'.wrk.wrw = s.wrk.wrw := by
  simp [CNT_step, CNT_dispatch, WS_Assert, WRW_IsReleased, hw.1, hw.2, ha, hs, cnt_purge, emit, VCL_method, hoc, hbo, hlr, hc, hb, hderef]

theorem CNT_step_error_deliver_turn (k : params) (a : answers) (s : State) (o : object)
    (hs : s.req.req_step = R_STP_ERROR)
    (hoc : s.req.objcore = none) (hobj : s.req.obj = none) (hbo : s.req.busyobj = none)
    (hstats : a.VBO_GetBusyObj.stats = false)
    (halloc : a.STV_NewObject.obj = some o) (hfoc : a.STV_NewObject.fetch_objcore = none)
    (hv : (a.vcl .error).handling = VCL_RET_DELIVER)
    (hw : ws_clear s.wrk.aws) (ha : a.aws.sane = true) :
    ∃ s', CNT_step k a s = Res.ok (REQ_FSM_MORE, s')
      ∧ s'.req.req_step = R_STP_PREPRESP
      ∧ s'.req.obj = some { o with
          vxid := a.VBO_GetBusyObj.vsl_wid,
          status := if s.req.err_code < 100 ∨ s.req.err_code > 999 then 501
            else s.req.err_code }
      ∧ s'.req.objcore = none ∧ s'.req.busyobj = none
      ∧ s'.req.vsl_wid = s.req.vsl_wid
      ∧ s'.trace = s.trace ++
          [Event.step R_STP_ERROR, Event.VBO_GetBusyObj, Event.HSH_NewObjCore,
           Event.STV_NewObject k.http_resp_size (k.http_max_hdr % 65536),
           Event.http_PutProtocol "HTTP/1.1",
           Event.http_PutStatus (if s.req.err_code < 100 ∨ s.req.err_code > 999 then 501
              else s.req.err_code),
           Event.http_SetHeader "Server: Varnish",
           Event.http_PutResponse s.req.err_reason
             (if s.req.err_code < 100 ∨ s.req.err_code > 999 then 501 else s.req.err_code),
           Event.VCL .error, Event.VBO_DerefBusyObj]
      ∧ s'.wrk.aws = a.aws ∧ s'.wrk.wrw = s.wrk.wrw := by
  simp only [CNT_step, CNT_dispatch, WS_Assert, hw.1, hw.2, ha, assert_true, beq_self_eq_true,
    Res.ok_bind, emit_req, hs]
  rw [cnt_error_alloc k a (emit (Event.step R_STP_ERROR) s) o hoc hobj hbo hstats halloc hfoc]
  simp [cnt_error_dispatch, VCL_method, hv, VBO_DerefBusyObj, emit, hoc]

/-- Counterexample to C19 as stated: `hook.recv` answers PURGE, `hook.error` and
`hook.deliver` answer DELIVER, the allocation succeeds, and no hook sets
`err_code`.  The handlers run in the order RECV, PURGE, ERROR, PREPRESP,
DELIVER and the call returns DONE, but the one status written into the
synthetic response is 501, not a 200-class status.  Nor does the call return
DONE whenever the hooks answer so: under the same answers, if `RES_WriteObj`
leaves the write context of the worker reserved, `cnt_deliver` aborts at
line 238. -/
theorem CNT_Request_purge_counterexample :
    ((sample_purge none).vcl vcl_method.recv).handling = VCL_RET_PURGE
    ∧ ((sample_purge none).vcl vcl_method.error).handling = VCL_RET_DELIVER
    ∧ ((sample_purge none).vcl vcl_method.deliver).handling = VCL_RET_DELIVER
    ∧ (sample_purge none).STV_NewObject.obj ≠ none
    ∧ (∃ s', CNT_Request sample_params (fun _ => sample_purge none) 5
          (sample_state R_STP_RECV) = Res.ok (REQ_FSM_DONE, s')
        ∧ steps_of s'.trace
            = [R_STP_RECV, R_STP_PURGE, R_STP_ERROR, R_STP_PREPRESP, R_STP_DELIVER]
        ∧ http_statuses s'.trace = [501])
    ∧ sample_purge_writer_held.vcl = (sample_purge none).vcl
    ∧ sample_purge_writer_held.STV_NewObject = (sample_purge none).STV_NewObject
    ∧ (∃ t, CNT_boundary sample_params (fun _ => sample_purge_writer_held) 4 sample_entry
          = some t ∧ t.req.req_step = R_STP_DELIVER)
    ∧ CNT_Request sample_params (fun _ => sample_purge_writer_held) 5
        (sample_state R_STP_RECV) = Res.abort := by
  have h4 : (CNT_boundary sample_params (fun _ => sample_purge_writer_held) 4
      sample_entry).map (fun t => t.req.req_step) = some R_STP_DELIVER := by decide
  have h5 : (match CNT_Request sample_params (fun _ => sample_purge none) 5
      (sample_state R_STP_RECV) with
      | Res.ok (n, s) => some (n, steps_of s.trace, http_statuses s.trace)
      | _ => none)
        = some (REQ_FSM_DONE,
            [R_STP_RECV, R_STP_PURGE, R_STP_ERROR, R_STP_PREPRESP, R_STP_DELIVER], [501]) := by
    decide
  refine ⟨rfl, rfl, rfl, by decide, ?_, rfl, rfl, ?_, by decide⟩
  · cases hc : CNT_Request sample_params (fun _ => sample_purge none) 5
        (sample_state R_STP_RECV) with
    | ok p =>
      obtain ⟨n, t⟩ := p
      rw [hc] at h5
      simp only [Option.some.injEq, Prod.mk.injEq] at h5
      obtain ⟨rfl, h1, h2⟩ := h5
      exact ⟨t, rfl, h1, h2⟩
    | abort => rw [hc] at h5; cases h5
    | hang => rw [hc] at h5; cases h5
    | nofuel => rw [hc] at h5; cases h5
  · cases hc : CNT_boundary sample_params (fun _ => sample_purge_writer_held) 4
        sample_entry with
    | none => rw [hc] at h4; cases h4
    | some t =>
      rw [hc] at h4
      exact ⟨t, rfl, Option.some.inj h4⟩

/-- C19, amended: the purge scenario.  A request enters `CNT_Request` in RECV
with `err_code = 0`, holding nothing (no director selected yet, a first backend
in the policy, the client marker in its log identifier).  `hook.recv` answers
PURGE and `hook.hash` LOOKUP; the index answers the lookup of `cnt_purge` with
MISS and a `boc` whose deref leaves no reference; the synthetic object is
allocated; `hook.error` and `hook.deliver` answer DELIVER.  Then, given at
least five turns, the call returns DONE; the handlers ran in the order RECV,
PURGE, ERROR, PREPRESP, DELIVER; the one index lookup was made with
`want_waitinglist = 1` and `always_miss = 1`; `HSH_Purge` was called once, on
the objhead of the `boc`; and the one status written into the synthetic
response is `ec`, the `err_code` the hooks `recv`, `hash`, `purge` left (0 if
none set it), when `100 <= ec <= 999`, and 501 otherwise: a 200-class status
exactly when `ec` is one.  The call returns because its assertions hold, and
these are hypotheses too: the thread workspace is well formed and empty on
entry and after each of the first four turns, and well formed after the fifth
(lines 918-919 and 933); `RES_WriteObj` leaves the write context of the worker
released (lines 238 and 968). -/
theorem CNT_Request_purge (cache_param : params) (env : Nat → answers) (fuel : Nat)
    (s : State) (d : Nat) (b : objcore) (o : object)
    (hs : s.req.req_step = R_STP_RECV) (he : s.req.err_code = 0)
    (hobj : s.req.obj = none) (hoc : s.req.objcore = none) (hbo : s.req.busyobj = none)
    (hd : s.req.director = none) (hh : s.req.vcl.director.head? = some d)
    (hwid : test_bits s.req.vsl_wid cache_param.VSL_CLIENTMARKER = true)
    (hrecv : ((env 0).vcl .recv).handling = VCL_RET_PURGE)
    (hhash : ((env 0).vcl .hash).handling = VCL_RET_LOOKUP)
    (hlr : (env 1).HSH_Lookup.lr = HSH_MISS) (hloc : (env 1).HSH_Lookup.oc = none)
    (hboc : (env 1).HSH_Lookup.boc = some b) (hderef : (env 1).HSH_Deref = 0)
    (hstats : (env 2).VBO_GetBusyObj.stats = false)
    (halloc : (env 2).STV_NewObject.obj = some o)
    (hfoc : (env 2).STV_NewObject.fetch_objcore = none)
    (herror : ((env 2).vcl .error).handling = VCL_RET_DELIVER)
    (hdeliver : ((env 3).vcl .deliver).handling = VCL_RET_DELIVER)
    (hws : ws_clear s.wrk.aws) (haws : ∀ i, i < 4 → ws_clear (env i).aws)
    (hlast : (env 4).aws.sane = true) (hwrite : (env 4).RES_WriteObj = none) :
    ∃ (s' : State) (ec status : Int),
      CNT_Request cache_param env (fuel + 5) s = Res.ok (REQ_FSM_DONE, s')
      ∧ steps_of s'.trace = steps_of s.trace ++
          [R_STP_RECV, R_STP_PURGE, R_STP_ERROR, R_STP_PREPRESP, R_STP_DELIVER]
      ∧ lookups_of s'.trace = lookups_of s.trace ++ [(true, true, HSH_MISS)]
      ∧ purges_of s'.trace = purges_of s.trace ++ [b.objhead]
      ∧ http_statuses s'.trace = http_statuses s.trace ++ [status]
      ∧ ec = ((env 1).vcl .purge).err_code.getD
          (((env 0).vcl .hash).err_code.getD (((env 0).vcl .recv).err_code.getD 0))
      ∧ status = (if ec < 100 ∨ ec > 999 then 501 else ec)
      ∧ ((200 ≤ status ∧ status ≤ 299) ↔ (200 ≤ ec ∧ ec ≤ 299))
      ∧ (ec = 0 → status = 501) := by
  obtain ⟨s1, c1, st1, ob1, oc1, bo1, ec1, -, -, -, wid1, -, -, tr1, wa1, -⟩ :=
    CNT_step_recv_turn cache_param (env 0) { s with req := { s.req with wrk := true } } d
      R_STP_PURGE hs hoc hobj hbo he hd hh hhash (Or.inl ⟨hrecv, rfl⟩) hws
      (haws 0 (by omega)).1
  obtain ⟨s2, c2, st2, ob2, oc2, bo2, ec2, wid2, tr2, wa2, -⟩ :=
    CNT_step_purge_turn cache_param (env 1) s1 b st1 oc1 bo1 hlr hloc hboc hderef
      (by rw [wa1]; exact haws 0 (by omega)) (haws 1 (by omega)).1
  obtain ⟨s3, c3, st3, ob3, oc3, bo3, wid3, tr3, wa3, -⟩ :=
    CNT_step_error_deliver_turn cache_param (env 2) s2 o st2 oc2 (ob2.trans ob1) bo2 hstats
      halloc hfoc herror (by rw [wa2]; exact haws 1 (by omega)) (haws 2 (by omega)).1
  obtain ⟨s4, c4, st4, ob4, oc4, bo4, -, -, wid4, -, -, tr4, wa4, -⟩ :=
    CNT_step_prepresp_deliver_turn cache_param (env 3) s3 _ st3 ob3 bo3 hdeliver
      (by rw [wa3]; exact haws 2 (by omega)) (haws 3 (by omega)).1
  obtain ⟨s5, c5, -, -, -, -, -, wid5, -, -, tr5, -, ww5⟩ :=
    CNT_step_deliver_done_turn cache_param (env 4) s4 _ st4 ob4 bo4
      (by rw [wa4]; exact haws 3 (by omega)) hlast hwrite
  have hloop : CNT_loop cache_param env (fuel + 5)
      { s with req := { s.req with wrk := true } } = Res.ok (REQ_FSM_DONE, s5) := by
    show CNT_loop cache_param (fun i => env (i + 0)) (fuel + 4 + 1) _ = _
    rw [CNT_loop_more cache_param env 0 1 (fuel + 4) _ s1 rfl c1,
      CNT_loop_more cache_param env 1 2 (fuel + 3) s1 s2 rfl c2,
      CNT_loop_more cache_param env 2 3 (fuel + 2) s2 s3 rfl c3,
      CNT_loop_more cache_param env 3 4 (fuel + 1) s3 s4 rfl c4,
      CNT_loop_done cache_param env 4 fuel s4 s5 c5]
  obtain ⟨s', hreq, tr', -⟩ :=
    CNT_Request_of_loop_done cache_param env (fuel + 5) s s5 (Or.inr hs) hwid hloop ww5
  have hec : s2.req.err_code = ((env 1).vcl .purge).err_code.getD
      (((env 0).vcl .hash).err_code.getD (((env 0).vcl .recv).err_code.getD 0)) := by
    rw [ec2, ec1]
  refine ⟨s', s2.req.err_code,
    (if s2.req.err_code < 100 ∨ s2.req.err_code > 999 then 501 else s2.req.err_code),
    hreq, ?_, ?_, ?_, ?_, hec, rfl, ?_, ?_⟩
  · rw [tr', tr5, tr4, tr3, tr2, tr1]
    simp [steps_of, List.filterMap_append]
  · rw [tr', tr5, tr4, tr3, tr2, tr1]
    simp [lookups_of, List.filterMap_append]
  · rw [tr', tr5, tr4, tr3, tr2, tr1]
    simp [purges_of, List.filterMap_append]
  · rw [tr', tr5, tr4, tr3, tr2, tr1]
    simp [http_statuses, List.filterMap_append]
  · split <;> omega
  · intro h0
    rw [if_pos (by omega)]

/-- Witness of C19: when the `purge` hook sets the status 200, the purge run
writes the one status 200. -/
theorem CNT_Request_purge_witness :
    ∃ s', CNT_Request sample_params (fun _ => sample_purge (some 200)) (0 + 5)
          (sample_state R_STP_RECV) = Res.ok (REQ_FSM_DONE, s')
      ∧ steps_of s'.trace
          = [R_STP_RECV, R_STP_PURGE, R_STP_ERROR, R_STP_PREPRESP, R_STP_DELIVER]
      ∧ lookups_of s'.trace = [(true, true, HSH_MISS)]
      ∧ purges_of s'.trace = [some 7]
      ∧ http_statuses s'.trace = [200] := by
  obtain ⟨s', ec, status, h, h1, h2, h3, h4, h5, h6, -⟩ :=
    CNT_Request_purge sample_params (fun _ => sample_purge (some 200)) 0
      (sample_state R_STP_RECV) 1 sample_boc sample_obj
      rfl rfl rfl rfl rfl rfl rfl (by decide) rfl rfl rfl rfl rfl rfl rfl rfl rfl rfl rfl
      (by decide) (fun _ _ => (by decide : ws_clear (sample_purge (some 200)).aws)) rfl rfl
  have hec : ec = 200 := h5
  have hst : status = 200 := by rw [h6, hec]; decide
  rw [hst] at h4
  exact ⟨s', h, h1, h2, h3, h4⟩

/-! ## The framing bits of the response mode -/

theorem res_mode_rule_framing (hasbo he de : Bool) (el : Nat) (gs gz ag wb : Bool) (pv : Nat) :
    ((res_mode_rule hasbo he de el gs gz ag wb pv).len.toNat
        + (res_mode_rule hasbo he de el gs gz ag wb pv).chunked.toNat
        + (res_mode_rule hasbo he de el gs gz ag wb pv).eof.toNat ≤ 1)
    ∧ (wb = true →
        (res_mode_rule hasbo he de el gs gz ag wb pv).len.toNat
          + (res_mode_rule hasbo he de el gs gz ag wb pv).chunked.toNat
          + (res_mode_rule hasbo he de el gs gz ag wb pv).eof.toNat = 1)
    ∧ ((res_mode_rule hasbo he de el gs gz ag wb pv).len = true →
        (res_mode_rule hasbo he de el gs gz ag wb pv).esi = false
        ∧ (res_mode_rule hasbo he de el gs gz ag wb pv).esi_child = false
        ∧ (res_mode_rule hasbo he de el gs gz ag wb pv).gunzip = false) := by
  by_cases hl : el > 0 <;> by_cases hp : pv ≥ 11 <;>
    cases hasbo <;> cases he <;> cases de <;> cases gs <;> cases gz <;>
    cases ag <;> cases wb <;> simp [res_mode_rule, hl, hp]

/-- C24: the framing bits of `res_mode` are mutually exclusive.  (1) When the
choice of the response mode (lines 107-147 of `cnt_prepresp`) is made for a
request holding the object `o`, with no busyobj doing ESI, it ends, and in the
state it leaves: at most one of LEN, CHUNKED and EOF is set; exactly one is set
when `wantbody` is true; LEN set excludes ESI, ESI_CHILD and GUNZIP; `doclose`
is the TX_EOF reason when EOF is set and is what it was on entry when EOF is not
set.  (2) The same holds of the state in which `cnt_prepresp` returns, whatever
the verdict of `hook.deliver`. -/
theorem cnt_prepresp_framing (cache_param : params) (a : answers) (s : State) :
    (∀ o, s.req.obj = some o → (∀ b, s.req.busyobj = some b → b.do_esi = false) →
      ∃ s1, cnt_prepresp_res_mode cache_param a o s = Res.ok s1
        ∧ (test_bits s1.req.res_mode RES_LEN).toNat
            + (test_bits s1.req.res_mode RES_CHUNKED).toNat
            + (test_bits s1.req.res_mode RES_EOF).toNat ≤ 1
        ∧ (s.req.wantbody = true →
            (test_bits s1.req.res_mode RES_LEN).toNat
              + (test_bits s1.req.res_mode RES_CHUNKED).toNat
              + (test_bits s1.req.res_mode RES_EOF).toNat = 1)
        ∧ (test_bits s1.req.res_mode RES_LEN = true →
            test_bits s1.req.res_mode RES_ESI = false
            ∧ test_bits s1.req.res_mode RES_ESI_CHILD = false
            ∧ test_bits s1.req.res_mode RES_GUNZIP = false)
        ∧ (test_bits s1.req.res_mode RES_EOF = true → s1.req.doclose = some SC_TX_EOF)
        ∧ (test_bits s1.req.res_mode RES_EOF = false → s1.req.doclose = s.req.doclose))
    ∧ (∀ nxt s', cnt_prepresp cache_param a s = Res.ok (nxt, s') →
        (test_bits s'.req.res_mode RES_LEN).toNat
            + (test_bits s'.req.res_mode RES_CHUNKED).toNat
            + (test_bits s'.req.res_mode RES_EOF).toNat ≤ 1
        ∧ (s.req.wantbody = true →
            (test_bits s'.req.res_mode RES_LEN).toNat
              + (test_bits s'.req.res_mode RES_CHUNKED).toNat
              + (test_bits s'.req.res_mode RES_EOF).toNat = 1)
        ∧ (test_bits s'.req.res_mode RES_LEN = true →
            test_bits s'.req.res_mode RES_ESI = false
            ∧ test_bits s'.req.res_mode RES_ESI_CHILD = false
            ∧ test_bits s'.req.res_mode RES_GUNZIP = false)
        ∧ (test_bits s'.req.res_mode RES_EOF = true → s'.req.doclose = some SC_TX_EOF)
        ∧ (test_bits s'.req.res_mode RES_EOF = false → s'.req.doclose = s.req.doclose)) := by
  have main : ∀ o (m : Nat) (d : Option sess_close),
      m = (res_mode_of cache_param a o s).mask →
      d = (if (res_mode_of cache_param a o s).eof then some SC_TX_EOF else s.req.doclose) →
      (test_bits m RES_LEN).toNat + (test_bits m RES_CHUNKED).toNat
            + (test_bits m RES_EOF).toNat ≤ 1
        ∧ (s.req.wantbody = true →
            (test_bits m RES_LEN).toNat + (test_bits m RES_CHUNKED).toNat
              + (test_bits m RES_EOF).toNat = 1)
        ∧ (test_bits m RES_LEN = true →
            test_bits m RES_ESI = false ∧ test_bits m RES_ESI_CHILD = false
            ∧ test_bits m RES_GUNZIP = false)
        ∧ (test_bits m RES_EOF = true → d = some SC_TX_EOF)
        ∧ (test_bits m RES_EOF = false → d = s.req.doclose) := by
    intro o m d hm hd
    obtain ⟨t1, t2, t3, t4, t5, t6, -⟩ := res_flags_test (res_mode_of cache_param a o s)
    obtain ⟨f1, f2, f3⟩ := res_mode_rule_framing s.req.busyobj.isSome o.esidata.isSome
      s.req.disable_esi s.req.esi_level cache_param.http_gzip_support o.gziped
      a.RFC2616_Req_Gzip s.req.wantbody s.req.http.protover
    rw [hm, t1, t2, t3, t4, t5, t6, hd]
    refine ⟨f1, f2, f3, ?_, ?_⟩
    · intro he; rw [he]; rfl
    · intro he; rw [he]; rfl
  refine ⟨?_, ?_⟩
  · intro o _ hbo
    refine ⟨_, cnt_prepresp_res_mode_eq cache_param a o s hbo, ?_⟩
    exact main o _ _ rfl rfl
  · intro nxt s' h
    obtain ⟨o, s1, ho, hs1, hm, hd⟩ := cnt_prepresp_frame cache_param a s _ h
    by_cases hesi : ∃ b, s.req.busyobj = some b ∧ b.do_esi = true
    · obtain ⟨b, hb, hbe⟩ := hesi
      rw [cnt_prepresp_res_mode_abort cache_param a o s b hb hbe] at hs1
      cases hs1
    · have hbo : ∀ b, s.req.busyobj = some b → b.do_esi = false := by
        intro b hb
        cases hbe : b.do_esi with
        | false => rfl
        | true => exact absurd ⟨b, hb, hbe⟩ hesi
      rw [cnt_prepresp_res_mode_eq cache_param a o s hbo] at hs1
      simp only [Res.ok.injEq] at hs1
      subst hs1
      exact main o _ _ hm hd

/-- Witness of C24: an HTTP/1.0 client without gzip asking for a gzipped object:
EOF is the one framing bit set and `doclose` is the TX_EOF reason. -/
theorem cnt_prepresp_framing_witness :
    ∃ s1, cnt_prepresp_res_mode sample_params
          { sample_answers VCL_RET_HASH VCL_RET_DELIVER sample_hit sample_alloc with
            RFC2616_Req_Gzip := false }
          { sample_obj with gziped := true }
          { sample_state R_STP_PREPRESP with
            req := { sample_req R_STP_PREPRESP with
              obj := some { sample_obj with gziped := true },
              http := { method := "GET", protover := 10, accept_encoding := none } } }
        = Res.ok s1
      ∧ test_bits s1.req.res_mode RES_EOF = true
      ∧ test_bits s1.req.res_mode RES_LEN = false
      ∧ test_bits s1.req.res_mode RES_CHUNKED = false
      ∧ s1.req.doclose = some SC_TX_EOF := by
  obtain ⟨s1, h1, -, h3, -, h5, -⟩ := (cnt_prepresp_framing sample_params
    { sample_answers VCL_RET_HASH VCL_RET_DELIVER sample_hit sample_alloc with
      RFC2616_Req_Gzip := false }
    { sample_state R_STP_PREPRESP with
      req := { sample_req R_STP_PREPRESP with
        obj := some { sample_obj with gziped := true },
        http := { method := "GET", protover := 10, accept_encoding := none } } }).1
    { sample_obj with gziped := true } rfl (fun _ hb => nomatch hb)
  cases h1
  exact ⟨_, rfl, by decide, by decide, by decide, by decide⟩

/-! ## Cleanup on leaving LOOKUP -/

/-- Counterexample to C22 as stated: a warm hit that comes without a `boc` and
that `hook.lookup` delivers.  The path is neither "DELIVER with a boc" nor
FETCH, and the handler returns holding the object: `obj` is not null. -/
theorem cnt_lookup_cleanup_counterexample :
    ∃ s', cnt_lookup sample_params
          (sample_answers VCL_RET_HASH VCL_RET_DELIVER sample_hit sample_alloc)
          (sample_state R_STP_LOOKUP) = Res.ok (REQ_FSM_MORE, s')
      ∧ sample_hit.lr = HSH_HIT ∧ sample_hit.oc = some sample_oc
      ∧ test_bits sample_oc.flags OC_F_PASS = false
      ∧ sample_hit.boc = none
      ∧ ((sample_answers VCL_RET_HASH VCL_RET_DELIVER sample_hit sample_alloc).vcl
          .lookup).handling = VCL_RET_DELIVER
      ∧ s'.req.req_step = R_STP_PREPRESP
      ∧ s'.req.obj = some sample_obj
      ∧ s'.req.obj ≠ none :=
  ⟨_, rfl, rfl, rfl, by decide, rfl, rfl, rfl, rfl, by decide⟩

theorem cnt_lookup_hit_entry (k : params) (a : answers) (s : State) (c : objcore)
    (r : req_fsm_nxt × State)
    (hlr : a.HSH_Lookup.lr = HSH_HIT) (hc : a.HSH_Lookup.oc = some c)
    (hpass : test_bits c.flags OC_F_PASS = false)
    (h : cnt_lookup k a s = Res.ok r) :
    s.req.objcore = none ∧ s.req.busyobj = none ∧ test_bits c.flags OC_F_BUSY = false
    ∧ (∃ oh, c.objhead = some oh) ∧ (∃ o, a.oc_getobj = some o)
    ∧ (∀ b, a.HSH_Lookup.boc = some b → test_bits b.flags OC_F_BUSY = true) := by
  have hoc : s.req.objcore = none := by
    cases hx : s.req.objcore with
    | none => rfl
    | some x => simp [cnt_lookup, hx] at h
  have hbo : s.req.busyobj = none := by
    cases hx : s.req.busyobj with
    | none => rfl
    | some x => simp [cnt_lookup, hoc, hx] at h
  have hboc : ∀ b, a.HSH_Lookup.boc = some b → test_bits b.flags OC_F_BUSY = true := by
    intro b hb
    cases hx : test_bits b.flags OC_F_BUSY with
    | true => rfl
    | false => simp [cnt_lookup, emit, hoc, hbo, hlr, hb, hx] at h
  have hbusy : test_bits c.flags OC_F_BUSY = false := by
    cases hx : test_bits c.flags OC_F_BUSY with
    | false => rfl
    | true =>
      cases hb : a.HSH_Lookup.boc with
      | none => simp [cnt_lookup, emit, hoc, hbo, hlr, hc, hb, hx] at h
      | some b => simp [cnt_lookup, emit, hoc, hbo, hlr, hc, hb, hboc b hb, hx] at h
  have hoh : ∃ oh, c.objhead = some oh := by
    cases hx : c.objhead with
    | some oh => exact ⟨oh, rfl⟩
    | none =>
      cases hb : a.HSH_Lookup.boc with
      | none =>
        simp [cnt_lookup, cnt_lookup_hit, emit, hoc, hbo, hlr, hc, hb, hbusy, hpass, hx] at h
      | some b =>
        simp [cnt_lookup, cnt_lookup_hit, emit, hoc, hbo, hlr, hc, hb, hboc b hb, hbusy, hpass,
          hx] at h
  have ho : ∃ o, a.oc_getobj = some o := by
    obtain ⟨oh, hoh⟩ := hoh
    cases hx : a.oc_getobj with
    | some o => exact ⟨o, rfl⟩
    | none =>
      cases hb : a.HSH_Lookup.boc with
      | none =>
        simp [cnt_lookup, cnt_lookup_hit, emit, hoc, hbo, hlr, hc, hb, hbusy, hpass, hoh, hx] at h
      | some b =>
        simp [cnt_lookup, cnt_lookup_hit, emit, hoc, hbo, hlr, hc, hb, hboc b hb, hbusy, hpass,
          hoh, hx] at h
  exact ⟨hoc, hbo, hbusy, hoh, ho, hboc⟩

theorem cnt_lookup_hit_verdict (k : params) (a : answers) (s : State) (c : objcore)
    (r : req_fsm_nxt × State)
    (hlr : a.HSH_Lookup.lr = HSH_HIT) (hc : a.HSH_Lookup.oc = some c)
    (hpass : test_bits c.flags OC_F_PASS = false)
    (h : cnt_lookup k a s = Res.ok r)
    (hd : (a.vcl .lookup).handling ≠ VCL_RET_DELIVER)
    (hf : (a.vcl .lookup).handling ≠ VCL_RET_FETCH) :
    (a.vcl .lookup).handling = VCL_RET_RESTART ∨ (a.vcl .lookup).handling = VCL_RET_ERROR
      ∨ (a.vcl .lookup).handling = VCL_RET_PASS := by
  obtain ⟨hoc, hbo, hbusy, ⟨oh, hoh⟩, ⟨o, ho⟩, hboc⟩ :=
    cnt_lookup_hit_entry k a s c r hlr hc hpass h
  cases hb : a.HSH_Lookup.boc with
  | none =>
    cases hv : (a.vcl .lookup).handling <;>
      simp_all [cnt_lookup, cnt_lookup_hit, emit, VCL_method]
  | some b =>
    have hbb := hboc b hb
    cases hv : (a.vcl .lookup).handling <;>
      simp_all [cnt_lookup, cnt_lookup_hit, emit, VCL_method]

theorem cnt_lookup_drop_run (k : params) (a : answers) (s : State) (c : objcore) (oh : Nat)
    (o : object)
    (hoc : s.req.objcore = none) (hbo : s.req.busyobj = none)
    (hlr : a.HSH_Lookup.lr = HSH_HIT) (hc : a.HSH_Lookup.oc = some c)
    (hbusy : test_bits c.flags OC_F_BUSY = false)
    (hpass : test_bits c.flags OC_F_PASS = false)
    (hoh : c.objhead = some oh) (ho : a.oc_getobj = some o)
    (hboc : ∀ b, a.HSH_Lookup.boc = some b → test_bits b.flags OC_F_BUSY = true)
    (hv : (a.vcl .lookup).handling = VCL_RET_RESTART ∨ (a.vcl .lookup).handling = VCL_RET_ERROR
      ∨ (a.vcl .lookup).handling = VCL_RET_PASS) :
    ∃ s', cnt_lookup k a s = Res.ok (REQ_FSM_MORE, s')
      ∧ s'.req.obj = none ∧ s'.req.objcore = none
      ∧ s'.trace = s.trace ++
          [Event.VRY_Prep,
           Event.HSH_Lookup (s.req.esi_level == 0) s.req.hash_always_miss HSH_HIT,
           Event.VRY_Finish a.HSH_Lookup.boc.isSome,
           Event.oc_getobj c, Event.VCL .lookup, Event.HSH_Deref_obj o]
          ++ (match a.HSH_Lookup.boc with
              | some b => [Event.HSH_Deref_oc b, Event.free_vary_b]
              | none => [])
      ∧ (a.HSH_Lookup.boc ≠ none → s'.req.vary_b = none)
      ∧ (a.HSH_Lookup.boc = none → s'.req.vary_b = s.req.vary_b) := by
  cases hb : a.HSH_Lookup.boc with
  | none =>
    rcases hv with hv | hv | hv <;>
      simp [cnt_lookup, cnt_lookup_hit, cnt_lookup_drop, emit, VCL_method, HSH_Deref_obj, hoc,
        hbo, hlr, hc, hbusy, hpass, hoh, ho, hb, hv]
  | some b =>
    have hbb := hboc b hb
    rcases hv with hv | hv | hv <;>
      simp [cnt_lookup, cnt_lookup_hit, cnt_lookup_drop, emit, VCL_method, HSH_Deref_obj, hoc,
        hbo, hlr, hc, hbusy, hpass, hoh, ho, hb, hbb, hv]

/-- C22, amended: cleanup on leaving LOOKUP.  The index answers a hit on `c`,
which does not carry PASS (an ordinary hit).  (1) On every path on which
`cnt_lookup` returns and the verdict of `hook.lookup` is neither DELIVER nor
FETCH, the verdict is RESTART, ERROR or PASS, the handler returns MORE, `obj`
and `objcore` are null, the calls made are `VRY_Prep`, the lookup,
`VRY_Finish`, `oc_getobj`, the hook, the deref of the object and, if the lookup
returned a `boc`, the deref of that `boc` and the release of the variance
buffer, after which `vary_b` is null; without a `boc` the variance buffer is
left alone.  (2) Such a path exists for each of the three verdicts: entered
with `objcore` and `busyobj` null, `c` not busy and hanging on an objhead, the
object materialised and a `boc`, if any, busy, the handler returns. -/
theorem cnt_lookup_cleanup (cache_param : params) (a : answers) (s : State) (c : objcore)
    (hlr : a.HSH_Lookup.lr = HSH_HIT) (hc : a.HSH_Lookup.oc = some c)
    (hpass : test_bits c.flags OC_F_PASS = false) :
    (∀ nxt s', cnt_lookup cache_param a s = Res.ok (nxt, s') →
      (a.vcl .lookup).handling ≠ VCL_RET_DELIVER →
      (a.vcl .lookup).handling ≠ VCL_RET_FETCH →
      ((a.vcl .lookup).handling = VCL_RET_RESTART ∨ (a.vcl .lookup).handling = VCL_RET_ERROR
          ∨ (a.vcl .lookup).handling = VCL_RET_PASS)
        ∧ nxt = REQ_FSM_MORE ∧ s'.req.obj = none ∧ s'.req.objcore = none
        ∧ (∃ o, a.oc_getobj = some o
            ∧ s'.trace = s.trace ++
                [Event.VRY_Prep,
                 Event.HSH_Lookup (s.req.esi_level == 0) s.req.hash_always_miss HSH_HIT,
                 Event.VRY_Finish a.HSH_Lookup.boc.isSome,
                 Event.oc_getobj c, Event.VCL .lookup, Event.HSH_Deref_obj o]
                ++ (match a.HSH_Lookup.boc with
                    | some b => [Event.HSH_Deref_oc b, Event.free_vary_b]
                    | none => []))
        ∧ (a.HSH_Lookup.boc ≠ none → s'.req.vary_b = none)
        ∧ (a.HSH_Lookup.boc = none → s'.req.vary_b = s.req.vary_b))
    ∧ (∀ oh o, s.req.objcore = none → s.req.busyobj = none →
        test_bits c.flags OC_F_BUSY = false → c.objhead = some oh → a.oc_getobj = some o →
        (∀ b, a.HSH_Lookup.boc = some b → test_bits b.flags OC_F_BUSY = true) →
        ((a.vcl .lookup).handling = VCL_RET_RESTART ∨ (a.vcl .lookup).handling = VCL_RET_ERROR
          ∨ (a.vcl .lookup).handling = VCL_RET_PASS) →
        ∃ s', cnt_lookup cache_param a s = Res.ok (REQ_FSM_MORE, s')) := by
  refine ⟨?_, ?_⟩
  · intro nxt s' h hd hf
    obtain ⟨hoc, hbo, hbusy, ⟨oh, hoh⟩, ⟨o, ho⟩, hboc⟩ :=
      cnt_lookup_hit_entry cache_param a s c _ hlr hc hpass h
    have hv := cnt_lookup_hit_verdict cache_param a s c _ hlr hc hpass h hd hf
    obtain ⟨s1, e, h1, h2, h3, h4, h5⟩ :=
      cnt_lookup_drop_run cache_param a s c oh o hoc hbo hlr hc hbusy hpass hoh ho hboc hv
    rw [e] at h
    simp only [Res.ok.injEq, Prod.mk.injEq] at h
    obtain ⟨rfl, rfl⟩ := h
    exact ⟨hv, rfl, h1, h2, ⟨o, ho, h3⟩, h4, h5⟩
  · intro oh o hoc hbo hbusy hoh ho hboc hv
    obtain ⟨s1, e, -⟩ :=
      cnt_lookup_drop_run cache_param a s c oh o hoc hbo hlr hc hbusy hpass hoh ho hboc hv
    exact ⟨s1, e⟩

/-- Witness of C22: a hit that comes with a busy `boc` and that `hook.lookup`
wants restarted: the object and the `boc` are let go. -/
theorem cnt_lookup_cleanup_witness :
    ∃ s', cnt_lookup sample_params
          (sample_answers VCL_RET_HASH VCL_RET_RESTART sample_hit_boc sample_alloc)
          (sample_state R_STP_LOOKUP) = Res.ok (REQ_FSM_MORE, s')
      ∧ s'.req.obj = none ∧ s'.req.objcore = none ∧ s'.req.vary_b = none
      ∧ s'.trace =
          [Event.VRY_Prep, Event.HSH_Lookup true false HSH_HIT, Event.VRY_Finish true,
           Event.oc_getobj sample_oc, Event.VCL .lookup, Event.HSH_Deref_obj sample_obj,
           Event.HSH_Deref_oc sample_boc, Event.free_vary_b] := by
  have h := cnt_lookup_cleanup sample_params
    (sample_answers VCL_RET_HASH VCL_RET_RESTART sample_hit_boc sample_alloc)
    (sample_state R_STP_LOOKUP) sample_oc rfl rfl (by decide)
  obtain ⟨s', hs'⟩ := h.2 7 sample_obj rfl rfl (by decide) rfl rfl
    (fun b hb => by cases hb; decide) (Or.inl rfl)
  obtain ⟨-, -, h1, h2, ⟨o, ho, h3⟩, h4, -⟩ := h.1 _ _ hs' (by decide) (by decide)
  cases ho
  exact ⟨s', hs', h1, h2, h4 (by decide), h3⟩

/-! ## Total correctness: the rules -/

theorem tot_ok {α : Type} (r : α) (P : α → Prop) : (Res.ok r).tot P ↔ P r := Iff.rfl

theorem tot_abort {α : Type} (P : α → Prop) : (Res.abort : Res α).tot P ↔ True := Iff.rfl

theorem tot_hang {α : Type} (P : α → Prop) : (Res.hang : Res α).tot P ↔ False := Iff.rfl

theorem tot_nofuel {α : Type} (P : α → Prop) : (Res.nofuel : Res α).tot P ↔ False := Iff.rfl

theorem tot_bind {α β : Type} (x : Res α) (f : α → Res β) (P : β → Prop) :
    (x >>= f).tot P ↔ x.tot (fun r => (f r).tot P) := by
  cases x <;> simp [Res.tot]

theorem tot_AZ (b : Bool) (P : Unit → Prop) : (AZ b).tot P ↔ (b = false → P ()) := by
  cases b <;> simp [tot_ok, tot_abort]

theorem tot_AN (b : Bool) (P : Unit → Prop) : (AN b).tot P ↔ (b = true → P ()) := by
  cases b <;> simp [tot_ok, tot_abort]

theorem tot_assert (b : Bool) (P : Unit → Prop) : (assert b).tot P ↔ (b = true → P ()) := by
  cases b <;> simp [tot_ok, tot_abort]

theorem tot_ite {α : Type} (c : Prop) [Decidable c] (x y : Res α) (P : α → Prop) :
    (if c then x else y).tot P ↔ (c → x.tot P) ∧ (¬ c → y.tot P) := by
  by_cases h : c <;> simp [h]

theorem tot_mono {α : Type} {x : Res α} {P Q : α → Prop} (h : x.tot P)
    (hPQ : ∀ r, P r → Q r) : x.tot Q := by
  cases x with
  | ok r => exact hPQ r h
  | abort => trivial
  | hang => exact h
  | nofuel => exact h

theorem tot_sat {α : Type} {x : Res α} {P : α → Prop} (h : x.tot P) : x.sat P := by
  intro r hr
  subst hr
  exact h

theorem tot_of_ok {α : Type} {x : Res α} {P : α → Prop} {r : α} (h : x.tot P)
    (hr : x = Res.ok r) : P r := tot_sat h r hr

theorem tot_cases {α : Type} {x : Res α} {P : α → Prop} (h : x.tot P) :
    x = Res.abort ∨ ∃ r, x = Res.ok r ∧ P r := by
  cases x with
  | ok r => exact Or.inr ⟨r, rfl, h⟩
  | abort => exact Or.inl rfl
  | hang => exact h.elim
  | nofuel => exact h.elim

theorem tot_and {α : Type} {x : Res α} {P Q : α → Prop} (h : x.tot P) (hs : x.sat Q) :
    x.tot (fun r => P r ∧ Q r) := by
  cases x with
  | ok r => exact ⟨h, hs r rfl⟩
  | abort => trivial
  | hang => exact h
  | nofuel => exact h

theorem steps_of_append (t l : List Event) : steps_of (t ++ l) = steps_of t ++ steps_of l := by
  simp [steps_of, List.filterMap_append]

/-! ## The edges of the state graph -/

theorem steps_of_nil : steps_of [] = [] := rfl

theorem steps_of_cons (e : Event) (l : List Event) (h : ∀ u, e ≠ Event.step u) :
    steps_of (e :: l) = steps_of l := by
  cases e <;> simp_all [steps_of]

theorem steps_of_cons_step (u : req_step) (l : List Event) :
    steps_of (Event.step u :: l) = u :: steps_of l := by
  simp [steps_of]

theorem VCL_method_trace (a : answers) (m : vcl_method) (s : State) :
    (VCL_method a m s).trace = s.trace ++ [Event.VCL m] := rfl

theorem VBO_DerefBusyObj_trace (s : State) :
    (VBO_DerefBusyObj s).trace = s.trace ++ [Event.VBO_DerefBusyObj] := rfl

theorem VBO_DerefBusyObj_restarts (s : State) :
    (VBO_DerefBusyObj s).req.restarts = s.req.restarts := rfl

theorem HSH_Deref_obj_restarts (s : State) :
    (HSH_Deref_obj s).req.restarts = s.req.restarts := rfl

theorem HSH_Drop_restarts (s : State) : (HSH_Drop s).req.restarts = s.req.restarts := rfl

theorem steps_of_emit (e : Event) (s : State) (h : ∀ u, e ≠ Event.step u) :
    steps_of (emit e s).trace = steps_of s.trace := by
  cases e <;> simp_all [steps_of, emit, List.filterMap_append]

theorem steps_of_VCL_method (a : answers) (m : vcl_method) (s : State) :
    steps_of (VCL_method a m s).trace = steps_of s.trace := by
  simp [steps_of, VCL_method, List.filterMap_append]

theorem steps_of_VBO_DerefBusyObj (s : State) :
    steps_of (VBO_DerefBusyObj s).trace = steps_of s.trace := by
  simp [steps_of, VBO_DerefBusyObj, List.filterMap_append]

theorem steps_of_HSH_Deref_obj (s : State) :
    steps_of (HSH_Deref_obj s).trace = steps_of s.trace := by
  cases h : s.req.obj <;> simp [steps_of, HSH_Deref_obj, List.filterMap_append, h]

theorem steps_of_HSH_Drop (s : State) :
    steps_of (HSH_Drop s).trace = steps_of s.trace := by
  cases h : s.req.obj <;> simp [steps_of, HSH_Drop, List.filterMap_append, h]

theorem cnt_recv_edge (k : params) (a : answers) (s : State) :
    (cnt_recv k a s).tot (fun r =>
      steps_of r.2.trace = steps_of s.trace ∧ r.1 = REQ_FSM_MORE
      ∧ r.2.req.restarts = s.req.restarts
      ∧ (r.2.req.req_step = R_STP_ERROR ∨ r.2.req.req_step = R_STP_PURGE
          ∨ r.2.req.req_step = R_STP_LOOKUP ∨ r.2.req.req_step = R_STP_PIPE
          ∨ r.2.req.req_step = R_STP_PASS)) := by
  simp only [cnt_recv, tot_bind, tot_AZ, tot_AN, tot_assert, tot_ite, tot_ok]
  intro _ _ _ _
  refine ⟨fun _ => by simp, fun _ _ _ _ => ?_⟩
  split <;> simp [tot_ok, tot_abort, tot_ite, steps_of_VCL_method]

theorem cnt_pipe_edge (k : params) (a : answers) (s : State) :
    (cnt_pipe k a s).tot (fun r =>
      steps_of r.2.trace = steps_of s.trace ∧ r.1 = REQ_FSM_DONE) := by
  simp [cnt_pipe, tot_bind, tot_AZ, tot_AN, tot_assert, tot_ite, tot_ok, tot_abort,
    steps_of_VBO_DerefBusyObj, steps_of_VCL_method, steps_of_emit, steps_of_append, steps_of_cons, steps_of_nil]

theorem cnt_pass_edge (k : params) (a : answers) (s : State) :
    (cnt_pass k a s).tot (fun r =>
      steps_of r.2.trace = steps_of s.trace ∧ r.1 = REQ_FSM_MORE
      ∧ r.2.req.restarts = s.req.restarts
      ∧ (r.2.req.req_step = R_STP_ERROR
          ∨ (r.2.req.req_step = R_STP_FETCH ∧ r.2.req.busyobj = some a.VBF_Fetch))) := by
  simp [cnt_pass, tot_bind, tot_AZ, tot_AN, tot_assert, tot_ite, tot_ok, tot_abort,
    steps_of_VCL_method, steps_of_emit, steps_of_append, steps_of_cons, steps_of_nil]

theorem cnt_restart_edge (k : params) (a : answers) (s : State) :
    (cnt_restart k a s).tot (fun r =>
      steps_of r.2.trace = steps_of s.trace ∧ r.1 = REQ_FSM_MORE
      ∧ r.2.req.restarts = s.req.restarts + 1
      ∧ ((r.2.req.req_step = R_STP_ERROR ∧ k.max_restarts ≤ s.req.restarts + 1)
          ∨ (r.2.req.req_step = R_STP_RECV ∧ s.req.restarts + 1 < k.max_restarts))) := by
  simp only [cnt_restart, tot_ite, tot_ok]
  refine ⟨fun h => ?_, fun h => ?_⟩
  · simp only [ge_iff_le] at h
    simp [h]
  · simp only [ge_iff_le, not_le] at h
    simp [h]

theorem cnt_purge_edge (k : params) (a : answers) (s : State) :
    (cnt_purge k a s).tot (fun r =>
      steps_of r.2.trace = steps_of s.trace ∧ r.1 = REQ_FSM_MORE
      ∧ r.2.req.restarts = s.req.restarts ∧ r.2.req.req_step = R_STP_ERROR) := by
  simp only [cnt_purge, tot_bind, tot_AZ, tot_AN, tot_assert, tot_ite, tot_ok, tot_abort]
  intros
  split <;> simp [tot_bind, tot_AZ, tot_ok, tot_abort, steps_of_VCL_method, steps_of_emit, steps_of_append, steps_of_cons, steps_of_nil]

theorem cnt_miss_edge (k : params) (a : answers) (s : State) :
    (cnt_miss k a s).tot (fun r =>
      steps_of r.2.trace = steps_of s.trace ∧ r.1 = REQ_FSM_MORE
      ∧ r.2.req.restarts = s.req.restarts
      ∧ (r.2.req.req_step = R_STP_ERROR ∨ r.2.req.req_step = R_STP_RESTART
          ∨ r.2.req.req_step = R_STP_PASS
          ∨ (r.2.req.req_step = R_STP_FETCH ∧ r.2.req.busyobj = some a.VBF_Fetch))) := by
  simp only [cnt_miss]
  split
  · simp [tot_abort]
  · simp only [tot_bind, tot_AZ]
    intros
    split <;> (try simp only [cnt_miss_release]) <;> (try split) <;>
      simp [tot_bind, tot_AZ, tot_ok, tot_abort, steps_of_VCL_method, steps_of_emit, steps_of_append, steps_of_cons, steps_of_nil]

theorem cnt_fetch_edge (k : params) (a : answers) (s : State)
    (hover : ∀ b, s.req.busyobj = some b → fetch_over b) :
    (cnt_fetch k a s).tot (fun r =>
      steps_of r.2.trace = steps_of s.trace ∧ r.1 = REQ_FSM_MORE
      ∧ r.2.req.restarts = s.req.restarts
      ∧ (r.2.req.req_step = R_STP_ERROR
          ∨ (r.2.req.req_step = R_STP_PREPRESP ∧ r.2.req.busyobj = none))) := by
  simp only [cnt_fetch]
  split
  · simp [tot_abort]
  · rename_i bo hb
    have h := hover bo hb
    unfold fetch_over at h
    have h' : ¬ bo.state.toNat < BOS_FAILED.toNat := by omega
    simp [tot_bind, tot_AZ, tot_AN, tot_assert, tot_ite, tot_ok, tot_abort, tot_hang,
      steps_of_VBO_DerefBusyObj, VBO_DerefBusyObj_restarts, h']

theorem cnt_deliver_edge (k : params) (a : answers) (s : State)
    (hbo : s.req.busyobj = none) :
    (cnt_deliver k a s).tot (fun r =>
      steps_of r.2.trace = steps_of s.trace ∧ r.1 = REQ_FSM_DONE) := by
  simp only [cnt_deliver, cnt_deliver_write, hbo]
  split
  · simp [tot_abort]
  · simp [tot_bind, tot_AZ, tot_assert, tot_ok, hbo, steps_of_HSH_Deref_obj, steps_of_append,
      emit, RES_WriteObj]
    split <;> simp [steps_of]


theorem cnt_lookup_edge (k : params) (a : answers) (s : State) :
    (cnt_lookup k a s).tot (fun r =>
      steps_of r.2.trace = steps_of s.trace
      ∧ (r.1 = REQ_FSM_MORE ∨ r.1 = REQ_FSM_DISEMBARK)
      ∧ r.2.req.restarts = s.req.restarts
      ∧ (r.1 = REQ_FSM_MORE →
          (r.2.req.req_step = R_STP_MISS ∧ r.2.req.objcore = a.HSH_Lookup.boc
              ∧ r.2.req.busyobj = none ∧ (s.req.obj = none → r.2.req.obj = none)
              ∧ (∀ b, a.HSH_Lookup.boc = some b → test_bits b.flags OC_F_BUSY = true)
              ∧ (a.HSH_Lookup.lr = HSH_MISS → a.HSH_Lookup.boc ≠ none)
              ∧ (a.HSH_Lookup.lr ≠ HSH_MISS → (a.vcl .lookup).handling = VCL_RET_FETCH))
          ∨ r.2.req.req_step = R_STP_PASS
          ∨ (r.2.req.req_step = R_STP_PREPRESP ∧ r.2.req.busyobj = none)
          ∨ r.2.req.req_step = R_STP_RESTART
          ∨ r.2.req.req_step = R_STP_ERROR)) := by
  simp only [cnt_lookup, tot_bind, tot_AZ, tot_AN, tot_assert, tot_ite, tot_ok]
  intro _ hbo _
  have hbo : s.req.busyobj = none := by
    cases hx : s.req.busyobj with
    | none => rfl
    | some x => simp [hx] at hbo
  refine ⟨fun _ => by simp [steps_of_emit, steps_of_VCL_method, steps_of_HSH_Deref_obj, steps_of_append, steps_of_cons, steps_of_nil], fun _ => ?_⟩
  have hfin : (match a.HSH_Lookup.boc with
      | none => Res.ok (emit (Event.VRY_Finish false)
          (emit (Event.HSH_Lookup (s.req.esi_level == 0) s.req.hash_always_miss a.HSH_Lookup.lr)
            (emit Event.VRY_Prep s)))
      | some b => do
        AN (test_bits b.flags OC_F_BUSY)
        Res.ok (emit (Event.VRY_Finish true)
          (emit (Event.HSH_Lookup (s.req.esi_level == 0) s.req.hash_always_miss a.HSH_Lookup.lr)
            (emit Event.VRY_Prep s)))).tot (fun s1 =>
        s1.req = s.req ∧ steps_of s1.trace = steps_of s.trace
        ∧ ∀ b, a.HSH_Lookup.boc = some b → test_bits b.flags OC_F_BUSY = true) := by
    split
    · rename_i hb
      simp [tot_ok, hb, steps_of_emit, steps_of_VCL_method, steps_of_HSH_Deref_obj, steps_of_append, steps_of_cons, steps_of_nil]
    · rename_i b hb
      simp only [tot_bind, tot_AN, tot_ok]
      intro hbb
      refine ⟨rfl, by simp [steps_of_emit, steps_of_VCL_method, steps_of_HSH_Deref_obj, steps_of_append, steps_of_cons, steps_of_nil], ?_⟩
      intro b' hb'
      rw [hb] at hb'
      cases hb'
      exact hbb
  refine tot_mono hfin ?_
  intro s1 ⟨e1, e2, e3⟩
  intro _
  refine ⟨fun hm _ => ?_, fun hm => ?_⟩
  · split
    · simp [tot_abort]
    · rename_i b hb
      simp only [tot_bind, tot_AN, tot_ok]
      intro _
      simp only [beq_iff_eq] at hm
      have hbb := e3 b hb
      simp [e1, e2, hb, hbo, hm, hbb]
  · simp only [beq_iff_eq] at hm
    split
    · simp [tot_abort]
    · simp only [tot_bind, tot_AZ, tot_ite, tot_ok]
      intro _ _ _
      refine ⟨fun _ _ => by simp [e1, e2, steps_of_emit, steps_of_VCL_method, steps_of_HSH_Deref_obj, steps_of_append, steps_of_cons, steps_of_nil], fun _ => ?_⟩
      simp only [cnt_lookup_hit]
      split
      · simp [tot_abort]
      · simp only [tot_bind, tot_AZ]
        intro _
        split
        · simp [tot_abort]
        · cases hb : a.HSH_Lookup.boc <;> split <;>
            (rename_i hv
             simp only [VCL_method_handling] at hv
             simp [cnt_lookup_drop, tot_ok, tot_abort, e1, e2, e3, hbo, hm, steps_of_emit,
               steps_of_VCL_method, steps_of_HSH_Deref_obj, steps_of_append, steps_of_cons,
               steps_of_nil, HSH_Deref_obj_restarts, hb, hv])


theorem cnt_prepresp_res_mode_trace (k : params) (a : answers) (o : object) (s s1 : State)
    (h : cnt_prepresp_res_mode k a o s = Res.ok s1) : s1.trace = s.trace := by
  by_cases hesi : ∃ b, s.req.busyobj = some b ∧ b.do_esi = true
  · obtain ⟨b, hb, hbe⟩ := hesi
    rw [cnt_prepresp_res_mode_abort k a o s b hb hbe] at h
    cases h
  · have hbo : ∀ b, s.req.busyobj = some b → b.do_esi = false := by
      intro b hb
      cases hbe : b.do_esi with
      | false => rfl
      | true => exact absurd ⟨b, hb, hbe⟩ hesi
    rw [cnt_prepresp_res_mode_eq k a o s hbo] at h
    simp only [Res.ok.injEq] at h
    subst h
    rfl

theorem cnt_prepresp_res_mode_ends (k : params) (a : answers) (o : object) (s : State) :
    (cnt_prepresp_res_mode k a o s).tot (fun _ => True) := by
  by_cases hesi : ∃ b, s.req.busyobj = some b ∧ b.do_esi = true
  · obtain ⟨b, hb, hbe⟩ := hesi
    rw [cnt_prepresp_res_mode_abort k a o s b hb hbe]
    trivial
  · have hbo : ∀ b, s.req.busyobj = some b → b.do_esi = false := by
      intro b hb
      cases hbe : b.do_esi with
      | false => rfl
      | true => exact absurd ⟨b, hb, hbe⟩ hesi
    rw [cnt_prepresp_res_mode_eq k a o s hbo]
    trivial

theorem cnt_prepresp_steps (k : params) (a : answers) (s : State) :
    (cnt_prepresp k a s).tot (fun r => steps_of r.2.trace = steps_of s.trace) := by
  simp only [cnt_prepresp]
  split
  · simp [tot_abort]
  · rename_i o _
    simp only [tot_bind]
    refine tot_mono (tot_and (cnt_prepresp_res_mode_ends k a o s)
      (fun s1 hs1 => cnt_prepresp_res_mode_trace k a o s s1 hs1)) ?_
    intro s1 ⟨_, e1⟩
    split
    · simp [tot_ok, e1, steps_of_VCL_method]
    · simp only [tot_ite, tot_bind]
      refine ⟨fun _ => by simp [tot_ok, e1, steps_of_VCL_method], fun _ => ?_⟩
      split
      · simp [tot_bind, tot_AN, tot_assert, tot_AZ, tot_ok, e1, steps_of_VCL_method,
          steps_of_VBO_DerefBusyObj]
      · simp [tot_bind, tot_AZ, tot_ok, e1, steps_of_VCL_method, steps_of_HSH_Deref_obj]
    · simp [tot_abort]

theorem cnt_prepresp_edge (k : params) (a : answers) (s : State) :
    (cnt_prepresp k a s).tot (fun r =>
      steps_of r.2.trace = steps_of s.trace ∧ r.1 = REQ_FSM_MORE
      ∧ r.2.req.restarts = s.req.restarts
      ∧ ((r.2.req.req_step = R_STP_RESTART ∧ s.req.restarts < k.max_restarts)
          ∨ (r.2.req.req_step = R_STP_DELIVER ∧ r.2.req.busyobj = s.req.busyobj))) :=
  tot_mono (tot_and (cnt_prepresp_steps k a s) (cnt_prepresp_restarts k a s))
    (fun _ h => ⟨h.1, h.2.2.1, h.2.1, h.2.2.2⟩)

theorem cnt_error_dispatch_steps (k : params) (a : answers) (t : State) :
    (cnt_error_dispatch k a t).tot (fun r => steps_of r.2.trace = steps_of t.trace) := by
  simp only [cnt_error_dispatch, tot_ite, tot_bind, tot_assert, tot_ok]
  refine ⟨fun _ => ?_, fun _ _ => ?_⟩
  · simp [steps_of_VBO_DerefBusyObj, steps_of_HSH_Drop, steps_of_VCL_method]
  · simp [steps_of_VBO_DerefBusyObj, steps_of_VCL_method]

theorem cnt_error_steps (k : params) (a : answers) (s : State) :
    (cnt_error k a s).tot (fun r => steps_of r.2.trace = steps_of s.trace) := by
  cases hoc : s.req.objcore with
  | some _ => simp [cnt_error, hoc, tot_abort]
  | none =>
  cases hobj : s.req.obj with
  | some _ => simp [cnt_error, hoc, hobj, tot_abort]
  | none =>
  cases hbo : s.req.busyobj with
  | some _ => simp [cnt_error, hoc, hobj, hbo, tot_abort]
  | none =>
  cases hstats : a.VBO_GetBusyObj.stats with
  | true => simp [cnt_error, hoc, hobj, hbo, hstats, tot_abort]
  | false =>
  cases halloc : a.STV_NewObject.obj with
  | none =>
    cases hfoc : a.STV_NewObject.fetch_objcore with
    | none => simp [cnt_error, emit, upd_busyobj, hoc, hobj, hbo, hstats, halloc, hfoc, tot_abort]
    | some oc =>
      cases hd : (a.HSH_Deref != 0) with
      | true =>
        simp [cnt_error, emit, upd_busyobj, hoc, hobj, hbo, hstats, halloc, hfoc, hd, tot_abort]
      | false =>
        simp [cnt_error, emit, upd_busyobj, VBO_DerefBusyObj, hoc, hobj, hbo, hstats, halloc,
          hfoc, hd, tot_ok, steps_of_append, steps_of_cons, steps_of_nil]
  | some o =>
    cases hfoc : a.STV_NewObject.fetch_objcore with
    | some _ =>
      simp [cnt_error, emit, upd_busyobj, hoc, hobj, hbo, hstats, halloc, hfoc, tot_abort]
    | none =>
      rw [cnt_error_alloc k a s o hoc hobj hbo hstats halloc hfoc]
      refine tot_mono (cnt_error_dispatch_steps k a _) ?_
      intro r hr
      rw [hr]
      simp [steps_of_append, steps_of_cons, steps_of_nil]

theorem cnt_error_edge (k : params) (a : answers) (s : State) :
    (cnt_error k a s).tot (fun r =>
      steps_of r.2.trace = steps_of s.trace
      ∧ r.2.req.restarts = s.req.restarts
      ∧ (r.1 = REQ_FSM_MORE →
          (r.2.req.req_step = R_STP_RESTART ∧ s.req.restarts < k.max_restarts)
          ∨ (r.2.req.req_step = R_STP_PREPRESP ∧ r.2.req.busyobj = none))) :=
  tot_mono (tot_and (cnt_error_steps k a s) (cnt_error_restarts k a s))
    (fun _ h => ⟨h.1, h.2.1, h.2.2⟩)


theorem steps_of_emit_step (u : req_step) (s : State) :
    steps_of (emit (Event.step u) s).trace = steps_of s.trace ++ [u] := by
  simp [emit, steps_of_append, steps_of_cons_step, steps_of_nil]

theorem CNT_dispatch_edge (k : params) (a : answers) (s : State) (hinv : busyobj_inv s)
    (hover : fetch_over a.VBF_Fetch) :
    (CNT_dispatch k a s).tot (fun r =>
      steps_of r.2.trace = steps_of s.trace ++ [s.req.req_step]
      ∧ (r.1 = REQ_FSM_MORE →
          busyobj_inv r.2 ∧ turns_left k r.2 < turns_left k s
          ∧ s.req.restarts ≤ r.2.req.restarts
          ∧ (r.2.req.req_step = R_STP_RECV →
              s.req.req_step = R_STP_RESTART ∧ r.2.req.restarts = s.req.restarts + 1
              ∧ r.2.req.restarts < k.max_restarts))) := by
  simp only [CNT_dispatch, emit_req]
  unfold busyobj_inv at hinv
  cases hst : s.req.req_step <;> simp only [hst, reduceCtorEq, false_or, or_false, or_self,
    false_implies, true_implies, true_or, or_true] at hinv ⊢
  case R_STP_RECV =>
    refine tot_mono (cnt_recv_edge k a _) (fun r hr => ?_)
    simp only [emit_req, steps_of_emit_step] at hr
    obtain ⟨h1, -, h3, h4⟩ := hr
    refine ⟨h1, fun _ => ?_⟩
    rcases h4 with h | h | h | h | h <;>
      simp [busyobj_inv, turns_left, passes_left, step_rank, h, hst, h3] <;> omega
  case R_STP_PIPE =>
    refine tot_mono (cnt_pipe_edge k a _) (fun r hr => ?_)
    simp only [emit_req, steps_of_emit_step] at hr
    obtain ⟨h1, h2⟩ := hr
    exact ⟨h1, fun hm => by rw [h2] at hm; cases hm⟩
  case R_STP_PASS =>
    refine tot_mono (cnt_pass_edge k a _) (fun r hr => ?_)
    simp only [emit_req, steps_of_emit_step] at hr
    obtain ⟨h1, -, h3, h4⟩ := hr
    refine ⟨h1, fun _ => ?_⟩
    rcases h4 with h | ⟨h, hb⟩
    · simp [busyobj_inv, turns_left, passes_left, step_rank, h, hst, h3]
    · simp [busyobj_inv, turns_left, passes_left, step_rank, h, hst, h3, hb, hover]
  case R_STP_LOOKUP =>
    refine tot_mono (cnt_lookup_edge k a _) (fun r hr => ?_)
    simp only [emit_req, steps_of_emit_step] at hr
    obtain ⟨h1, -, h3, h4⟩ := hr
    refine ⟨h1, fun hm => ?_⟩
    rcases h4 hm with ⟨h, -⟩ | h | ⟨h, hb⟩ | h | h <;>
      simp [busyobj_inv, turns_left, passes_left, step_rank, h, hst, h3, *] <;> omega
  case R_STP_PURGE =>
    refine tot_mono (cnt_purge_edge k a _) (fun r hr => ?_)
    simp only [emit_req, steps_of_emit_step] at hr
    obtain ⟨h1, -, h3, h⟩ := hr
    refine ⟨h1, fun _ => ?_⟩
    simp [busyobj_inv, turns_left, passes_left, step_rank, h, hst, h3]
  case R_STP_MISS =>
    refine tot_mono (cnt_miss_edge k a _) (fun r hr => ?_)
    simp only [emit_req, steps_of_emit_step] at hr
    obtain ⟨h1, -, h3, h4⟩ := hr
    refine ⟨h1, fun _ => ?_⟩
    rcases h4 with h | h | h | ⟨h, hb⟩ <;>
      simp [busyobj_inv, turns_left, passes_left, step_rank, h, hst, h3, hover, *] <;> omega
  case R_STP_FETCH =>
    refine tot_mono (cnt_fetch_edge k a _ hinv.2) (fun r hr => ?_)
    simp only [emit_req, steps_of_emit_step] at hr
    obtain ⟨h1, -, h3, h4⟩ := hr
    refine ⟨h1, fun _ => ?_⟩
    rcases h4 with h | ⟨h, hb⟩ <;>
      simp [busyobj_inv, turns_left, passes_left, step_rank, h, hst, h3, *]
  case R_STP_PREPRESP =>
    refine tot_mono (cnt_prepresp_edge k a _) (fun r hr => ?_)
    simp only [emit_req, steps_of_emit_step] at hr
    obtain ⟨h1, -, h3, h4⟩ := hr
    refine ⟨h1, fun _ => ?_⟩
    rcases h4 with ⟨h, hlt⟩ | ⟨h, hb⟩
    · simp [busyobj_inv, turns_left, passes_left, step_rank, h, hst, h3, hinv, *]
      omega
    · simp [busyobj_inv, turns_left, passes_left, step_rank, h, hst, h3, hinv, *]
  case R_STP_DELIVER =>
    refine tot_mono (cnt_deliver_edge k a _ hinv.1) (fun r hr => ?_)
    simp only [emit_req, steps_of_emit_step] at hr
    obtain ⟨h1, h2⟩ := hr
    exact ⟨h1, fun hm => by rw [h2] at hm; cases hm⟩
  case R_STP_ERROR =>
    refine tot_mono (cnt_error_edge k a _) (fun r hr => ?_)
    simp only [emit_req, steps_of_emit_step] at hr
    obtain ⟨h1, h3, h4⟩ := hr
    refine ⟨h1, fun hm => ?_⟩
    rcases h4 hm with ⟨h, hlt⟩ | ⟨h, hb⟩
    · simp [busyobj_inv, turns_left, passes_left, step_rank, h, hst, h3, *]
      omega
    · simp [busyobj_inv, turns_left, passes_left, step_rank, h, hst, h3, *]
  case R_STP_RESTART =>
    refine tot_mono (cnt_restart_edge k a _) (fun r hr => ?_)
    simp only [emit_req, steps_of_emit_step] at hr
    obtain ⟨h1, -, h3, h4⟩ := hr
    refine ⟨h1, fun _ => ?_⟩
    rcases h4 with ⟨h, hlt⟩ | ⟨h, hlt⟩
    · simp [busyobj_inv, turns_left, passes_left, step_rank, h, hst, h3, *]
    · simp [busyobj_inv, turns_left, passes_left, step_rank, h, hst, h3, *]
      omega

theorem CNT_step_tot (k : params) (a : answers) (s : State)
    {P Q : req_fsm_nxt × State → Prop} (h : (CNT_dispatch k a s).tot P)
    (hPQ : ∀ nxt s1, P (nxt, s1) →
      Q (nxt, { s1 with wrk := { s1.wrk with aws := a.aws } })) :
    (CNT_step k a s).tot Q := by
  simp only [CNT_step, WS_Assert, tot_bind, tot_assert]
  intro _ _
  refine tot_mono h ?_
  rintro ⟨nxt, s1⟩ hp
  simp only [tot_bind, tot_assert, tot_ok]
  intro _
  exact hPQ nxt s1 hp

theorem CNT_step_edge (k : params) (a : answers) (s : State) (hinv : busyobj_inv s)
    (hover : fetch_over a.VBF_Fetch) :
    (CNT_step k a s).tot (fun r =>
      steps_of r.2.trace = steps_of s.trace ++ [s.req.req_step]
      ∧ (r.1 = REQ_FSM_MORE →
          busyobj_inv r.2 ∧ turns_left k r.2 < turns_left k s
          ∧ s.req.restarts ≤ r.2.req.restarts
          ∧ (r.2.req.req_step = R_STP_RECV →
              s.req.req_step = R_STP_RESTART ∧ r.2.req.restarts = s.req.restarts + 1
              ∧ r.2.req.restarts < k.max_restarts))) :=
  CNT_step_tot k a s (CNT_dispatch_edge k a s hinv hover) (fun _ _ hp => hp)

/-! ## The entry into MISS -/

theorem cnt_fetch_next (k : params) (a : answers) (s : State) :
    (cnt_fetch k a s).sat (fun r =>
      r.2.req.req_step = R_STP_ERROR ∨ r.2.req.req_step = R_STP_PREPRESP) := by
  simp only [cnt_fetch]
  split <;> simp [sat_bind, sat_AZ, sat_AN, sat_assert, sat_ite, sat_ok, sat_abort, sat_hang]

theorem cnt_deliver_next (k : params) (a : answers) (s : State) :
    (cnt_deliver k a s).sat (fun r =>
      r.1 = REQ_FSM_MORE → r.2.req.req_step = R_STP_ERROR) := by
  simp only [cnt_deliver, cnt_deliver_write]
  split
  · simp [sat_abort]
  · split <;> simp [sat_bind, sat_AZ, sat_AN, sat_assert, sat_ite, sat_ok, sat_abort, sat_hang]

theorem CNT_dispatch_miss_entry (k : params) (a : answers) (s : State) (r : req_fsm_nxt × State)
    (h : CNT_dispatch k a s = Res.ok r) (hm : r.1 = REQ_FSM_MORE)
    (hs : r.2.req.req_step = R_STP_MISS) :
    s.req.req_step = R_STP_LOOKUP ∧ r.2.req.objcore = a.HSH_Lookup.boc
    ∧ r.2.req.busyobj = none ∧ (s.req.obj = none → r.2.req.obj = none)
    ∧ (∀ b, a.HSH_Lookup.boc = some b → test_bits b.flags OC_F_BUSY = true)
    ∧ (a.HSH_Lookup.lr = HSH_MISS → a.HSH_Lookup.boc ≠ none)
    ∧ (a.HSH_Lookup.lr ≠ HSH_MISS → (a.vcl .lookup).handling = VCL_RET_FETCH) := by
  simp only [CNT_dispatch, emit_req] at h
  cases hst : s.req.req_step <;> simp only [hst] at h
  case R_STP_RECV =>
    have := tot_sat (cnt_recv_edge k a _) r h
    rcases this.2.2.2 with e | e | e | e | e <;> rw [e] at hs <;> cases hs
  case R_STP_PIPE =>
    have := tot_sat (cnt_pipe_edge k a _) r h
    rw [this.2] at hm; cases hm
  case R_STP_PASS =>
    have := tot_sat (cnt_pass_edge k a _) r h
    rcases this.2.2.2 with e | ⟨e, -⟩ <;> rw [e] at hs <;> cases hs
  case R_STP_LOOKUP =>
    have := tot_sat (cnt_lookup_edge k a _) r h
    simp only [emit_req] at this
    rcases this.2.2.2 hm with ⟨-, h1, h2, h3, h4, h5, h6⟩ | e | ⟨e, -⟩ | e | e
    · exact ⟨rfl, h1, h2, h3, h4, h5, h6⟩
    all_goals (rw [e] at hs; cases hs)
  case R_STP_PURGE =>
    have := tot_sat (cnt_purge_edge k a _) r h
    rw [this.2.2.2] at hs; cases hs
  case R_STP_MISS =>
    have := tot_sat (cnt_miss_edge k a _) r h
    rcases this.2.2.2 with e | e | e | ⟨e, -⟩ <;> rw [e] at hs <;> cases hs
  case R_STP_FETCH =>
    rcases cnt_fetch_next k a _ r h with e | e <;> rw [e] at hs <;> cases hs
  case R_STP_PREPRESP =>
    have := tot_sat (cnt_prepresp_edge k a _) r h
    rcases this.2.2.2 with ⟨e, -⟩ | ⟨e, -⟩ <;> rw [e] at hs <;> cases hs
  case R_STP_DELIVER =>
    have e := cnt_deliver_next k a _ r h hm
    rw [e] at hs; cases hs
  case R_STP_ERROR =>
    have := tot_sat (cnt_error_edge k a _) r h
    rcases this.2.2 hm with ⟨e, -⟩ | ⟨e, -⟩ <;> rw [e] at hs <;> cases hs
  case R_STP_RESTART =>
    have := tot_sat (cnt_restart_edge k a _) r h
    rcases this.2.2.2 with ⟨e, -⟩ | ⟨e, -⟩ <;> rw [e] at hs <;> cases hs

theorem CNT_step_miss_entry (k : params) (a : answers) (s : State) (r : req_fsm_nxt × State)
    (h : CNT_step k a s = Res.ok r) (hm : r.1 = REQ_FSM_MORE)
    (hs : r.2.req.req_step = R_STP_MISS) :
    s.req.req_step = R_STP_LOOKUP ∧ r.2.req.objcore = a.HSH_Lookup.boc
    ∧ r.2.req.busyobj = none ∧ (s.req.obj = none → r.2.req.obj = none)
    ∧ (∀ b, a.HSH_Lookup.boc = some b → test_bits b.flags OC_F_BUSY = true)
    ∧ (a.HSH_Lookup.lr = HSH_MISS → a.HSH_Lookup.boc ≠ none)
    ∧ (a.HSH_Lookup.lr ≠ HSH_MISS → (a.vcl .lookup).handling = VCL_RET_FETCH) := by
  obtain ⟨nxt, s'⟩ := r
  obtain ⟨-, -, s1, h1, rfl⟩ := (CNT_step_eq_ok k a s nxt s').1 h
  exact CNT_dispatch_miss_entry k a s (nxt, s1) h1 hm hs

theorem CNT_boundary_last (k : params) : ∀ (n : Nat) (env : Nat → answers) (s t : State),
    CNT_boundary k env (n + 1) s = some t →
    ∃ u, CNT_boundary k env n s = some u
      ∧ CNT_step k (env n) u = Res.ok (REQ_FSM_MORE, t) := by
  intro n
  induction n with
  | zero =>
    intro env s t h
    simp only [CNT_boundary] at h
    cases hc : CNT_step k (env 0) s with
    | ok p =>
      obtain ⟨nxt, s1⟩ := p
      cases nxt with
      | REQ_FSM_MORE =>
        simp only [hc, CNT_boundary, Option.some.injEq] at h
        subst h
        exact ⟨s, rfl, hc⟩
      | REQ_FSM_DONE => simp [hc] at h
      | REQ_FSM_DISEMBARK => simp [hc] at h
    | abort => simp [hc] at h
    | hang => simp [hc] at h
    | nofuel => simp [hc] at h
  | succ n ih =>
    intro env s t h
    rw [CNT_boundary] at h
    cases hc : CNT_step k (env 0) s with
    | ok p =>
      obtain ⟨nxt, s1⟩ := p
      cases nxt with
      | REQ_FSM_MORE =>
        simp only [hc] at h
        obtain ⟨u, hu, hstep⟩ := ih _ s1 t h
        refine ⟨u, ?_, ?_⟩
        · rw [CNT_boundary]; simp only [hc]; exact hu
        · exact hstep
      | REQ_FSM_DONE => simp [hc] at h
      | REQ_FSM_DISEMBARK => simp [hc] at h
    | abort => simp [hc] at h
    | hang => simp [hc] at h
    | nofuel => simp [hc] at h

theorem CNT_step_miss_null (k : params) (a : answers) (t : State)
    (hs : t.req.req_step = R_STP_MISS) (hoc : t.req.objcore = none) :
    CNT_step k a t = Res.abort :=
  CNT_step_abort k a t (by simp [CNT_dispatch, cnt_miss, emit, hs, hoc])

/-- C21: the state in which the dispatcher enters MISS.  Take a run of the loop
of `CNT_Request` from an entry state (step RECV or LOOKUP, no handle held) and
any answers of the hooks and collaborators, and a state boundary at which the
step about to run is MISS.  Then `obj` and `busyobj` are null; the boundary is
not the first one, the turn before it ran `cnt_lookup`, and `objcore` is the
`boc` that the index lookup of that turn returned; an `objcore` that is not
null carries the BUSY flag; `objcore` is not null when the index answered MISS;
and when the index answered otherwise, `hook.lookup` answered FETCH.  So on
entry to MISS `objcore` is null exactly after a FETCH verdict on a hit that came
without a `boc`, and the handler entered, `cnt_miss`, then aborts on its first
assertion whatever the answers. -/
theorem CNT_Request_miss_entry (cache_param : params) (env : Nat → answers) (s : State)
    (hstep : s.req.req_step = R_STP_RECV ∨ s.req.req_step = R_STP_LOOKUP)
    (hobj : s.req.obj = none) (hoc : s.req.objcore = none) (hbo : s.req.busyobj = none) :
    ∀ n t, CNT_boundary cache_param env n { s with req := { s.req with wrk := true } } = some t →
      t.req.req_step = R_STP_MISS →
      t.req.obj = none ∧ t.req.busyobj = none
      ∧ (∀ b, t.req.objcore = some b → test_bits b.flags OC_F_BUSY = true)
      ∧ (∃ m, n = m + 1 ∧ t.req.objcore = (env m).HSH_Lookup.boc
          ∧ ((env m).HSH_Lookup.lr = HSH_MISS → t.req.objcore ≠ none)
          ∧ ((env m).HSH_Lookup.lr ≠ HSH_MISS →
              ((env m).vcl .lookup).handling = VCL_RET_FETCH))
      ∧ (t.req.objcore = none → ∀ a, CNT_step cache_param a t = Res.abort) := by
  intro n t hb hs
  have hi := CNT_boundary_handles cache_param env n _ t (handles_inv_entry s hobj hoc hbo) hb
  unfold handles_inv at hi
  simp only [hs] at hi
  cases n with
  | zero =>
    simp only [CNT_boundary, Option.some.injEq] at hb
    subst hb
    simp only at hs
    rcases hstep with h | h <;> rw [h] at hs <;> cases hs
  | succ m =>
    obtain ⟨u, -, hu⟩ := CNT_boundary_last cache_param m env _ t hb
    obtain ⟨-, h1, -, -, h4, h5, h6⟩ := CNT_step_miss_entry cache_param (env m) u _ hu rfl hs
    simp only at h1
    refine ⟨hi.1, hi.2, ?_, ⟨m, rfl, h1, ?_, h6⟩,
      fun hn a => CNT_step_miss_null cache_param a t hs hn⟩
    · intro b hb'
      rw [h1] at hb'
      exact h4 b hb'
    · intro hl
      rw [h1]
      exact h5 hl

/-- Witness of C21, at the input on which the code enters MISS without an
objcore: a warm hit without a `boc` on which `hook.lookup` answers FETCH.  The second
state boundary enters MISS with `obj` and `busyobj` null and `objcore` null too;
`cnt_miss` aborts there, and so does the call of `CNT_Request`. -/
theorem CNT_Request_miss_entry_witness :
    ∃ t, CNT_boundary sample_params (fun _ => sample_fetch_on_hit) 2
          { sample_state R_STP_RECV with
            req := { (sample_state R_STP_RECV).req with wrk := true } } = some t
      ∧ t.req.req_step = R_STP_MISS
      ∧ t.req.obj = none ∧ t.req.busyobj = none
      ∧ t.req.objcore = sample_fetch_on_hit.HSH_Lookup.boc
      ∧ t.req.objcore = none
      ∧ CNT_step sample_params sample_fetch_on_hit t = Res.abort
      ∧ CNT_Request sample_params (fun _ => sample_fetch_on_hit) 44 (sample_state R_STP_RECV)
          = Res.abort := by
  have hb : (CNT_boundary sample_params (fun _ => sample_fetch_on_hit) 2
      { sample_state R_STP_RECV with
        req := { (sample_state R_STP_RECV).req with wrk := true } }).map
          (fun t => t.req.req_step) = some R_STP_MISS := by decide
  cases hc : CNT_boundary sample_params (fun _ => sample_fetch_on_hit) 2
      { sample_state R_STP_RECV with
        req := { (sample_state R_STP_RECV).req with wrk := true } } with
  | none => rw [hc] at hb; cases hb
  | some t =>
    rw [hc] at hb
    have hs : t.req.req_step = R_STP_MISS := by simpa using hb
    obtain ⟨h1, h2, -, ⟨m, hm, h4, -, -⟩, h5⟩ := CNT_Request_miss_entry sample_params
      (fun _ => sample_fetch_on_hit) (sample_state R_STP_RECV) (Or.inl rfl) rfl rfl rfl 2 t hc hs
    have hn : t.req.objcore = none := h4.trans rfl
    exact ⟨t, rfl, hs, h1, h2, h4, hn, h5 hn _, by decide⟩

/-! ## The loop ends -/

theorem CNT_loop_fuel (k : params) : ∀ (fuel : Nat) (env : Nat → answers) (s : State) (d : Nat),
    CNT_loop k env fuel s ≠ Res.nofuel →
    CNT_loop k env (fuel + d) s = CNT_loop k env fuel s := by
  intro fuel
  induction fuel with
  | zero => intro env s d h; exact absurd rfl h
  | succ n ih =>
    intro env s d h
    have e : n + 1 + d = (n + d) + 1 := by omega
    rw [e, CNT_loop_succ, CNT_loop_succ]
    rw [CNT_loop_succ] at h
    cases hc : CNT_step k (env 0) s with
    | ok p =>
      obtain ⟨nxt, s1⟩ := p
      cases nxt with
      | REQ_FSM_MORE =>
        simp only [hc] at h ⊢
        exact ih _ s1 d h
      | REQ_FSM_DONE => rfl
      | REQ_FSM_DISEMBARK => rfl
    | abort => rfl
    | hang => rfl
    | nofuel => rfl

theorem recv_count_step (t t1 : List Event) (u : req_step)
    (h : steps_of t1 = steps_of t ++ [u]) :
    recv_count t1 = recv_count t + (if u = R_STP_RECV then 1 else 0) := by
  unfold recv_count
  rw [h, List.count_append]
  cases u <;> simp

theorem recv_inv_step (k : params) (c0 : Nat) (s s1 : State)
    (hri : recv_inv k c0 s)
    (htr : steps_of s1.trace = steps_of s.trace ++ [s.req.req_step])
    (hle : s.req.restarts ≤ s1.req.restarts)
    (hrecv : s1.req.req_step = R_STP_RECV →
      s.req.req_step = R_STP_RESTART ∧ s1.req.restarts = s.req.restarts + 1
      ∧ s1.req.restarts < k.max_restarts) :
    recv_inv k c0 s1 := by
  have hc := recv_count_step s.trace s1.trace _ htr
  have hcap := restart_cap_ge k
  unfold recv_inv at hri ⊢
  obtain ⟨h1, h2⟩ := hri
  by_cases hs : s.req.req_step = R_STP_RECV
  · have := h1 hs
    rw [hs] at hc
    simp only [if_true] at hc
    refine ⟨fun h => ?_, fun _ => by omega⟩
    have := (hrecv h).1
    rw [hs] at this
    cases this
  · have := h2 hs
    simp only [hs, if_false] at hc
    refine ⟨fun h => ?_, fun _ => by omega⟩
    obtain ⟨-, h3, h4⟩ := hrecv h
    omega

theorem recv_inv_last (k : params) (c0 : Nat) (s : State) (t1 : List Event)
    (hri : recv_inv k c0 s)
    (htr : steps_of t1 = steps_of s.trace ++ [s.req.req_step]) :
    recv_count t1 ≤ c0 + restart_cap k := by
  have hc := recv_count_step s.trace t1 _ htr
  unfold recv_inv at hri
  obtain ⟨h1, h2⟩ := hri
  by_cases hs : s.req.req_step = R_STP_RECV
  · have := h1 hs
    rw [hs] at hc
    simp only [if_true] at hc
    omega
  · have := h2 hs
    simp only [hs, if_false] at hc
    omega

theorem CNT_loop_total (k : params) : ∀ (fuel : Nat) (env : Nat → answers) (s : State)
    (c0 n0 : Nat),
    (∀ i, fetch_over (env i).VBF_Fetch) → busyobj_inv s → turns_left k s < fuel →
    (steps_of s.trace).length + turns_left k s + 1 ≤ n0 →
    (CNT_loop k env fuel s).tot (fun r =>
      r.1 ≠ REQ_FSM_MORE ∧ (steps_of r.2.trace).length ≤ n0
      ∧ (recv_inv k c0 s → recv_count r.2.trace ≤ c0 + restart_cap k)) := by
  intro fuel
  induction fuel with
  | zero => intro env s c0 n0 _ _ h; omega
  | succ n ih =>
    intro env s c0 n0 hover hinv hfuel hlen
    have hstep := CNT_step_edge k (env 0) s hinv (hover 0)
    rw [CNT_loop_succ]
    cases hc : CNT_step k (env 0) s with
    | ok p =>
      obtain ⟨nxt, s1⟩ := p
      rw [hc] at hstep
      obtain ⟨htr, hm⟩ := hstep
      simp only at htr hm
      have hl : (steps_of s1.trace).length = (steps_of s.trace).length + 1 := by
        rw [htr]; simp
      cases nxt with
      | REQ_FSM_MORE =>
        obtain ⟨hb, hlt, hle, hrecv⟩ := hm rfl
        simp only []
        refine tot_mono (ih (fun i => env (i + 1)) s1 c0 n0 (fun i => hover (i + 1)) hb
          (by omega) (by omega)) ?_
        intro r ⟨h1, h2, h3⟩
        exact ⟨h1, h2, fun hri => h3 (recv_inv_step k c0 s s1 hri htr hle hrecv)⟩
      | REQ_FSM_DONE =>
        exact ⟨by simp, by simp only; omega, fun hri => recv_inv_last k c0 s _ hri htr⟩
      | REQ_FSM_DISEMBARK =>
        exact ⟨by simp, by simp only; omega, fun hri => recv_inv_last k c0 s _ hri htr⟩
    | abort => trivial
    | hang => rw [hc] at hstep; exact hstep.elim
    | nofuel => rw [hc] at hstep; exact hstep.elim


theorem CNT_boundary_recv (k : params) (env : Nat → answers) (s : State) (c0 : Nat)
    (hover : ∀ i, fetch_over (env i).VBF_Fetch) (hinv : busyobj_inv s)
    (hri : recv_inv k c0 s) :
    ∀ n t, CNT_boundary k env n s = some t → busyobj_inv t ∧ recv_inv k c0 t := by
  intro n
  induction n with
  | zero =>
    intro t h
    simp only [CNT_boundary, Option.some.injEq] at h
    subst h
    exact ⟨hinv, hri⟩
  | succ m ih =>
    intro t h
    obtain ⟨u, hu, hstep⟩ := CNT_boundary_last k m env s t h
    obtain ⟨hb, hr⟩ := ih u hu
    obtain ⟨htr, hm⟩ := tot_sat (CNT_step_edge k (env m) u hb (hover m)) _ hstep
    obtain ⟨hb', -, hle, hrecv⟩ := hm rfl
    exact ⟨hb', recv_inv_step k c0 u t hr htr hle hrecv⟩

theorem recv_inv_count (k : params) (c0 : Nat) (t : State) (h : recv_inv k c0 t) :
    recv_count t.trace + (if t.req.req_step = R_STP_RECV then 1 else 0)
      ≤ c0 + max 1 k.max_restarts := by
  unfold recv_inv restart_cap at h
  obtain ⟨h1, h2⟩ := h
  by_cases hs : t.req.req_step = R_STP_RECV
  · have := h1 hs
    simp only [hs, if_true]
    omega
  · have := h2 hs
    simp only [hs, if_false]
    omega

theorem recv_inv_entry (k : params) (s : State)
    (hs : s.req.req_step = R_STP_RECV) (hr : s.req.restarts = 0) :
    recv_inv k (recv_count s.trace) { s with req := { s.req with wrk := true } } := by
  have hpos := restart_cap_pos k
  unfold recv_inv
  simp only [hs, hr]
  exact ⟨fun _ => ⟨by omega, by omega⟩, fun h => absurd rfl h⟩

theorem CNT_Request_total (k : params) (env : Nat → answers) (fuel : Nat) (s : State)
    (hover : ∀ i, fetch_over (env i).VBF_Fetch) (hfuel : turns_bound k s ≤ fuel) :
    (CNT_Request k env fuel s).tot (fun r =>
      (r.1 = REQ_FSM_DONE ∨ r.1 = REQ_FSM_DISEMBARK)
      ∧ (steps_of r.2.trace).length ≤ (steps_of s.trace).length + turns_bound k s
      ∧ (s.req.req_step = R_STP_RECV → s.req.restarts = 0 →
          recv_count r.2.trace ≤ recv_count s.trace + max 1 k.max_restarts)) := by
  simp only [CNT_Request, tot_bind, tot_assert, tot_AN]
  intro hstep _
  simp only [Bool.or_eq_true, beq_iff_eq] at hstep
  have hinv : busyobj_inv { s with req := { s.req with wrk := true } } := by
    unfold busyobj_inv
    rcases hstep with h | h <;> simp [h]
  have hT : turns_left k { s with req := { s.req with wrk := true } } < turns_bound k s := by
    unfold turns_left passes_left turns_bound step_rank
    rcases hstep with h | h <;> simp only [h] <;> omega
  have hlt : turns_left k { s with req := { s.req with wrk := true } } < fuel := by omega
  have hlen : (steps_of ({ s with req := { s.req with wrk := true } } : State).trace).length
      + turns_left k { s with req := { s.req with wrk := true } } + 1
      ≤ (steps_of s.trace).length + turns_bound k s := by
    show (steps_of s.trace).length + _ + 1 ≤ _
    omega
  refine tot_mono (CNT_loop_total k fuel env _ (recv_count s.trace) _ hover hinv hlt hlen) ?_
  intro r ⟨h1, h2, h3⟩
  obtain ⟨nxt, s1⟩ := r
  simp only [tot_ok] at h1 h2 h3 ⊢
  have htr : steps_of
      ({ (if (nxt == REQ_FSM_DONE) = true then CNT_Request_done s1 else s1) with
          req := { (if (nxt == REQ_FSM_DONE) = true then CNT_Request_done s1 else s1).req with
            wrk := false } } : State).trace = steps_of s1.trace := by
    split
    · simp [CNT_Request_done, emit, steps_of_append, steps_of_cons, steps_of_nil]
    · rfl
  intro _
  refine ⟨?_, ?_, ?_⟩
  · cases nxt <;> simp at h1 ⊢
  · rw [htr]; exact h2
  · intro hs hr
    have hpos := restart_cap_pos k
    have hri : recv_inv k (recv_count s.trace) { s with req := { s.req with wrk := true } } := by
      unfold recv_inv
      simp only [hs, hr]
      exact ⟨fun _ => ⟨by omega, by omega⟩, fun h => absurd rfl h⟩
    have := h3 hri
    unfold recv_count at this ⊢
    rw [htr]
    unfold restart_cap at this
    omega

/-- C23: the dispatch loop terminates.  Take any `max_restarts`, any entry state
and any sequence of answers of the hooks and collaborators in which every fetch
that is started reaches a terminal state.  (1) Given at least
`9 * max 1 (max_restarts - restarts) + 8` turns, `CNT_Request` aborts or returns
DONE or DISEMBARK: it neither runs out of turns nor waits for ever (a step other
than RECV or LOOKUP on entry aborts at the first assertion).  (2) Whenever the
call returns, with whatever number of turns allowed, it returns DONE or
DISEMBARK, the handlers it has invoked are at most that bound, and, if it
started at RECV with `restarts = 0`, `cnt_recv` is among them at most
`max 1 max_restarts` times.  (3) Allowing more turns than the bound changes
nothing.  (4) In a run that started at RECV with `restarts = 0`, at every state
boundary the invocations of `cnt_recv` so far, the one about to start included,
are at most `max 1 max_restarts`: this covers the calls that abort later. -/
theorem CNT_Request_terminates (cache_param : params) (env : Nat → answers) (s : State)
    (hover : ∀ i, fetch_over (env i).VBF_Fetch) :
    (∀ fuel, turns_bound cache_param s ≤ fuel →
      CNT_Request cache_param env fuel s = Res.abort
      ∨ ∃ s', CNT_Request cache_param env fuel s = Res.ok (REQ_FSM_DONE, s')
          ∨ CNT_Request cache_param env fuel s = Res.ok (REQ_FSM_DISEMBARK, s'))
    ∧ (∀ fuel nxt s', CNT_Request cache_param env fuel s = Res.ok (nxt, s') →
        (nxt = REQ_FSM_DONE ∨ nxt = REQ_FSM_DISEMBARK)
        ∧ (steps_of s'.trace).length ≤ (steps_of s.trace).length + turns_bound cache_param s
        ∧ (s.req.req_step = R_STP_RECV → s.req.restarts = 0 →
            recv_count s'.trace ≤ recv_count s.trace + max 1 cache_param.max_restarts))
    ∧ (∀ fuel, turns_bound cache_param s ≤ fuel →
        CNT_Request cache_param env fuel s
          = CNT_Request cache_param env (turns_bound cache_param s) s)
    ∧ (∀ n t,
        CNT_boundary cache_param env n { s with req := { s.req with wrk := true } } = some t →
        s.req.req_step = R_STP_RECV → s.req.restarts = 0 →
        recv_count t.trace + (if t.req.req_step = R_STP_RECV then 1 else 0)
          ≤ recv_count s.trace + max 1 cache_param.max_restarts) := by
  have hfuel : ∀ fuel, turns_bound cache_param s ≤ fuel →
      CNT_Request cache_param env fuel s
        = CNT_Request cache_param env (turns_bound cache_param s) s := by
    intro fuel hf
    obtain ⟨d, rfl⟩ := Nat.exists_eq_add_of_le hf
    have ht := CNT_Request_total cache_param env (turns_bound cache_param s) s hover
      (Nat.le_refl _)
    simp only [CNT_Request] at ht ⊢
    cases h1 : assert (s.req.req_step == R_STP_LOOKUP || s.req.req_step == R_STP_RECV) with
    | ok _ =>
      cases h2 : AN (test_bits s.req.vsl_wid cache_param.VSL_CLIENTMARKER) with
      | ok _ =>
        simp only [h1, h2, Res.ok_bind] at ht ⊢
        have hn : CNT_loop cache_param env (turns_bound cache_param s)
            { s with req := { s.req with wrk := true } } ≠ Res.nofuel := by
          intro hn
          rw [hn] at ht
          exact ht
        rw [CNT_loop_fuel cache_param _ env _ d hn]
      | abort => simp
      | hang => simp
      | nofuel => simp
    | abort => simp
    | hang => simp
    | nofuel => simp
  have hret : ∀ fuel nxt s', CNT_Request cache_param env fuel s = Res.ok (nxt, s') →
      CNT_Request cache_param env (turns_bound cache_param s) s = Res.ok (nxt, s') := by
    intro fuel nxt s' h
    by_cases hf : turns_bound cache_param s ≤ fuel
    · rw [← hfuel fuel hf]; exact h
    · obtain ⟨d, hd⟩ := Nat.exists_eq_add_of_le (Nat.le_of_lt (Nat.lt_of_not_le hf))
      rw [hd]
      simp only [CNT_Request] at h ⊢
      cases h1 : assert (s.req.req_step == R_STP_LOOKUP || s.req.req_step == R_STP_RECV) with
      | ok _ =>
        cases h2 : AN (test_bits s.req.vsl_wid cache_param.VSL_CLIENTMARKER) with
        | ok _ =>
          simp only [h1, h2, Res.ok_bind] at h ⊢
          have hn : CNT_loop cache_param env fuel
              { s with req := { s.req with wrk := true } } ≠ Res.nofuel := by
            intro hn
            rw [hn] at h
            cases h
          rw [CNT_loop_fuel cache_param _ env _ d hn]
          exact h
        | abort => simp [h1, h2] at h
        | hang => simp [h1, h2] at h
        | nofuel => simp [h1, h2] at h
      | abort => simp [h1] at h
      | hang => simp [h1] at h
      | nofuel => simp [h1] at h
  refine ⟨fun fuel hf => ?_, fun fuel nxt s' h => ?_, hfuel, fun n t hb hs hr => ?_⟩
  · rcases tot_cases (CNT_Request_total cache_param env fuel s hover hf) with h | ⟨r, h, hr, -⟩
    · exact Or.inl h
    · obtain ⟨nxt, s'⟩ := r
      rcases hr with hr | hr
      · simp only at hr; subst hr; exact Or.inr ⟨s', Or.inl h⟩
      · simp only at hr; subst hr; exact Or.inr ⟨s', Or.inr h⟩
  · exact tot_sat (CNT_Request_total cache_param env (turns_bound cache_param s) s hover
      (Nat.le_refl _)) (nxt, s') (hret fuel nxt s' h)
  · have hinv : busyobj_inv { s with req := { s.req with wrk := true } } := by
      unfold busyobj_inv
      simp [hs]
    exact recv_inv_count cache_param _ t
      (CNT_boundary_recv cache_param env _ _ hover hinv (recv_inv_entry cache_param s hs hr)
        n t hb).2

set_option maxRecDepth 8192 in
/-- Witness of C23: a warm hit that `hook.deliver` wants restarted every time,
with a budget of four restarts.  The call returns DONE after nineteen handlers,
`cnt_recv` among them four times: the bound `max 1 max_restarts` is reached. -/
theorem CNT_Request_terminates_witness :
    (∀ i : Nat, fetch_over ((fun _ => sample_restart_at_deliver) i).VBF_Fetch)
    ∧ turns_bound sample_params (sample_state R_STP_RECV) = 44
    ∧ ∃ s', CNT_Request sample_params (fun _ => sample_restart_at_deliver) 44
          (sample_state R_STP_RECV) = Res.ok (REQ_FSM_DONE, s')
      ∧ (steps_of s'.trace).length = 19
      ∧ (steps_of s'.trace).length ≤ (steps_of (sample_state R_STP_RECV).trace).length + 44
      ∧ recv_count s'.trace = 4
      ∧ recv_count s'.trace
          ≤ recv_count (sample_state R_STP_RECV).trace + max 1 sample_params.max_restarts := by
  have hover : ∀ i : Nat, fetch_over ((fun _ => sample_restart_at_deliver) i).VBF_Fetch :=
    fun _ => (by decide : fetch_over sample_restart_at_deliver.VBF_Fetch)
  have hrun : (match CNT_Request sample_params (fun _ => sample_restart_at_deliver) 44
      (sample_state R_STP_RECV) with
      | Res.ok (n, t) => some (n, (steps_of t.trace).length, recv_count t.trace)
      | _ => none) = some (REQ_FSM_DONE, 19, 4) := by decide
  refine ⟨hover, by decide, ?_⟩
  cases hc : CNT_Request sample_params (fun _ => sample_restart_at_deliver) 44
      (sample_state R_STP_RECV) with
  | ok p =>
    obtain ⟨n, t⟩ := p
    rw [hc] at hrun
    simp only [Option.some.injEq, Prod.mk.injEq] at hrun
    obtain ⟨rfl, h19, h4⟩ := hrun
    obtain ⟨-, h2, h3⟩ := (CNT_Request_terminates sample_params
      (fun _ => sample_restart_at_deliver) (sample_state R_STP_RECV) hover).2.1 44 _ t hc
    exact ⟨t, rfl, h19, h2, h4, h3 rfl rfl⟩
  | abort => rw [hc] at hrun; cases hrun
  | hang => rw [hc] at hrun; cases hrun
  | nofuel => rw [hc] at hrun; cases hrun

end Varnish
